import Mathlib

/-!
# openseekthermal: a verification development

A shallow embedding of the camera driver of `openseekthermal` (device profile,
frame header, frame capture and frame post-processing) together with theorems
about it.

Modelling conventions.

* Memory is a sequence of bytes (`List Byte`).  A `uint16_t` object occupies two
  bytes; the host is taken to be little-endian, so `htole16`/`le16toh` are the
  identity and a 16-bit load at byte offset `off` is `b[off] + 256 * b[off+1]`.
* C `int` and `size_t` values are `Int` and `Nat`; every quantity that occurs
  stays far below `2^31`, and each place where a value is narrowed to
  `uint16_t` carries an explicit reduction modulo `2^16`.
* A C++ exception is an `Except.error`.  An access outside a buffer (undefined
  behaviour in C++) is reported as `Fault.OutOfBounds`.
* libusb is an environment (`Usb`): a stream of replies of the device to the
  successive control and bulk transfers, and the list of calls issued so far.
-/

namespace openseekthermal

/-! ## Bytes and 16-bit little-endian access -/

abbrev Byte := Fin 256

/-- The ways an execution can leave the normal path: the four exception classes of
`exceptions.hpp`, an access outside a buffer, and a loop of the model that used up
its iteration budget. -/
inductive Fault where
  | InvalidDeviceError
  | SeekRuntimeError
  | SeekSetupError
  | USBError (error_code : Int)
  | OutOfBounds
  | OutOfFuel
  deriving DecidableEq, Repr

deriving instance DecidableEq for Except

/-- Low byte of a 16-bit value. -/
def loByte (v : Nat) : Byte := ⟨v % 256, Nat.mod_lt _ (by decide)⟩

/-- High byte of a 16-bit value. -/
def hiByte (v : Nat) : Byte := ⟨v / 256 % 256, Nat.mod_lt _ (by decide)⟩

/-- The 16-bit little-endian value stored at byte offset `off` (`le16toh` of the
two bytes at `off`, `off + 1`). -/
def readU16LE (buf : List Byte) (off : Nat) : Nat :=
  (buf.getD off 0).val + 256 * (buf.getD (off + 1) 0).val

/-- Store `v`, narrowed to 16 bits, little-endian at byte offset `off`. -/
def writeU16LE (buf : List Byte) (off : Nat) (v : Nat) : List Byte :=
  (buf.set off (loByte v)).set (off + 1) (hiByte v)

/-- A 16-bit load that checks that both bytes exist. -/
def loadU16 (buf : List Byte) (off : Nat) : Except Fault Nat :=
  if off + 1 < buf.length then .ok (readU16LE buf off) else .error .OutOfBounds

/-- A 16-bit store that checks that both bytes exist. -/
def storeU16 (buf : List Byte) (off : Nat) (v : Nat) : Except Fault (List Byte) :=
  if off + 1 < buf.length then .ok (writeU16LE buf off v) else .error .OutOfBounds

/-- Copy `src` over `buf` starting at byte offset `off` (no bounds check). -/
def writeBytes (buf : List Byte) (off : Nat) (src : List Byte) : List Byte :=
  buf.take off ++ src ++ buf.drop (off + src.length)

/-- Copy `src` over `buf` at `off`, checking that the destination range exists. -/
def storeBytes (buf : List Byte) (off : Nat) (src : List Byte) : Except Fault (List Byte) :=
  if off + src.length ≤ buf.length then .ok (writeBytes buf off src) else .error .OutOfBounds

/-! ## `SeekDevice` (usb/seek_device.hpp, usb/seek_device.cpp) -/

/-- The enum `SeekDevice::Type`.  It is used as a bit mask (`operator|`,
`operator&`), so a value is its underlying integer. -/
structure SeekDeviceType where
  bits : Nat
  deriving DecidableEq, Repr

namespace SeekDeviceType

def None : SeekDeviceType := ⟨0⟩
def SeekThermalCompact : SeekDeviceType := ⟨1⟩
def SeekThermalCompactPro : SeekDeviceType := ⟨2⟩
def SeekThermalNano200 : SeekDeviceType := ⟨4⟩
def SeekThermalNano300 : SeekDeviceType := ⟨8⟩
def All : SeekDeviceType := ⟨1 ||| 2 ||| 4 ||| 8⟩

end SeekDeviceType

/-- The three models the driver implements. -/
def SeekDeviceType.supported (t : SeekDeviceType) : Prop :=
  t = .SeekThermalCompact ∨ t = .SeekThermalCompactPro ∨ t = .SeekThermalNano300

instance (t : SeekDeviceType) : Decidable t.supported := by
  unfold SeekDeviceType.supported; infer_instance

structure SeekDevice where
  type : SeekDeviceType := .None
  serial : String := ""
  usb_port : String := ""
  deriving DecidableEq, Repr

namespace SeekDevice

def getFrameWidth (d : SeekDevice) : Except Fault Nat :=
  if d.type = .SeekThermalCompact then .ok 206
  else if d.type = .SeekThermalNano300 ∨ d.type = .SeekThermalCompactPro then .ok 320
  else .error .InvalidDeviceError

def getFrameHeight (d : SeekDevice) : Except Fault Nat :=
  if d.type = .SeekThermalCompact then .ok 156
  else if d.type = .SeekThermalNano300 ∨ d.type = .SeekThermalCompactPro then .ok 240
  else .error .InvalidDeviceError

def _getVendorID (d : SeekDevice) : Except Fault Nat :=
  if d.type = .None ∨ d.type = .All then .error .InvalidDeviceError else .ok 0x289d

def _getProductID (d : SeekDevice) : Except Fault Nat :=
  if d.type = .SeekThermalCompact then .ok 0x0010
  else if d.type = .SeekThermalCompactPro ∨ d.type = .SeekThermalNano300 then .ok 0x0011
  else .error .InvalidDeviceError

def _getFrameTransferTotalSize (d : SeekDevice) : Except Fault Nat :=
  if d.type = .SeekThermalCompact then .ok 64896
  else if d.type = .SeekThermalCompactPro ∨ d.type = .SeekThermalNano300 then .ok 177840
  else .error .InvalidDeviceError

def _getFrameTransferRequestSize (d : SeekDevice) : Except Fault Nat :=
  if d.type = .SeekThermalCompact then .ok 16224
  else if d.type = .SeekThermalCompactPro ∨ d.type = .SeekThermalNano300 then .ok 13680
  else .error .InvalidDeviceError

def _getFrameHeaderSize (d : SeekDevice) : Except Fault Nat :=
  if d.type = .SeekThermalCompact then .ok 0
  else if d.type = .SeekThermalCompactPro ∨ d.type = .SeekThermalNano300 then .ok 2736
  else .error .InvalidDeviceError

def _getFrameTransferDeviceRequestSize (d : SeekDevice) : Except Fault Nat :=
  if d.type = .SeekThermalCompact then .ok 32448
  else if d.type = .SeekThermalCompactPro ∨ d.type = .SeekThermalNano300 then .ok 88920
  else .error .InvalidDeviceError

def _getRowStep (d : SeekDevice) : Except Fault Nat :=
  if d.type = .SeekThermalCompact then .ok 416
  else if d.type = .SeekThermalCompactPro ∨ d.type = .SeekThermalNano300 then .ok 684
  else .error .InvalidDeviceError

/-- The size guard is `buffer.size() < 5`; the load of `data[2]` then touches
bytes 4 and 5 of the vector. -/
def _isCalibrationFrame (d : SeekDevice) (buffer : List Byte) : Except Fault Bool :=
  if d.type = .SeekThermalCompact ∨ d.type = .SeekThermalCompactPro
      ∨ d.type = .SeekThermalNano300 then
    if buffer.length < 5 then .ok false
    else do
      let v ← loadU16 buffer (2 * 2)
      .ok (v == 1)
  else .error .InvalidDeviceError

end SeekDevice

/-! ## `FrameHeader` (frame.hpp, frame.cpp) -/

inductive FrameType where
  | CALIBRATION_FRAME
  | THERMAL_FRAME
  | FIRST_FRAME
  | BEFORE_CALIBRATION_FRAME
  | AFTER_CALIBRATION_FRAME
  | UNKNOWN
  deriving DecidableEq, Repr

structure FrameHeader where
  type_ : SeekDeviceType := .None
  data_ : List Byte := []
  deriving DecidableEq, Repr

namespace FrameHeader

def GetFrameNumberOffset (type : SeekDeviceType) : Except Fault Nat :=
  if type = .SeekThermalCompact then .ok 80
  else if type = .SeekThermalCompactPro ∨ type = .SeekThermalNano300 then .ok 2
  else .error .InvalidDeviceError

def GetFrameTypeOffset (type : SeekDeviceType) : Except Fault Nat :=
  if type = .SeekThermalCompact then .ok 20
  else if type = .SeekThermalCompactPro ∨ type = .SeekThermalNano300 then .ok 4
  else .error .InvalidDeviceError

def GetMinHeaderSize (type : SeekDeviceType) : Except Fault Nat :=
  if type = .SeekThermalCompact then .ok 82
  else if type = .SeekThermalCompactPro ∨ type = .SeekThermalNano300 then .ok 32
  else .error .InvalidDeviceError

def getFrameNumber (h : FrameHeader) : Except Fault Int :=
  if h.type_ = .None then .ok (-1)
  else do
    let offset ← GetFrameNumberOffset h.type_
    if h.data_.length < offset + 2 then .error .SeekRuntimeError
    else do
      let v ← loadU16 h.data_ offset
      .ok (v : Int)

def _getRawFrameType (h : FrameHeader) : Except Fault Nat :=
  if h.type_ = .None then .ok 1337
  else do
    let offset ← GetFrameTypeOffset h.type_
    if h.data_.length < offset + 2 then .error .SeekRuntimeError
    else loadU16 h.data_ offset

def getFrameType (h : FrameHeader) : Except Fault FrameType :=
  if h.type_ = .None then .ok .UNKNOWN
  else do
    let raw ← _getRawFrameType h
    if raw = 1 then .ok .CALIBRATION_FRAME
    else if raw = 3 then .ok .THERMAL_FRAME
    else if raw = 4 then .ok .FIRST_FRAME
    else if raw = 6 then .ok .BEFORE_CALIBRATION_FRAME
    else if raw = 20 then .ok .AFTER_CALIBRATION_FRAME
    else .ok .UNKNOWN

end FrameHeader

/-! ## `SeekThermalCamera`: state and frame post-processing
(cameras/seek_thermal_camera.hpp, cameras/seek_thermal_camera.cpp) -/

inductive GrabFrameResult where
  | SUCCESS
  | DEVICE_NOT_OPEN
  | FAILED_TO_START_TRANSFER
  | TRANSFER_INCOMPLETE
  | BUFFER_TOO_SMALL
  | UNKNOWN_ERROR
  deriving DecidableEq, Repr

/-- The data members of `SeekThermalCamera` (the two mutexes apart).
`calibration_frame_` is the object representation of the `std::vector<uint16_t>`:
two bytes per sample, so its `size()` is `calibration_frame_.length / 2`.
`usb_device_handle_` and `usb_context_` are `none` for `nullptr`. -/
structure SeekThermalCamera where
  device_ : SeekDevice
  buffer_ : List Byte := []
  calibration_frame_ : List Byte := []
  usb_context_ : Option Nat := none
  usb_device_handle_ : Option Nat := none
  offset_ : Nat := 0x4000
  own_usb_context_ : Bool := false

namespace SeekThermalCamera

/-- The constructor: `calibration_frame_.resize( width * height, offset_ )`. -/
def new (device : SeekDevice) (usb_context : Option Nat) : Except Fault SeekThermalCamera := do
  let width ← device.getFrameWidth
  let height ← device.getFrameHeight
  .ok { device_ := device
        usb_context_ := usb_context
        calibration_frame_ :=
          (List.replicate (width * height) [loByte 0x4000, hiByte 0x4000]).flatten }

def getFrameWidth (cam : SeekThermalCamera) : Except Fault Nat := cam.device_.getFrameWidth

def getFrameHeight (cam : SeekThermalCamera) : Except Fault Nat := cam.device_.getFrameHeight

def getFrameSize (cam : SeekThermalCamera) : Except Fault Nat := do
  let width ← cam.getFrameWidth
  let height ← cam.getFrameHeight
  .ok (width * height * 2)

/-- The array `filter_weights` of `extractFrame`. -/
def filter_weights : List Int := [1, 2, 1, 2, 4, 2, 1, 2, 1]

/-- The body of the innermost loop of `extractFrame` for the neighbour `(y + k, x + m)`:
`acc` is the pair `(sum, count)`. -/
def extractFrame_neighbour (width height row_step : Int) (data : List Byte) (y x k : Int)
    (acc : Int × Int) (m : Int) : Except Fault (Int × Int) :=
  if y + k < 0 ∨ y + k ≥ height ∨ x + m < 0 ∨ x + m ≥ width then .ok acc
  else do
    let index := (y + k) * row_step + x + m
    let value ← loadU16 data (2 * index.toNat)
    if value = 0 ∨ value = 0xffff then .ok acc
    else
      .ok (acc.1 + (value : Int) * filter_weights.getD ((k + 1) * 3 + m + 1).toNat 0,
           acc.2 + filter_weights.getD ((k + 1) * 3 + m + 1).toNat 0)

/-- The two inner loops of `extractFrame` (`k` and `m` from -1 to 1) for the output
pixel `(x, y)`: the final `(sum, count)`. -/
def extractFrame_accumulate (width height row_step : Int) (data : List Byte) (y x : Int) :
    Except Fault (Int × Int) :=
  ([-1, 0, 1] : List Int).foldlM
    (fun acc k =>
      ([-1, 0, 1] : List Int).foldlM (extractFrame_neighbour width height row_step data y x k)
        acc)
    (0, 0)

/-- The value stored for a pixel: `sum == 0 ? 0 : sum / count`, narrowed to `uint16_t`. -/
def extractFrame_value (acc : Int × Int) : Nat :=
  ((if acc.1 = 0 then 0 else acc.1.tdiv acc.2) % 65536).toNat

/-- The two outer loops of `extractFrame` (`y` over the rows, `x` over the columns),
for the geometry read from the device profile. -/
def extractFrame_loops (width height row_step : Nat) (data frame_data : List Byte) :
    Except Fault (List Byte) :=
  (List.range height).foldlM
    (fun out y =>
      (List.range width).foldlM
        (fun out x => do
          let out_index := y * width + x
          let acc ← extractFrame_accumulate width height row_step data y x
          storeU16 out (2 * out_index) (extractFrame_value acc))
        out)
    frame_data

/-- `extractFrame( data, frame_data )`: the content of `frame_data` afterwards. -/
def extractFrame (cam : SeekThermalCamera) (data frame_data : List Byte) :
    Except Fault (List Byte) := do
  let width ← cam.device_.getFrameWidth
  let height ← cam.device_.getFrameHeight
  let row_step := (← cam.device_._getRowStep) / 2
  extractFrame_loops width height row_step data frame_data

/-- `applyCalibration( frame_data )`: the content of `frame_data` afterwards.  The
sum `data[i] + offset_ - calibration_frame_[i]` is an `int`, narrowed to `uint16_t`. -/
def applyCalibration (cam : SeekThermalCamera) (frame_data : List Byte) :
    Except Fault (List Byte) :=
  (List.range (cam.calibration_frame_.length / 2)).foldlM
    (fun data i => do
      let v ← loadU16 data (2 * i)
      let c ← loadU16 cam.calibration_frame_ (2 * i)
      storeU16 data (2 * i) ((((v : Int) + cam.offset_ - c) % 65536).toNat))
    frame_data

end SeekThermalCamera

/-! ## The specification's description of `extract`

These definitions follow the words of the specification (§4.5), not the code: they
are what the output of `extractFrame` is compared with. -/

/-- Spec: the 3×3 offsets `(k, m)` with the weights `[1,2,1; 2,4,2; 1,2,1]`. -/
def specWeights : List (Int × Int × Nat) :=
  [(-1, -1, 1), (-1, 0, 2), (-1, 1, 1),
   (0, -1, 2), (0, 0, 4), (0, 1, 2),
   (1, -1, 1), (1, 0, 2), (1, 1, 1)]

/-- Spec: the neighbour `(y + k, x + m)` lies inside the `width × height` image. -/
def specInBounds (width height y x : Nat) (k m : Int) : Prop :=
  0 ≤ (y : Int) + k ∧ (y : Int) + k < height ∧ 0 ≤ (x : Int) + m ∧ (x : Int) + m < width

/-- Spec: the raw 16-bit value of the neighbour `(y + k, x + m)`, addressed with the
row stride. -/
def specSample (row_stride : Nat) (data : List Byte) (y x : Nat) (k m : Int) : Nat :=
  readU16LE data (2 * (((y : Int) + k) * row_stride + x + m).toNat)

/-- Spec: the neighbour is in bounds and its value is neither 0 nor 0xFFFF. -/
def specContributes (width height row_stride : Nat) (data : List Byte) (y x : Nat)
    (k m : Int) : Prop :=
  specInBounds width height y x k m
    ∧ specSample row_stride data y x k m ≠ 0 ∧ specSample row_stride data y x k m ≠ 0xFFFF

instance (width height row_stride : Nat) (data : List Byte) (y x : Nat) (k m : Int) :
    Decidable (specContributes width height row_stride data y x k m) := by
  unfold specContributes specInBounds; infer_instance

/-- Spec: the sum of `value * weight` over the contributing neighbours. -/
def specSum (width height row_stride : Nat) (data : List Byte) (y x : Nat) : Nat :=
  (specWeights.map fun e =>
    if specContributes width height row_stride data y x e.1 e.2.1
    then specSample row_stride data y x e.1 e.2.1 * e.2.2 else 0).sum

/-- Spec: the sum of `weight` over the contributing neighbours. -/
def specCount (width height row_stride : Nat) (data : List Byte) (y x : Nat) : Nat :=
  (specWeights.map fun e =>
    if specContributes width height row_stride data y x e.1 e.2.1 then e.2.2 else 0).sum

/-- The weighted average with integer division: 0 if the count is 0, else the
quotient `sum / count` rounded down. -/
def flooredAverage (width height row_stride : Nat) (data : List Byte) (y x : Nat) : Nat :=
  if specCount width height row_stride data y x = 0 then 0
  else specSum width height row_stride data y x / specCount width height row_stride data y x

/-! ## Loop invariants -/

/-- The state of the output buffer after the first `n` pixels (in row-major order)
have been stored: same length as the initial buffer `fd`, pixel `(x, y)` holds
`pix y x`, and every byte from offset `2 * n` on is untouched. -/
def Stored (W : Nat) (pix : Nat → Nat → Nat) (fd : List Byte) (n : Nat) (out : List Byte) :
    Prop :=
  out.length = fd.length
  ∧ (∀ y x, x < W → y * W + x < n → readU16LE out (2 * (y * W + x)) = pix y x)
  ∧ (∀ p, 2 * n ≤ p → out.getD p 0 = fd.getD p 0)

/-- The state of the frame after `applyCalibration` has processed the first `n`
samples: same length as the initial frame `fd`, sample `i < n` holds
`fd[i] + offset - cal[i]` reduced modulo `2^16`, and every byte from offset `2 * n`
on is untouched. -/
def Calibrated (cal : List Byte) (offset : Nat) (fd : List Byte) (n : Nat)
    (out : List Byte) : Prop :=
  out.length = fd.length
  ∧ (∀ i, i < n → (readU16LE out (2 * i) : Int)
      = ((readU16LE fd (2 * i) : Int) + offset - readU16LE cal (2 * i)) % 65536)
  ∧ (∀ p, 2 * n ≤ p → out.getD p 0 = fd.getD p 0)

/-! ## The USB environment (libusb) -/

/-- A libusb call issued by the driver, with the arguments that identify it.  A
device is named by its position in the device list it was taken from, and a handle by
the device it was opened on.  For an IN control transfer `data` is the receive buffer
as passed.  The accessors of a `libusb_device` (descriptor, bus and port numbers) read
cached data and are not recorded.  `open_device` and `close_device` stand for
`libusb_open` and `libusb_close`. -/
inductive UsbCall where
  | control_transfer (bmRequestType bRequest : Nat) (data : List Byte)
  | bulk_transfer (endpoint : Nat) (length : Int)
  | init
  | exit
  | get_device_list
  | free_device_list
  | open_device (device : Nat)
  | close_device (handle : Nat)
  | get_string_descriptor_ascii (handle index : Nat)
  | get_configuration (handle : Nat)
  | set_configuration (handle : Nat) (configuration : Int)
  | claim_interface (handle interface : Nat)
  | release_interface (handle interface : Nat)
  deriving DecidableEq, Repr

/-- What `libusb_control_transfer` returns: the number of bytes transferred or a
negative error code, and for an IN transfer the bytes received. -/
structure ControlReply where
  transferred : Int
  data : List Byte := []
  deriving DecidableEq, Repr

/-- What `libusb_bulk_transfer` returns: its error code (0 on success) and the bytes
it stored at the start of the buffer; `transferred` is their number. -/
structure BulkReply where
  error : Int
  data : List Byte
  deriving DecidableEq, Repr

/-- What libusb reports about one attached device during one enumeration: the result
of `libusb_get_device_descriptor` and the descriptor fields the driver reads, the bus
and port numbers, the result of `libusb_open`, the string descriptors (`none` when
`libusb_get_string_descriptor_ascii` fails), and the results of
`libusb_get_configuration` (with the value it stores), `libusb_set_configuration` and
`libusb_claim_interface`. -/
structure UsbDeviceInfo where
  descriptor_result : Int := 0
  idVendor : Nat := 0
  idProduct : Nat := 0
  iProduct : Nat := 0
  iSerialNumber : Nat := 0
  bus_number : Nat := 0
  port_numbers : List Nat := []
  open_result : Int := 0
  strings : Nat → Option String := fun _ => none
  get_configuration_result : Int := 0
  configuration_value : Int := 1
  set_configuration_result : Int := 0
  claim_interface_result : Int := 0

/-- The environment: the replies of the device to the control and bulk transfers
still to come (in order), the calls issued so far (oldest first), the results of the
`libusb_init` calls still to come, and the results of the `libusb_get_device_list`
calls still to come (an error code, or the devices attached at that time). -/
structure Usb where
  control : Nat → ControlReply
  bulk : Nat → BulkReply
  calls : List UsbCall := []
  init_results : Nat → Int := fun _ => 0
  device_lists : Nat → Except Int (List UsbDeviceInfo) := fun _ => .ok []

namespace Usb

def control_transfer (usb : Usb) (bmRequestType bRequest : Nat) (data : List Byte) :
    ControlReply × Usb :=
  (usb.control 0,
   { usb with
     control := fun n => usb.control (n + 1)
     calls := usb.calls ++ [.control_transfer bmRequestType bRequest data] })

def bulk_transfer (usb : Usb) (endpoint : Nat) (length : Int) : BulkReply × Usb :=
  (usb.bulk 0,
   { usb with
     bulk := fun n => usb.bulk (n + 1)
     calls := usb.calls ++ [.bulk_transfer endpoint length] })

/-- Record a call that consumes no reply stream. -/
def record (usb : Usb) (call : UsbCall) : Usb :=
  { usb with calls := usb.calls ++ [call] }

/-- The call `libusb_init` (or `libusb_init_context`): its return code. -/
def libusb_init (usb : Usb) : Int × Usb :=
  (usb.init_results 0,
   { usb with
     init_results := fun n => usb.init_results (n + 1)
     calls := usb.calls ++ [.init] })

/-- The call `libusb_get_device_list`: an error code or the attached devices. -/
def get_device_list (usb : Usb) : Except Int (List UsbDeviceInfo) × Usb :=
  (usb.device_lists 0,
   { usb with
     device_lists := fun n => usb.device_lists (n + 1)
     calls := usb.calls ++ [.get_device_list] })

end Usb

/-- The enum `SeekDeviceCommand` (usb/seek_device.hpp). -/
inductive SeekDeviceCommand where
  | GET_ERROR_CODE
  | READ_CHIP_ID
  | TOGGLE_SHUTTER
  | SET_SHUTTER_POLARITY
  | GET_SHUTTER_POLARITY
  | SET_BIT_DATA_OFFSET
  | GET_BIT_DATA
  | SET_OPERATION_MODE
  | GET_OPERATION_MODE
  | SET_IMAGE_PROCESSING_MODE
  | GET_IMAGE_PROCESSING_MODE
  | SET_DATA_PAGE
  | GET_DATA_PAGE
  | SET_CURRENT_COMMAND_ARRAY_SIZE
  | SET_CURRENT_COMMAND_ARRAY
  | GET_CURRENT_COMMAND_ARRAY
  | SET_DEFAULT_COMMAND_ARRAY_SIZE
  | SET_DEFAULT_COMMAND_ARRAY
  | GET_DEFAULT_COMMAND_ARRAY
  | SET_VDAC_ARRAY_OFFSET_AND_ITEMS
  | SET_VDAC_ARRAY
  | GET_VDAC_ARRAY
  | SET_RDAC_ARRAY_OFFSET_AND_ITEMS
  | SET_RDAC_ARRAY
  | GET_RDAC_ARRAY
  | GET_FIRMWARE_INFO
  | UPLOAD_FIRMWARE_ROW_SIZE
  | WRITE_MEMORY_DATA
  | COMPLETE_MEMORY_WRITE
  | BEGIN_MEMORY_WRITE
  | START_GET_IMAGE_TRANSFER
  | TARGET_PLATFORM
  | SET_FIRMWARE_INFO_FEATURES
  | SET_FACTORY_SETTINGS_FEATURES
  | SET_FACTORY_SETTINGS
  | GET_FACTORY_SETTINGS
  | RESET_DEVICE
  deriving DecidableEq, Repr

/-- The enumerator values of `SeekDeviceCommand`. -/
def SeekDeviceCommand.code : SeekDeviceCommand → Nat
  | .GET_ERROR_CODE => 53
  | .READ_CHIP_ID => 54
  | .TOGGLE_SHUTTER => 55
  | .SET_SHUTTER_POLARITY => 56
  | .GET_SHUTTER_POLARITY => 57
  | .SET_BIT_DATA_OFFSET => 58
  | .GET_BIT_DATA => 59
  | .SET_OPERATION_MODE => 60
  | .GET_OPERATION_MODE => 61
  | .SET_IMAGE_PROCESSING_MODE => 62
  | .GET_IMAGE_PROCESSING_MODE => 63
  | .SET_DATA_PAGE => 64
  | .GET_DATA_PAGE => 65
  | .SET_CURRENT_COMMAND_ARRAY_SIZE => 66
  | .SET_CURRENT_COMMAND_ARRAY => 67
  | .GET_CURRENT_COMMAND_ARRAY => 68
  | .SET_DEFAULT_COMMAND_ARRAY_SIZE => 69
  | .SET_DEFAULT_COMMAND_ARRAY => 70
  | .GET_DEFAULT_COMMAND_ARRAY => 71
  | .SET_VDAC_ARRAY_OFFSET_AND_ITEMS => 72
  | .SET_VDAC_ARRAY => 73
  | .GET_VDAC_ARRAY => 74
  | .SET_RDAC_ARRAY_OFFSET_AND_ITEMS => 75
  | .SET_RDAC_ARRAY => 76
  | .GET_RDAC_ARRAY => 77
  | .GET_FIRMWARE_INFO => 78
  | .UPLOAD_FIRMWARE_ROW_SIZE => 79
  | .WRITE_MEMORY_DATA => 80
  | .COMPLETE_MEMORY_WRITE => 81
  | .BEGIN_MEMORY_WRITE => 82
  | .START_GET_IMAGE_TRANSFER => 83
  | .TARGET_PLATFORM => 84
  | .SET_FIRMWARE_INFO_FEATURES => 85
  | .SET_FACTORY_SETTINGS_FEATURES => 86
  | .SET_FACTORY_SETTINGS => 87
  | .GET_FACTORY_SETTINGS => 88
  | .RESET_DEVICE => 89

/-- The four bytes of `htole32( v )`. -/
def le32Bytes (v : Nat) : List Byte :=
  [loByte v, hiByte v, loByte (v / 65536), hiByte (v / 65536)]

/-! ## `SeekThermalCamera`: frame capture -/

namespace SeekThermalCamera

/-- `write( command, data )`: a vendor OUT control transfer to the interface
(`bmRequestType = 0x41`); false if the transfer fails or is short. -/
def write (cam : SeekThermalCamera) (usb : Usb) (command : SeekDeviceCommand)
    (data : List Byte) : Except Fault (Bool × Usb) :=
  match cam.usb_device_handle_ with
  | none => .error (.USBError 0)
  | some _ =>
    let (reply, usb) := usb.control_transfer 0x41 command.code data
    if reply.transferred < 0 then .ok (false, usb)
    else if reply.transferred.toNat ≠ data.length then .ok (false, usb)
    else .ok (true, usb)

/-- The `while ( todo > 0 )` loop of `_grabRawFrame`.  `offset` is the distance of the
pointer `buffer` from the start of the frame buffer `buf`; the reply's bytes are
stored there by libusb.  `fuel` bounds the number of passes. -/
def _grabRawFrame_loop (request_size : Int) (fuel : Nat) (usb : Usb) (buf : List Byte)
    (offset : Nat) (todo : Int) : Except Fault (GrabFrameResult × Usb × List Byte) :=
  if todo > 0 then
    match fuel with
    | 0 => .error .OutOfFuel
    | fuel + 1 =>
      let (reply, usb) := usb.bulk_transfer 0x81 request_size
      do
        let buf ← storeBytes buf offset reply.data
        if reply.error ≠ 0 then .ok (.TRANSFER_INCOMPLETE, usb, buf)
        else
          let transferred : Int := reply.data.length
          let todo := todo - transferred
          if todo ≠ 0 ∧ request_size ≠ transferred then .ok (.TRANSFER_INCOMPLETE, usb, buf)
          else _grabRawFrame_loop request_size fuel usb buf (offset + reply.data.length) todo
  else .ok (.SUCCESS, usb, buf)

/-- What `_grabRawFrame` leaves behind: its return value, `*frame_data` (`none` for
`nullptr`), `size`, and the environment. -/
structure GrabRawOutcome where
  result : GrabFrameResult
  frame_data : Option (List Byte)
  size : Nat
  usb : Usb

/-- `_grabRawFrame( frame_data, size )`.  `frame_data = none` stands for
`*frame_data == nullptr`; the array obtained from `new unsigned char[size]` is taken
to be zero-filled.  The loop budget is one pass per outstanding byte. -/
def _grabRawFrame (cam : SeekThermalCamera) (usb : Usb) (frame_data : Option (List Byte))
    (size : Nat) : Except Fault GrabRawOutcome :=
  match cam.usb_device_handle_ with
  | none => .ok ⟨.DEVICE_NOT_OPEN, frame_data, size, usb⟩
  | some _ => do
    let todo ← cam.device_._getFrameTransferTotalSize
    let (buf, size) :=
      match frame_data with
      | none => (List.replicate todo (0 : Byte), todo)
      | some b => (b, size)
    if size < todo then .ok ⟨.BUFFER_TOO_SMALL, some buf, size, usb⟩
    else do
      let device_total_size ← cam.device_._getFrameTransferDeviceRequestSize
      let (started, usb) ← cam.write usb .START_GET_IMAGE_TRANSFER (le32Bytes device_total_size)
      if !started then .ok ⟨.FAILED_TO_START_TRANSFER, some buf, size, usb⟩
      else do
        let request_size ← cam.device_._getFrameTransferRequestSize
        let (result, usb, buf) ← _grabRawFrame_loop request_size todo usb buf 0 todo
        .ok ⟨result, some buf, size, usb⟩

/-- What `grabFrame` leaves behind: its return value, the camera, `image_data`
(`none` for a null `image_data`, `some none` for `*image_data == nullptr`), `size`,
`*header` (`none` for a null `header`), and the environment. -/
structure GrabFrameOutcome where
  result : GrabFrameResult
  cam : SeekThermalCamera
  image_data : Option (Option (List Byte))
  size : Nat
  header : Option FrameHeader
  usb : Usb

/-- `vector::resize( n )` on a byte vector: new elements are zero. -/
def resizeBytes (v : List Byte) (n : Nat) : List Byte :=
  v.take n ++ List.replicate (n - v.length) 0

/-- `grabFrame( image_data, size, header )`. -/
def grabFrame (cam : SeekThermalCamera) (usb : Usb) (image_data : Option (Option (List Byte)))
    (size : Nat) (header : Option FrameHeader) : Except Fault GrabFrameOutcome :=
  match cam.usb_device_handle_ with
  | none => .ok ⟨.DEVICE_NOT_OPEN, cam, image_data, size, header, usb⟩
  | some _ => do
    let too_small ←
      match image_data with
      | some (some _) => do
        let frame_size ← cam.getFrameSize
        pure (decide (size < frame_size))
      | _ => pure false
    if too_small then .ok ⟨.BUFFER_TOO_SMALL, cam, image_data, size, header, usb⟩
    else do
      -- Init buffer if not provided
      let (image_data, size) ←
        match image_data with
        | some none => do
          let frame_size ← cam.getFrameSize
          pure (some (some (List.replicate frame_size (0 : Byte))), frame_size)
        | other => pure (other, size)
      -- Get actual frame image_data
      let total ← cam.device_._getFrameTransferTotalSize
      let buffer_ :=
        if cam.buffer_.length < total then resizeBytes cam.buffer_ total else cam.buffer_
      let buffer_size := buffer_.length
      let raw ← _grabRawFrame cam usb (some buffer_) buffer_size
      let buffer_ := raw.frame_data.getD buffer_
      let cam := { cam with buffer_ := buffer_ }
      if raw.result ≠ .SUCCESS then .ok ⟨raw.result, cam, image_data, size, header, raw.usb⟩
      else do
        let header_size ← cam.device_._getFrameHeaderSize
        let is_calibration ← cam.device_._isCalibrationFrame buffer_
        let cam ←
          if is_calibration then do
            let calibration ← cam.extractFrame (buffer_.drop header_size) cam.calibration_frame_
            pure { cam with calibration_frame_ := calibration }
          else pure cam
        let header ←
          match header with
          | none => pure none
          | some h => do
            let min_size ← FrameHeader.GetMinHeaderSize cam.device_.type
            let data_ := if h.data_.length < min_size then resizeBytes h.data_ min_size else h.data_
            let count := min buffer_size data_.length
            let data_ ← storeBytes data_ 0 (buffer_.take count)
            pure (some { type_ := cam.device_.type, data_ := data_ : FrameHeader })
        let image_data ←
          match image_data with
          | some (some image) => do
            let image ← cam.extractFrame (buffer_.drop header_size) image
            let image ← cam.applyCalibration image
            pure (some (some image))
          | other => pure other
        .ok ⟨.SUCCESS, cam, image_data, size, header, raw.usb⟩

end SeekThermalCamera

/-! ## Descriptions of the bulk stream -/

/-- A bulk reply that completed without error and delivered exactly `request` bytes. -/
def fullChunk (request : Nat) (r : BulkReply) : Prop :=
  r.error = 0 ∧ r.data.length = request

instance (request : Nat) (r : BulkReply) : Decidable (fullChunk request r) := by
  unfold fullChunk; infer_instance

/-- The bytes delivered by the first `m` bulk replies, in order. -/
def received (bulk : Nat → BulkReply) : Nat → List Byte
  | 0 => []
  | m + 1 => (bulk 0).data ++ received (fun n => bulk (n + 1)) m

/-- The control transfer by which `_grabRawFrame` requests a frame:
`START_GET_IMAGE_TRANSFER` with the device-side request size as payload. -/
def startTransferCall (device_request_size : Nat) : UsbCall :=
  .control_transfer 0x41 83 (le32Bytes device_request_size)

/-- One bulk transfer of the frame loop: endpoint 0x81, `request` bytes. -/
def frameBulkCall (request : Nat) : UsbCall :=
  .bulk_transfer 0x81 request

/-! ## Helpers (helpers.hpp) -/

/-- `get_usb_descriptor_ascii_string( handle, index )` on the device behind `handle`:
the empty string for index 0 (no call is made) and when the read fails. -/
def get_usb_descriptor_ascii_string (usb : Usb) (handle : Nat) (device : UsbDeviceInfo)
    (index : Nat) : String × Usb :=
  if index = 0 then ("", usb)
  else
    let usb := usb.record (.get_string_descriptor_ascii handle index)
    match device.strings index with
    | none => ("", usb)
    | some s => (s, usb)

/-- `bus_and_port_numbers_to_string( device )`: empty without port numbers, otherwise
the bus number, a hyphen and the port numbers separated by dots. -/
def bus_and_port_numbers_to_string (device : UsbDeviceInfo) : String :=
  if device.port_numbers.length = 0 then ""
  else
    let ss := toString device.bus_number ++ "-"
      ++ String.join (device.port_numbers.map fun p => toString p ++ ".")
    -- Remove last divider
    ss.dropRight 1

/-! ## Sessions: member functions that change the camera and may throw -/

/-- A session: the camera object and the USB environment it talks to. -/
structure Session where
  cam : SeekThermalCamera
  usb : Usb

/-- A member function that may throw: from the state before the call to the value
returned or the exception thrown, together with the state afterwards. -/
def Op (α : Type) : Type := Session → Except Fault α × Session

namespace Op

/-- Run `m`; continue with `f` on its value, or stop at its exception. -/
def andThen {α β : Type} (m : Op α) (f : α → Op β) : Op β := fun s =>
  match m s with
  | (.ok a, s') => f a s'
  | (.error e, s') => (.error e, s')

instance : Monad Op where
  pure a := fun s => (.ok a, s)
  bind := andThen

/-- The statement `throw e`. -/
def fail {α : Type} (e : Fault) : Op α := fun s => (.error e, s)

/-- A call of a function that does not touch the session. -/
def lift {α : Type} (x : Except Fault α) : Op α := fun s => (x, s)

/-- Read the camera object. -/
def getCam : Op SeekThermalCamera := fun s => (.ok s.cam, s)

/-- Replace the camera object. -/
def setCam (cam : SeekThermalCamera) : Op Unit := fun s => (.ok (), { s with cam := cam })

/-- Record a libusb call. -/
def record (call : UsbCall) : Op Unit := fun s =>
  (.ok (), { s with usb := s.usb.record call })

end Op

/-- The exceptions derived from `std::exception`, as opposed to the two markers of the
model. -/
def Fault.isException : Fault → Bool
  | .OutOfBounds => false
  | .OutOfFuel => false
  | _ => true

namespace Session

/-- `SeekThermalCamera::write` as a session operation. -/
def write (command : SeekDeviceCommand) (data : List Byte) : Op Bool := fun s =>
  match s.cam.write s.usb command data with
  | .ok (ok, usb) => (.ok ok, { s with usb := usb })
  | .error e => (.error e, s)

/-- `SeekThermalCamera::read( command, data )`: a vendor IN control transfer to the
device (`bmRequestType = 0xC0`) that fills `data`; throws `USBError` if the transfer
fails, returns false if it is short.  The value is the result and `data` afterwards. -/
def read (command : SeekDeviceCommand) (data : List Byte) : Op (Bool × List Byte) := fun s =>
  match s.cam.usb_device_handle_ with
  | none => (.error (.USBError 0), s)
  | some _ =>
    let (reply, usb) := s.usb.control_transfer 0xC0 command.code data
    let s := { s with usb := usb }
    let data := reply.data.take data.length ++ data.drop reply.data.length
    if reply.transferred < 0 then (.error (.USBError reply.transferred), s)
    else if reply.transferred.toNat ≠ data.length then (.ok (false, data), s)
    else (.ok (true, data), s)

/-- `SeekThermalCamera::close`. -/
def close : Op Unit := fun s =>
  match s.cam.usb_device_handle_ with
  | none => (.ok (), s)
  | some handle =>
    (do
      [0, 1, 2].forM fun (_ : Nat) => do
        let _ ← write .SET_OPERATION_MODE [0x00, 0x00]
        pure ()
      Op.record (.release_interface handle 0)
      Op.record (.close_device handle)
      let cam ← Op.getCam
      Op.setCam { cam with usb_device_handle_ := none }) s

/-- The loop of `openDevice` over the device list, from position `i` on: the handle of
the device it stops at, or `none` if it runs to the end. -/
def openDevice_scan : List UsbDeviceInfo → Nat → Op (Option Nat)
  | [], _ => pure none
  | device :: rest, i => do
    if device.descriptor_result ≠ 0 then openDevice_scan rest (i + 1)
    else
      let cam ← Op.getCam
      let vendor ← Op.lift cam.device_._getVendorID
      let mismatch ←
        if device.idVendor ≠ vendor then pure true
        else do
          let product ← Op.lift cam.device_._getProductID
          pure (decide (device.idProduct ≠ product))
      if mismatch then openDevice_scan rest (i + 1)
      else
        let port := bus_and_port_numbers_to_string device
        if cam.device_.serial.isEmpty ∧ cam.device_.usb_port ≠ port then
          -- Port is only used if serial is not available
          openDevice_scan rest (i + 1)
        else do
          Op.record (.open_device i)
          if device.open_result < 0 then openDevice_scan rest (i + 1)
          else
            let serial ← (fun s =>
              let r := get_usb_descriptor_ascii_string s.usb i device device.iSerialNumber
              (.ok r.1, { s with usb := r.2 }) : Op String)
            if ¬ cam.device_.serial.isEmpty ∧ serial ≠ cam.device_.serial then do
              Op.record (.close_device i)
              openDevice_scan rest (i + 1)
            else
              -- Either device has serial and serial matched, or no serial and port
              -- matched, we found it!
              pure (some i)

/-- The start of `openDevice` when no context was supplied: `libusb_init`. -/
def openDevice_context : Op Unit := do
  let cam ← Op.getCam
  if cam.usb_context_ = none then
    let returncode ← (fun s =>
      (.ok s.usb.libusb_init.1, { s with usb := s.usb.libusb_init.2 }) : Op Int)
    if returncode ≠ 0 then Op.fail (.USBError returncode)
    else
      let cam ← Op.getCam
      Op.setCam { cam with usb_context_ := some 0, own_usb_context_ := true }

/-- The end of `openDevice`, once a handle is held: make sure configuration 1 is
selected and claim interface 0. -/
def openDevice_configure (device : UsbDeviceInfo) (handle : Nat) : Op Unit := do
  Op.record (.get_configuration handle)
  if device.get_configuration_result < 0 then
    Op.fail (.USBError device.get_configuration_result)
  else
    if device.configuration_value ≠ 1 then
      Op.record (.set_configuration handle 1)
      if device.set_configuration_result < 0 then
        Op.fail (.USBError device.set_configuration_result)
    Op.record (.claim_interface handle 0)
    if device.claim_interface_result < 0 then
      Op.fail (.USBError device.claim_interface_result)

/-- `SeekThermalCamera::openDevice`.  The device list is the one libusb returns at the
time of the call; the handle is the position of the opened device in it. -/
def openDevice : Op Unit := do
  let cam ← Op.getCam
  if cam.usb_device_handle_ ≠ none then pure ()
  else
    openDevice_context
    -- Find usb device
    let devices ← (fun s =>
      (.ok s.usb.get_device_list.1, { s with usb := s.usb.get_device_list.2 })
        : Op (Except Int (List UsbDeviceInfo)))
    match devices with
    | .error device_count => Op.fail (.USBError device_count)
    | .ok devices =>
      let found ← openDevice_scan devices 0
      let cam ← Op.getCam
      Op.setCam { cam with usb_device_handle_ := found }
      match found with
      | none => Op.fail .SeekSetupError
      | some handle => openDevice_configure (devices.getD handle {}) handle

end Session

namespace Session

/-- The recurring statement `if ( !write( command, data ) ) throw SeekSetupError( .. )`. -/
def writeOrThrow (command : SeekDeviceCommand) (data : List Byte) : Op Unit := do
  let ok ← write command data
  if !ok then Op.fail .SeekSetupError

/-- The recurring statement `if ( !read( command, data ) ) throw SeekSetupError( .. )`;
the value is `data` afterwards. -/
def readOrThrow (command : SeekDeviceCommand) (data : List Byte) : Op (List Byte) := do
  let (ok, data) ← read command data
  if !ok then Op.fail .SeekSetupError
  else pure data

/-- The first `do .. while` loop of each `setupCamera`: drive the operation mode to
off.  `retries` and `data` are the local variables; `fuel` bounds the number of passes
of the model. -/
def setupCamera_modeOff : Nat → Nat → List Byte → Op (List Byte)
  | 0, _, _ => Op.fail .OutOfFuel
  | fuel + 1, retries, data => do
    let retries := retries + 1
    if retries > 10 then Op.fail .SeekSetupError
    else
      writeOrThrow .SET_OPERATION_MODE [0x00, 0x00]
      let data ← readOrThrow .GET_OPERATION_MODE data
      if data.getD 0 0 ≠ 0x00 ∧ data.getD 1 0 ≠ 0x00 then
        setupCamera_modeOff fuel retries data
      else pure data

/-- The last `do .. while` loop of each `setupCamera`: drive the operation mode to on.
After a failed write both branches throw `SeekSetupError` (with different messages),
once the error code has been read. -/
def setupCamera_modeOn : Nat → Nat → List Byte → Op (List Byte)
  | 0, _, _ => Op.fail .OutOfFuel
  | fuel + 1, retries, data => do
    let retries := retries + 1
    if retries > 10 then Op.fail .SeekSetupError
    else
      let ok ← write .SET_OPERATION_MODE [0x01, 0x00]
      if !ok then
        let _ ← read .GET_ERROR_CODE (SeekThermalCamera.resizeBytes data 4)
        Op.fail .SeekSetupError
      else
        let data ← readOrThrow .GET_OPERATION_MODE (SeekThermalCamera.resizeBytes data 2)
        if data.getD 0 0 ≠ 0x01 ∧ data.getD 1 0 ≠ 0x00 then
          setupCamera_modeOn fuel retries data
        else pure data

/-- The sweep `for ( int addr = 0; addr < 0xA00; addr += 0x20 )` of the CompactPro and
Nano300 setup: select a settings address, read back a 64-byte block. -/
def setupCamera_sweep (data : List Byte) : Op (List Byte) :=
  ((List.range 80).map fun i => i * 0x20).foldlM
    (fun data addr => do
      writeOrThrow .SET_FACTORY_SETTINGS_FEATURES
        [0x20, 0x00, loByte addr, hiByte addr, 0x00, 0x00]
      readOrThrow .GET_FACTORY_SETTINGS (SeekThermalCamera.resizeBytes data 64))
    data

end Session

/-- `SeekThermalCompact::setupCamera` (cameras/seek_thermal_compact.cpp). -/
def SeekThermalCompact.setupCamera : Op Unit := do
  let ok ← Session.write .TARGET_PLATFORM [0x01]
  if !ok then
    Session.close
    Session.openDevice
    Session.writeOrThrow .TARGET_PLATFORM [0x01]
  let data ← Session.setupCamera_modeOff 11 0 (List.replicate 2 0)
  Session.writeOrThrow .SET_FACTORY_SETTINGS_FEATURES [0x20, 0x00, 0x30, 0x00, 0x00, 0x00]
  Session.writeOrThrow .SET_FIRMWARE_INFO_FEATURES [0x17, 0x00]
  Session.writeOrThrow .SET_FACTORY_SETTINGS_FEATURES [0x20, 0x00, 0x50, 0x00, 0x00, 0x00]
  Session.writeOrThrow .SET_FACTORY_SETTINGS_FEATURES [0x0c, 0x00, 0x70, 0x00, 0x00, 0x00]
  Session.writeOrThrow .SET_FACTORY_SETTINGS_FEATURES [0x06, 0x00, 0x08, 0x00, 0x00, 0x00]
  let data ← Session.readOrThrow .GET_ERROR_CODE (SeekThermalCamera.resizeBytes data 4)
  if data.getD 0 0 ≠ 0x00 ∨ data.getD 1 0 ≠ 0x00 ∨ data.getD 2 0 ≠ 0x00
      ∨ data.getD 3 0 ≠ 0x00 then
    Op.fail .SeekSetupError
  else
    Session.writeOrThrow .SET_IMAGE_PROCESSING_MODE [0x08, 0x00]
    let data ← Session.readOrThrow .GET_OPERATION_MODE (SeekThermalCamera.resizeBytes data 2)
    let _ ← Session.setupCamera_modeOn 11 0 data
    pure ()

/-- `SeekThermalCompactPro::setupCamera` (cameras/seek_thermal_compact_pro.cpp). -/
def SeekThermalCompactPro.setupCamera : Op Unit := do
  let ok ← Session.write .TARGET_PLATFORM [0x01]
  if !ok then
    Session.close
    Session.openDevice
    Session.writeOrThrow .TARGET_PLATFORM [0x01]
  let data ← Session.setupCamera_modeOff 11 0 (List.replicate 2 0)
  Session.writeOrThrow .SET_FACTORY_SETTINGS_FEATURES [0x06, 0x00, 0x08, 0x00, 0x00, 0x00]
  Session.writeOrThrow .SET_FIRMWARE_INFO_FEATURES [0x17, 0x00]
  Session.writeOrThrow .SET_FACTORY_SETTINGS_FEATURES [0x01, 0x00, 0x00, 0x06, 0x00, 0x00]
  Session.writeOrThrow .SET_FACTORY_SETTINGS_FEATURES [0x01, 0x00, 0x01, 0x06, 0x00, 0x00]
  let data ← Session.setupCamera_sweep data
  Session.writeOrThrow .SET_FIRMWARE_INFO_FEATURES [0x15, 0x00]
  let data ← Session.readOrThrow .GET_ERROR_CODE (SeekThermalCamera.resizeBytes data 4)
  if data.getD 0 0 ≠ 0x00 ∨ data.getD 1 0 ≠ 0x00 ∨ data.getD 2 0 ≠ 0x00
      ∨ data.getD 3 0 ≠ 0x00 then
    Op.fail .SeekSetupError
  else
    Session.writeOrThrow .SET_IMAGE_PROCESSING_MODE [0x08, 0x00]
    let data ← Session.readOrThrow .GET_OPERATION_MODE (SeekThermalCamera.resizeBytes data 2)
    let _ ← Session.setupCamera_modeOn 11 0 data
    pure ()

/-- `SeekThermalNano300::setupCamera` (cameras/seek_thermal_nano_300.cpp).  After a
failed first `TARGET_PLATFORM` write it calls `close()` and writes again without
reopening; the error-code test joins the four bytes with `&&`. -/
def SeekThermalNano300.setupCamera : Op Unit := do
  let ok ← Session.write .TARGET_PLATFORM [0x00, 0x00]
  if !ok then
    Session.close
    Session.writeOrThrow .TARGET_PLATFORM [0x00, 0x00]
  let data ← Session.setupCamera_modeOff 11 0 (List.replicate 2 0)
  Session.writeOrThrow .SET_IMAGE_PROCESSING_MODE [0x08, 0x00]
  Session.writeOrThrow .SET_FACTORY_SETTINGS_FEATURES [0x08, 0x00, 0x02, 0x06, 0x00, 0x00]
  let data ← Session.readOrThrow .GET_FACTORY_SETTINGS (SeekThermalCamera.resizeBytes data 16)
  let data ← Session.readOrThrow .GET_FIRMWARE_INFO (SeekThermalCamera.resizeBytes data 4)
  Session.writeOrThrow .SET_FACTORY_SETTINGS_FEATURES [0x08, 0x00, 0x02, 0x06, 0x00, 0x00]
  let data ← Session.readOrThrow .GET_FACTORY_SETTINGS (SeekThermalCamera.resizeBytes data 16)
  Session.writeOrThrow .SET_FIRMWARE_INFO_FEATURES [0x17, 0x00]
  let data ← Session.readOrThrow .GET_FIRMWARE_INFO (SeekThermalCamera.resizeBytes data 64)
  let data ← Session.readOrThrow .GET_FIRMWARE_INFO (SeekThermalCamera.resizeBytes data 4)
  let data ← Session.readOrThrow .READ_CHIP_ID (SeekThermalCamera.resizeBytes data 12)
  Session.writeOrThrow .SET_FIRMWARE_INFO_FEATURES [0x15, 0x00]
  let data ← Session.readOrThrow .GET_FIRMWARE_INFO (SeekThermalCamera.resizeBytes data 64)
  let data ← Session.readOrThrow .READ_CHIP_ID (SeekThermalCamera.resizeBytes data 12)
  let data ← Session.readOrThrow .GET_FIRMWARE_INFO (SeekThermalCamera.resizeBytes data 4)
  let data ← Session.setupCamera_sweep data
  Session.writeOrThrow .SET_FIRMWARE_INFO_FEATURES [0x15, 0x00]
  let data ← Session.readOrThrow .GET_FIRMWARE_INFO (SeekThermalCamera.resizeBytes data 64)
  let data ← Session.readOrThrow .GET_ERROR_CODE (SeekThermalCamera.resizeBytes data 4)
  if data.getD 0 0 ≠ 0x00 ∧ data.getD 1 0 ≠ 0x00 ∧ data.getD 2 0 ≠ 0x00
      ∧ data.getD 3 0 ≠ 0x00 then
    Op.fail .SeekSetupError
  else
    Session.writeOrThrow .TOGGLE_SHUTTER [0xFC, 0x00, 0x04, 0x00]
    let _ ← Session.setupCamera_modeOn 11 0 data
    pure ()

namespace Session

/-- The virtual call `setupCamera()`: the override of the class `createCamera` builds
for the device type (each constructor asserts that the type is its own).  The base
class is abstract, so no object exists for another type. -/
def setupCamera : Op Unit := do
  let cam ← Op.getCam
  if cam.device_.type = .SeekThermalCompact then SeekThermalCompact.setupCamera
  else if cam.device_.type = .SeekThermalCompactPro then SeekThermalCompactPro.setupCamera
  else if cam.device_.type = .SeekThermalNano300 then SeekThermalNano300.setupCamera
  else Op.fail .InvalidDeviceError

end Session

/-- `SeekThermalCamera::open`: `openDevice()`, then `setupCamera()` inside a `try`
whose handler calls `close()` and rethrows. -/
def Session.open : Op Unit := do
  Session.openDevice
  fun s =>
    match Session.setupCamera s with
    | (.error e, s') =>
      if e.isException then
        -- Clean up device before throwing.
        match Session.close s' with
        | (.ok _, s'') => (.error e, s'')
        | (.error e', s'') => (.error e', s'')
      else (.error e, s')
    | (.ok a, s') => (.ok a, s')

/-! ## Device enumeration and camera creation (openseekthermal.cpp) -/

/-- The operator `&` on `SeekDevice::Type`. -/
def SeekDeviceType.and (a b : SeekDeviceType) : SeekDeviceType := ⟨a.bits &&& b.bits⟩

/-- The operator `|` on `SeekDevice::Type`. -/
def SeekDeviceType.or (a b : SeekDeviceType) : SeekDeviceType := ⟨a.bits ||| b.bits⟩

/-- Whether `text` begins with `pattern`. -/
def startsWithChars : List Char → List Char → Bool
  | [], _ => true
  | _ :: _, [] => false
  | p :: ps, c :: cs => p == c && startsWithChars ps cs

/-- Whether `pattern` occurs in `text` at some position. -/
def containsChars (pattern : List Char) : List Char → Bool
  | [] => startsWithChars pattern []
  | c :: cs => startsWithChars pattern (c :: cs) || containsChars pattern cs

/-- The test `name.find( pattern ) != std::string::npos`. -/
def containsString (name pattern : String) : Bool :=
  containsChars pattern.toList name.toList

/-- `getSeekDevice( device )` for the device at position `i` of the list.  The guard
object closes the handle on every return once `libusb_open` has succeeded. -/
def getSeekDevice (usb : Usb) (i : Nat) (device : UsbDeviceInfo) : SeekDevice × Usb :=
  if device.descriptor_result < 0 then ({}, usb)
  else if device.idVendor ≠ 0x289d then ({}, usb)
  else if device.iProduct = 0 then ({}, usb)
  else
    let port := bus_and_port_numbers_to_string device
    if device.idProduct = 0x0010 then
      -- name would be PIR206 Thermal Camera
      let usb := usb.record (.open_device i)
      if device.open_result < 0 then ({}, usb)
      else
        let name := get_usb_descriptor_ascii_string usb i device device.iProduct
        let usb := name.2.record (.close_device i)
        if name.1.isEmpty then ({}, usb)
        else if containsString name.1 "PIR206 Thermal Camera" then
          ({ type := .SeekThermalCompact, serial := "", usb_port := port }, usb)
        else ({}, usb)
    else if device.idProduct = 0x0011 then
      -- Could be Compact Pro or Nano
      let usb := usb.record (.open_device i)
      if device.open_result < 0 then ({}, usb)
      else
        let name := get_usb_descriptor_ascii_string usb i device device.iProduct
        if name.1.isEmpty then ({}, name.2.record (.close_device i))
        else
          let serial :=
            if device.iSerialNumber ≠ 0 then
              get_usb_descriptor_ascii_string name.2 i device device.iSerialNumber
            else ("", name.2)
          let usb := serial.2.record (.close_device i)
          if containsString name.1 "PIR324 Thermal Camera" then
            ({ type := .SeekThermalCompactPro, serial := serial.1, usb_port := port }, usb)
          else if containsString name.1 "Nano300" then
            ({ type := .SeekThermalNano300, serial := serial.1, usb_port := port }, usb)
          else ({}, usb)
    else ({}, usb)

/-- The loop of `listDevices` over the device list, from position `i` on; `result` is
the vector built so far. -/
def listDevices_loop (types : SeekDeviceType) :
    List UsbDeviceInfo → Nat → List SeekDevice → Usb → List SeekDevice × Usb
  | [], _, result, usb => (result, usb)
  | device :: rest, i, result, usb =>
    let (seek_device, usb) := getSeekDevice usb i device
    if seek_device.type.and types ≠ .None then
      listDevices_loop types rest (i + 1) (result ++ [seek_device]) usb
    else listDevices_loop types rest (i + 1) result usb

/-- `listDevices( types )`.  A negative result of `libusb_get_device_list` becomes a
huge `size_t` count, and the loop then reads past the (unset) device array. -/
def listDevices (types : SeekDeviceType) (usb : Usb) : Except Fault (List SeekDevice) × Usb :=
  let (returncode, usb) := usb.libusb_init
  if returncode < 0 then (.error (.USBError returncode), usb)
  else
    let (list, usb) := usb.get_device_list
    match list with
    | .error _ => (.error .OutOfBounds, usb)
    | .ok devs =>
      if devs.length = 0 then (.ok [], usb.record .exit)
      else
        let (result, usb) := listDevices_loop types devs 0 [] usb
        (.ok result, (usb.record .free_device_list).record .exit)

/-- `createCamera( device, context )`: the camera built by the constructor of the
class chosen for the device type, or `none` for `nullptr`. -/
def createCamera (device : SeekDevice) (context : Option Nat) :
    Except Fault (Option SeekThermalCamera) :=
  if device.type = .SeekThermalCompact then
    (SeekThermalCamera.new device context).map some
  else if device.type = .SeekThermalCompactPro then
    (SeekThermalCamera.new device context).map some
  else if device.type = .SeekThermalNano300 then
    (SeekThermalCamera.new device context).map some
  else .ok none

/-- The control transfer issued by `write( SET_OPERATION_MODE, { 0x00, 0x00 } )`. -/
def operationModeOffCall : UsbCall := .control_transfer 0x41 60 [0x00, 0x00]

/-! ## Descriptions of device enumeration and selection -/

/-- The identity `getSeekDevice` resolves for a device, its effect on the environment
dropped. -/
def resolvedDevice (device : UsbDeviceInfo) : SeekDevice :=
  (getSeekDevice { control := fun _ => { transferred := 0 }
                   bulk := fun _ => { error := 0, data := [] } } 0 device).1

/-- Spec: the model is not `None` and its bit is set in the mask. -/
def maskSelects (mask model : SeekDeviceType) : Prop :=
  model ≠ .None ∧ model.bits &&& mask.bits = model.bits

instance (mask model : SeekDeviceType) : Decidable (maskSelects mask model) := by
  unfold maskSelects; infer_instance

/-- Spec: the serial descriptor of a device, empty when it has none or it cannot be
read. -/
def serialDescriptor (device : UsbDeviceInfo) : String :=
  if device.iSerialNumber = 0 then "" else (device.strings device.iSerialNumber).getD ""

/-- Spec: an enumerated device whose vendor and product ID match the target model,
which can be opened, and for which either the identity's serial is non-empty and
equals the device's serial descriptor, or the identity's serial is empty and the
identity's port path equals the device's port path. -/
def qualifies (identity : SeekDevice) (vendor product : Nat) (device : UsbDeviceInfo) : Prop :=
  (device.descriptor_result = 0 ∧ device.idVendor = vendor ∧ device.idProduct = product)
  ∧ 0 ≤ device.open_result
  ∧ ((identity.serial ≠ "" ∧ serialDescriptor device = identity.serial)
     ∨ (identity.serial = "" ∧ identity.usb_port = bus_and_port_numbers_to_string device))

instance (identity : SeekDevice) (vendor product : Nat) (device : UsbDeviceInfo) :
    Decidable (qualifies identity vendor product device) := by
  unfold qualifies; infer_instance

/-- Spec: the position (counted from `i`) of the first qualifying device. -/
def firstQualifying (identity : SeekDevice) (vendor product : Nat) :
    List UsbDeviceInfo → Nat → Option Nat
  | [], _ => none
  | device :: rest, i =>
    if qualifies identity vendor product device then some i
    else firstQualifying identity vendor product rest (i + 1)

/-- Spec: the product string read from a device: the string descriptor at index
`iProduct`, empty when the index is 0, the device cannot be opened or the descriptor
cannot be read. -/
def productString (device : UsbDeviceInfo) : String :=
  if device.iProduct = 0 ∨ device.open_result < 0 then ""
  else (device.strings device.iProduct).getD ""

/-! ## Counting the mode writes of a run -/

/-- Whether a logged libusb call is a `SET_OPERATION_MODE` write: a vendor OUT control
transfer (`bmRequestType = 0x41`) with that request code, whatever the payload. -/
def isSetOperationModeWrite : UsbCall → Bool
  | .control_transfer bmRequestType bRequest _ =>
    bmRequestType == 0x41 && bRequest == SeekDeviceCommand.SET_OPERATION_MODE.code
  | _ => false

/-- The number of `SET_OPERATION_MODE` writes among logged calls. -/
def setOperationModeWrites (calls : List UsbCall) : Nat :=
  calls.countP isSetOperationModeWrite

/-- An operation that returns or throws from every state: the passes the model allows
its loops are never used up. -/
def Op.Returns {α : Type} (m : Op α) : Prop :=
  ∀ s, (m s).1 ≠ .error .OutOfFuel

/-- An operation that returns or throws from every state and adds at most `k`
`SET_OPERATION_MODE` writes to the log of libusb calls, removing none. -/
def Op.Bounded {α : Type} (m : Op α) (k : Nat) : Prop :=
  ∀ s, (m s).1 ≠ .error .OutOfFuel
    ∧ ∃ extra, (m s).2.usb.calls = s.usb.calls ++ extra ∧ setOperationModeWrites extra ≤ k

/-- A device that leaves a mode loop unconfirmed for its next `n` passes: it accepts
each two-byte write and answers each read-back in full with two bytes of which the first
differs from `wanted` and the second from 0x00. -/
def modeNeverConfirmed (usb : Usb) (wanted : Byte) (n : Nat) : Prop :=
  ∀ i, i < n →
    (usb.control (2 * i)).transferred = 2
    ∧ (usb.control (2 * i + 1)).transferred = 2
    ∧ (usb.control (2 * i + 1)).data.length = 2
    ∧ (usb.control (2 * i + 1)).data.getD 0 0 ≠ wanted
    ∧ (usb.control (2 * i + 1)).data.getD 1 0 ≠ 0x00

/-! ## Concrete inputs used by the instance theorems -/

/-- A Compact camera identity. -/
def compactDevice : SeekDevice := { type := .SeekThermalCompact }

/-- A CompactPro camera identity. -/
def compactProDevice : SeekDevice := { type := .SeekThermalCompactPro }

/-- A five-byte buffer whose byte 4 is 1: it passes the size guard of
`_isCalibrationFrame` although the 16-bit sample at offset 4 needs byte 5. -/
def fiveByteBuffer : List Byte := [0, 0, 0, 0, 1]

/-- An 82-byte Compact header with frame type 3 at offset 20 and frame number
0x1234 at offset 80. -/
def compactHeaderBytes : List Byte :=
  List.replicate 20 0 ++ [3, 0] ++ List.replicate 58 0 ++ [0x34, 0x12]

/-- Spec: `sum / count` rounded to the nearest integer (halves rounded up). -/
def specRound (sum count : Nat) : Nat := (2 * sum + count) / (2 * count)

/-- A Compact camera as the constructor leaves it: closed, with an empty scratch
buffer and a calibration reference of 206 × 156 samples 0x4000. -/
def compactCamera : SeekThermalCamera :=
  { device_ := compactDevice
    calibration_frame_ := (List.replicate (206 * 156) [loByte 0x4000, hiByte 0x4000]).flatten }

/-- A raw Compact pixel region (156 rows of 208 samples) whose first two samples
are 1 and 3 and whose other samples are 0. -/
def roundingRaw : List Byte := [1, 0, 3, 0] ++ List.replicate 64892 0

/-- A zeroed output image buffer for the Compact (206 × 156 samples). -/
def blankImage : List Byte := List.replicate 64272 0

/-- The Compact camera with a USB handle held (an open session). -/
def compactCameraOpen : SeekThermalCamera :=
  { compactCamera with usb_device_handle_ := some 0 }

/-- A device that answers every control transfer with 4 bytes transferred and every
bulk transfer with 16224 zero bytes and no error. -/
def steadyUsb : Usb :=
  { control := fun _ => { transferred := 4 }
    bulk := fun _ => { error := 0, data := List.replicate 16224 0 } }

/-- The first bulk chunk of a Compact frame whose 16-bit sample at byte offset 4 is 1
and whose frame type (byte offset 20) is 3, a thermal frame; all other bytes are 0. -/
def mismatchChunk : List Byte :=
  [0, 0, 0, 0, 1, 0] ++ List.replicate 14 0 ++ [3, 0] ++ List.replicate 16202 0

/-- A device that accepts every control transfer and delivers `mismatchChunk` followed
by full chunks of zeros. -/
def mismatchUsb : Usb :=
  { control := fun _ => { transferred := 4 }
    bulk := fun n =>
      if n = 0 then { error := 0, data := mismatchChunk }
      else { error := 0, data := List.replicate 16224 0 } }

/-- A raw Compact frame (156 rows of 208 samples) whose every sample is 5. -/
def uniformRaw : List Byte := (List.replicate 32448 [5, 0]).flatten

/-- A raw Compact frame whose every byte is 0xFF, so every sample is 0xFFFF. -/
def sentinelRaw : List Byte := List.replicate 64896 255

/-- A session on the open Compact camera whose device rejects every control write
(each reports 4 bytes where 2 were sent). -/
def rejectingSession : Session := { cam := compactCameraOpen, usb := steadyUsb }

/-- An attached CompactPro: product 0x0011, product string "PIR324 Thermal Camera",
no serial number, bus 1 port 2. -/
def compactProOnBus : UsbDeviceInfo :=
  { idVendor := 0x289d, idProduct := 0x0011, iProduct := 2, bus_number := 1, port_numbers := [2]
    strings := fun i => if i = 2 then some "PIR324 Thermal Camera" else none }

/-- An attached Nano300: product 0x0011, product string "Seek Nano300", serial "N300A",
bus 1 ports 3.1. -/
def nano300OnBus : UsbDeviceInfo :=
  { idVendor := 0x289d, idProduct := 0x0011, iProduct := 2, iSerialNumber := 3, bus_number := 1
    port_numbers := [3, 1]
    strings := fun i =>
      if i = 2 then some "Seek Nano300" else if i = 3 then some "N300A" else none }

/-- An environment whose bus presents one CompactPro and one Nano300. -/
def twoCameraUsb : Usb :=
  { control := fun _ => { transferred := 0 }
    bulk := fun _ => { error := 0, data := [] }
    device_lists := fun _ => .ok [compactProOnBus, nano300OnBus] }

/-- A Compact identity given by its port path: bus 1, port 2, no serial. -/
def compactAtPort : SeekDevice := { type := .SeekThermalCompact, usb_port := "1-2" }

/-- The camera the constructor builds for `compactAtPort` (closed, no context). -/
def compactCameraAtPort : SeekThermalCamera :=
  { compactCamera with device_ := compactAtPort }

/-- An attached Compact on bus 1, port 2 that opens, has configuration 1 selected and
lets its interface be claimed. -/
def compactOnBus : UsbDeviceInfo :=
  { idVendor := 0x289d, idProduct := 0x0010, iProduct := 2, bus_number := 1, port_numbers := [2]
    strings := fun i => if i = 2 then some "PIR206 Thermal Camera" else none }

/-- A bus with an unrelated device, a Compact on another port (bus 1, port 5), and the
Compact on bus 1, port 2. -/
def threeDeviceBus : List UsbDeviceInfo :=
  [{ idVendor := 0x1d6b, idProduct := 0x0002, bus_number := 1, port_numbers := [1] },
   { compactOnBus with port_numbers := [5] },
   compactOnBus]

/-- A closed session of `compactCameraAtPort` on `threeDeviceBus`; every control
transfer reports 0 bytes. -/
def selectionSession : Session :=
  { cam := compactCameraAtPort
    usb := { control := fun _ => { transferred := 0 }
             bulk := fun _ => { error := 0, data := [] }
             device_lists := fun _ => .ok threeDeviceBus } }

/-- A closed session of `compactCameraAtPort` whose Compact opens but refuses to have
its interface claimed (`LIBUSB_ERROR_BUSY`, -6). -/
def claimFailsSession : Session :=
  { cam := compactCameraAtPort
    usb := { control := fun _ => { transferred := 0 }
             bulk := fun _ => { error := 0, data := [] }
             device_lists := fun _ => .ok [{ compactOnBus with claim_interface_result := -6 }] } }

/-- The reply to a control write of `n` bytes that the device accepts. -/
def okWrite (n : Nat) : ControlReply := { transferred := n }

/-- The reply to a control read that delivers `data` in full. -/
def okRead (data : List Byte) : ControlReply := { transferred := data.length, data := data }

/-- An environment whose control transfers are answered from a script, in order; past
the end of the script every transfer fails with -1. -/
def scriptedUsb (script : List ControlReply) : Usb :=
  { control := fun n => script.getD n { transferred := -1 }
    bulk := fun _ => { error := 0, data := [] } }

/-- A device that accepts the mode-off write and then reports operation mode
`{0x01, 0x00}` (on). -/
def modeOffLoopSession : Session :=
  { cam := compactCameraOpen, usb := scriptedUsb [okWrite 2, okRead [0x01, 0x00]] }

/-- A device that accepts the mode-on write and then reports operation mode
`{0x00, 0x00}` (off). -/
def modeOnLoopSession : Session :=
  { cam := compactCameraOpen, usb := scriptedUsb [okWrite 2, okRead [0x00, 0x00]] }

/-- The replies of a Compact that accepts every write of the setup, reports no error,
but reports mode on after the mode-off write and mode off after the mode-on write. -/
def unconfirmedModeScript : List ControlReply :=
  [okWrite 1, okWrite 2, okRead [0x01, 0x00], okWrite 6, okWrite 2, okWrite 6, okWrite 6,
   okWrite 6, okRead [0, 0, 0, 0], okWrite 2, okRead [0x00, 0x00], okWrite 2,
   okRead [0x00, 0x00]]

/-- An open Compact session on the device of `unconfirmedModeScript`. -/
def unconfirmedModeSession : Session :=
  { cam := compactCameraOpen, usb := scriptedUsb unconfirmedModeScript }

/-- An open Nano300 camera. -/
def nano300CameraOpen : SeekThermalCamera :=
  { device_ := { type := .SeekThermalNano300, serial := "N300A" }
    calibration_frame_ := (List.replicate (320 * 240) [loByte 0x4000, hiByte 0x4000]).flatten
    usb_device_handle_ := some 0 }

/-- The replies of a Nano300 that accepts every write of the setup and answers every
read in full with zeros, except that it reports the error code `{0x01, 0, 0, 0}` and
finally operation mode `{0x01, 0x00}`. -/
def nano300ErrorScript : List ControlReply :=
  [okWrite 2, okWrite 2, okRead [0, 0], okWrite 2, okWrite 6, okRead (List.replicate 16 0),
   okRead (List.replicate 4 0), okWrite 6, okRead (List.replicate 16 0), okWrite 2,
   okRead (List.replicate 64 0), okRead (List.replicate 4 0), okRead (List.replicate 12 0),
   okWrite 2, okRead (List.replicate 64 0), okRead (List.replicate 12 0),
   okRead (List.replicate 4 0)]
  ++ (List.replicate 80 [okWrite 6, okRead (List.replicate 64 0)]).flatten
  ++ [okWrite 2, okRead (List.replicate 64 0), okRead [0x01, 0, 0, 0], okWrite 4, okWrite 2,
      okRead [0x01, 0x00]]

/-- An open Nano300 session on the device of `nano300ErrorScript`. -/
def nano300ErrorSession : Session :=
  { cam := nano300CameraOpen, usb := scriptedUsb nano300ErrorScript }

/-- The session of camera `cam` on `scriptedUsb script` once the calls `calls` have been
issued. -/
def scriptedSession (cam : SeekThermalCamera) (script : List ControlReply)
    (calls : List UsbCall) : Session :=
  { cam := cam, usb := { scriptedUsb script with calls := calls } }

/-- The calls of the settings sweep over `addrs` on a device that accepts every write and
answers every read with a full block of zeros; `data` is the buffer on entry. -/
def sweepCalls : List Byte → List Nat → List UsbCall
  | _, [] => []
  | data, addr :: rest =>
    .control_transfer 0x41 SeekDeviceCommand.SET_FACTORY_SETTINGS_FEATURES.code
        [0x20, 0x00, loByte addr, hiByte addr, 0x00, 0x00]
      :: .control_transfer 0xC0 SeekDeviceCommand.GET_FACTORY_SETTINGS.code
          (SeekThermalCamera.resizeBytes data 64)
      :: sweepCalls (List.replicate 64 0) rest

/-- The buffer after that sweep. -/
def sweepData (data : List Byte) : List Nat → List Byte
  | [] => data
  | _ :: _ => List.replicate 64 0

/-- The replies of a Compact that accepts every write of the setup, reports mode off
after the mode-off write, and reports the error code `{0x01, 0, 0, 0}`. -/
def compactErrorScript : List ControlReply :=
  [okWrite 1, okWrite 2, okRead [0x00, 0x00], okWrite 6, okWrite 2, okWrite 6, okWrite 6,
   okWrite 6, okRead [0x01, 0, 0, 0]]

/-- A raw Compact frame (156 rows of 208 samples) whose sample (0, 0) is 0, a dead
pixel, and whose every other sample is 5. -/
def deadPixelRaw : List Byte := [0, 0] ++ (List.replicate 32447 [5, 0]).flatten

/-- An open Nano300 session whose device rejects the first control transfer (-1) and
accepts two bytes on every later one. -/
def nano300RetrySession : Session :=
  { cam := nano300CameraOpen
    usb := { control := fun n => if n = 0 then { transferred := -1 } else { transferred := 2 }
             bulk := fun _ => { error := 0, data := [] } } }

/-- The replies of a Compact that accepts every write of the setup, confirms mode off at
once and reports no error: all the replies up to the mode-on loop. -/
def compactSetupReplies : List ControlReply :=
  [okWrite 1, okWrite 2, okRead [0x00, 0x00], okWrite 6, okWrite 2, okWrite 6, okWrite 6,
   okWrite 6, okRead [0, 0, 0, 0], okWrite 2, okRead [0x00, 0x00]]

/-- The replies of a CompactPro that accepts every write of the setup, confirms mode off
at once, answers the settings sweep with blocks of zeros and reports no error: all the
replies up to the mode-on loop. -/
def compactProSetupReplies : List ControlReply :=
  [okWrite 1, okWrite 2, okRead [0x00, 0x00], okWrite 6, okWrite 2, okWrite 6, okWrite 6]
  ++ (List.replicate 80 [okWrite 6, okRead (List.replicate 64 0)]).flatten
  ++ [okWrite 2, okRead [0, 0, 0, 0], okWrite 2, okRead [0x00, 0x00]]

/-- The replies of a Nano300 that accepts every write of the setup, confirms mode off at
once, answers every read in full with zeros and reports no error: all the replies up to
the mode-on loop. -/
def nano300SetupReplies : List ControlReply :=
  [okWrite 2, okWrite 2, okRead [0, 0], okWrite 2, okWrite 6, okRead (List.replicate 16 0),
   okRead (List.replicate 4 0), okWrite 6, okRead (List.replicate 16 0), okWrite 2,
   okRead (List.replicate 64 0), okRead (List.replicate 4 0), okRead (List.replicate 12 0),
   okWrite 2, okRead (List.replicate 64 0), okRead (List.replicate 12 0),
   okRead (List.replicate 4 0)]
  ++ (List.replicate 80 [okWrite 6, okRead (List.replicate 64 0)]).flatten
  ++ [okWrite 2, okRead (List.replicate 64 0), okRead [0, 0, 0, 0], okWrite 4]

/-- An open Compact session on a device that accepts every two-byte write and answers
every read with operation mode `{0x02, 0x01}`, which confirms neither off nor on. -/
def neverConfirmingSession : Session :=
  { cam := compactCameraOpen
    usb := { control := fun n => if n % 2 = 0 then okWrite 2 else okRead [0x02, 0x01]
             bulk := fun _ => { error := 0, data := [] } } }

/-- An open Compact session on a device that accepts the `TARGET_PLATFORM` write and
every mode write, and answers every read with operation mode `{0x02, 0x01}`. -/
def neverOffSession : Session :=
  { cam := compactCameraOpen
    usb := { control := fun n =>
               if n = 0 then okWrite 1 else if n % 2 = 1 then okWrite 2 else okRead [0x02, 0x01]
             bulk := fun _ => { error := 0, data := [] } } }

/-! ## Theorems -/

/-! ### Device profile and frame header -/

theorem supported_cases {P : SeekDeviceType → Prop} {t : SeekDeviceType} (ht : t.supported)
    (h1 : P .SeekThermalCompact) (h2 : P .SeekThermalCompactPro) (h3 : P .SeekThermalNano300) :
    P t := by
  rcases ht with rfl | rfl | rfl <;> assumption

theorem loadU16_ok {buf : List Byte} {off : Nat} (h : off + 2 ≤ buf.length) :
    loadU16 buf off = .ok (readU16LE buf off) := by
  unfold loadU16
  rw [if_pos (by omega)]

theorem loadU16_oob {buf : List Byte} {off : Nat} (h : buf.length < off + 2) :
    loadU16 buf off = .error .OutOfBounds := by
  unfold loadU16
  rw [if_neg (by omega)]

/-- On a buffer of at least six bytes `_isCalibrationFrame` compares the 16-bit
sample at byte offset 4 with 1. -/
theorem isCalibrationFrame_of_six (d : SeekDevice) (buffer : List Byte)
    (ht : d.type.supported) (hlen : 6 ≤ buffer.length) :
    d._isCalibrationFrame buffer = .ok (readU16LE buffer 4 == 1) := by
  have h5 : ¬ buffer.length < 5 := by omega
  have ht' : d.type = .SeekThermalCompact ∨ d.type = .SeekThermalCompactPro
      ∨ d.type = .SeekThermalNano300 := ht
  unfold SeekDevice._isCalibrationFrame
  rw [if_pos ht', if_neg h5, loadU16_ok (by omega)]
  rfl

/-- On a buffer of fewer than five bytes `_isCalibrationFrame` answers false. -/
theorem isCalibrationFrame_short (d : SeekDevice) (buffer : List Byte)
    (ht : d.type.supported) (hlen : buffer.length < 5) :
    d._isCalibrationFrame buffer = .ok false := by
  have ht' : d.type = .SeekThermalCompact ∨ d.type = .SeekThermalCompactPro
      ∨ d.type = .SeekThermalNano300 := ht
  unfold SeekDevice._isCalibrationFrame
  rw [if_pos ht', if_pos hlen]

/-- C3 (code defect): a five-byte buffer passes the guard `buffer.size() < 5` of
`_isCalibrationFrame`, and the 16-bit load at byte offset 4 then reads byte 5, which
the buffer does not have. -/
theorem isCalibrationFrame_five_bytes_reads_past_end :
    fiveByteBuffer.length = 5 ∧
    compactDevice._isCalibrationFrame fiveByteBuffer = .error .OutOfBounds := by
  decide

/-- The byte offset of the frame number in a header of a supported model. -/
theorem frameNumberOffset_supported (t : SeekDeviceType) (ht : t.supported) :
    FrameHeader.GetFrameNumberOffset t
      = .ok (if t = .SeekThermalCompact then 80 else 2) := by
  revert ht; revert t
  intro t ht
  exact supported_cases (P := fun t => FrameHeader.GetFrameNumberOffset t
      = .ok (if t = .SeekThermalCompact then 80 else 2)) ht (by decide) (by decide) (by decide)

/-- The byte offset of the frame type in a header of a supported model. -/
theorem frameTypeOffset_supported (t : SeekDeviceType) (ht : t.supported) :
    FrameHeader.GetFrameTypeOffset t
      = .ok (if t = .SeekThermalCompact then 20 else 4) := by
  exact supported_cases (P := fun t => FrameHeader.GetFrameTypeOffset t
      = .ok (if t = .SeekThermalCompact then 20 else 4)) ht (by decide) (by decide) (by decide)

theorem supported_ne_none {t : SeekDeviceType} (ht : t.supported) : t ≠ .None := by
  exact supported_cases (P := fun t => t ≠ .None) ht (by decide) (by decide) (by decide)

/-- The raw frame type of a header of a supported model, as a function of its bytes. -/
theorem getRawFrameType_eq (t : SeekDeviceType) (data : List Byte) (ht : t.supported) :
    FrameHeader._getRawFrameType { type_ := t, data_ := data }
      = if data.length < (if t = .SeekThermalCompact then 20 else 4) + 2
        then .error .SeekRuntimeError
        else .ok (readU16LE data (if t = .SeekThermalCompact then 20 else 4)) := by
  unfold FrameHeader._getRawFrameType
  simp only [if_neg (supported_ne_none ht), frameTypeOffset_supported t ht]
  show (if data.length < _ + 2 then _ else _) = _
  by_cases h : data.length < (if t = .SeekThermalCompact then 20 else 4) + 2
  · rw [if_pos h, if_pos h]
  · rw [if_neg h, if_neg h, loadU16_ok (by omega)]

/-- C4: in a header of a supported model, `getFrameNumber` and `_getRawFrameType`
return the little-endian 16-bit value at byte offsets 80 and 20 (Compact) or 2 and 4
(CompactPro, Nano300); when the header data is shorter than offset + 2 bytes each of
them fails with `SeekRuntimeError`. -/
theorem frameHeader_decode (t : SeekDeviceType) (data : List Byte) (ht : t.supported) :
    FrameHeader.getFrameNumber { type_ := t, data_ := data }
      = (if data.length < (if t = .SeekThermalCompact then 80 else 2) + 2
         then .error .SeekRuntimeError
         else .ok (((data.getD (if t = .SeekThermalCompact then 80 else 2) 0).val
            + 256 * (data.getD ((if t = .SeekThermalCompact then 80 else 2) + 1) 0).val : Nat) : Int))
    ∧ FrameHeader._getRawFrameType { type_ := t, data_ := data }
      = (if data.length < (if t = .SeekThermalCompact then 20 else 4) + 2
         then .error .SeekRuntimeError
         else .ok ((data.getD (if t = .SeekThermalCompact then 20 else 4) 0).val
            + 256 * (data.getD ((if t = .SeekThermalCompact then 20 else 4) + 1) 0).val)) := by
  refine ⟨?_, getRawFrameType_eq t data ht⟩
  unfold FrameHeader.getFrameNumber
  simp only [if_neg (supported_ne_none ht), frameNumberOffset_supported t ht]
  show (if data.length < _ + 2 then _ else _) = _
  by_cases h : data.length < (if t = .SeekThermalCompact then 80 else 2) + 2
  · rw [if_pos h, if_pos h]
  · rw [if_neg h, if_neg h, loadU16_ok (by omega)]
    rfl

/-- C4 at a concrete Compact header: frame number 0x1234 at offset 80 and frame
type 3 at offset 20. -/
theorem frameHeader_decode_witness :
    SeekDeviceType.SeekThermalCompact.supported
    ∧ FrameHeader.getFrameNumber
        { type_ := .SeekThermalCompact, data_ := compactHeaderBytes } = .ok 0x1234
    ∧ FrameHeader._getRawFrameType
        { type_ := .SeekThermalCompact, data_ := compactHeaderBytes } = .ok 3 :=
  ⟨by decide, frameHeader_decode .SeekThermalCompact compactHeaderBytes (by decide)⟩

/-- C5: for a supported model and a header long enough to decode, `getFrameType`
maps the raw codes 1, 3, 4, 6 and 20 to their named frame types and every other
code to `UNKNOWN`; it never fails. -/
theorem getFrameType_total (t : SeekDeviceType) (data : List Byte) (code : Nat)
    (ht : t.supported)
    (hlen : (if t = .SeekThermalCompact then 20 else 4) + 2 ≤ data.length)
    (hcode : code = (data.getD (if t = .SeekThermalCompact then 20 else 4) 0).val
        + 256 * (data.getD ((if t = .SeekThermalCompact then 20 else 4) + 1) 0).val) :
    code < 65536
    ∧ (code = 1 → FrameHeader.getFrameType { type_ := t, data_ := data }
        = .ok .CALIBRATION_FRAME)
    ∧ (code = 3 → FrameHeader.getFrameType { type_ := t, data_ := data }
        = .ok .THERMAL_FRAME)
    ∧ (code = 4 → FrameHeader.getFrameType { type_ := t, data_ := data }
        = .ok .FIRST_FRAME)
    ∧ (code = 6 → FrameHeader.getFrameType { type_ := t, data_ := data }
        = .ok .BEFORE_CALIBRATION_FRAME)
    ∧ (code = 20 → FrameHeader.getFrameType { type_ := t, data_ := data }
        = .ok .AFTER_CALIBRATION_FRAME)
    ∧ (code ≠ 1 → code ≠ 3 → code ≠ 4 → code ≠ 6 → code ≠ 20 →
        FrameHeader.getFrameType { type_ := t, data_ := data } = .ok .UNKNOWN) := by
  have hraw : FrameHeader._getRawFrameType { type_ := t, data_ := data } = .ok code := by
    rw [getRawFrameType_eq t data ht, if_neg (by omega), hcode]
    rfl
  have hty : FrameHeader.getFrameType { type_ := t, data_ := data }
      = (if code = 1 then .ok .CALIBRATION_FRAME
        else if code = 3 then .ok .THERMAL_FRAME
        else if code = 4 then .ok .FIRST_FRAME
        else if code = 6 then .ok .BEFORE_CALIBRATION_FRAME
        else if code = 20 then .ok .AFTER_CALIBRATION_FRAME
        else .ok .UNKNOWN) := by
    unfold FrameHeader.getFrameType
    simp only [if_neg (supported_ne_none ht), hraw]
    rfl
  refine ⟨?_, ?_, ?_, ?_, ?_, ?_, ?_⟩
  · have h1 := (data.getD (if t = .SeekThermalCompact then 20 else 4) 0).isLt
    have h2 := (data.getD ((if t = .SeekThermalCompact then 20 else 4) + 1) 0).isLt
    omega
  · intro h; rw [hty, if_pos h]
  · intro h; subst h; rw [hty]; rfl
  · intro h; subst h; rw [hty]; rfl
  · intro h; subst h; rw [hty]; rfl
  · intro h; subst h; rw [hty]; rfl
  · intro h1 h3 h4 h6 h20
    rw [hty, if_neg h1, if_neg h3, if_neg h4, if_neg h6, if_neg h20]

/-- C5 at a concrete Compact header whose type code is 3. -/
theorem getFrameType_total_witness :
    FrameHeader.getFrameType { type_ := .SeekThermalCompact, data_ := compactHeaderBytes }
      = .ok .THERMAL_FRAME :=
  (getFrameType_total .SeekThermalCompact compactHeaderBytes 3 (by decide) (by decide)
    (by decide)).2.2.1 rfl

/-- C6 as stated fails for the CompactPro: its transfer is larger than header plus
`height` rows. -/
theorem profile_total_size_counterexample :
    ¬ ∃ total header step height : Nat,
      compactProDevice._getFrameTransferTotalSize = .ok total
      ∧ compactProDevice._getFrameHeaderSize = .ok header
      ∧ compactProDevice._getRowStep = .ok step
      ∧ compactProDevice.getFrameHeight = .ok height
      ∧ total = header + step * height := by
  rintro ⟨total, header, step, height, h1, h2, h3, h4, h5⟩
  have e1 : total = 177840 := by
    have : (Except.ok 177840 : Except Fault Nat) = .ok total := h1
    injection this with h; exact h.symm
  have e2 : header = 2736 := by
    have : (Except.ok 2736 : Except Fault Nat) = .ok header := h2
    injection this with h; exact h.symm
  have e3 : step = 684 := by
    have : (Except.ok 684 : Except Fault Nat) = .ok step := h3
    injection this with h; exact h.symm
  have e4 : height = 240 := by
    have : (Except.ok 240 : Except Fault Nat) = .ok height := h4
    injection this with h; exact h.symm
  subst e1 e2 e3 e4
  omega

/-- C6 (amended): for every supported model the row step is at least two bytes per
pixel of a row; the Compact transfer is exactly header plus `height` rows, and the
CompactPro and Nano300 transfers are header plus `height + 16` rows. -/
theorem profile_consistency (d : SeekDevice) (ht : d.type.supported) :
    ∃ total header step height width : Nat,
      d._getFrameTransferTotalSize = .ok total
      ∧ d._getFrameHeaderSize = .ok header
      ∧ d._getRowStep = .ok step
      ∧ d.getFrameHeight = .ok height
      ∧ d.getFrameWidth = .ok width
      ∧ step ≥ width * 2
      ∧ (d.type = .SeekThermalCompact → total = header + step * height)
      ∧ (d.type ≠ .SeekThermalCompact → total = header + step * (height + 16)) := by
  obtain ⟨t, serial, port⟩ := d
  simp only at ht
  rcases ht with rfl | rfl | rfl
  · exact ⟨64896, 0, 416, 156, 206, rfl, rfl, rfl, rfl, rfl, by decide, fun _ => by decide,
      fun h => absurd rfl h⟩
  · exact ⟨177840, 2736, 684, 240, 320, rfl, rfl, rfl, rfl, rfl, by decide,
      fun h => absurd (show SeekDeviceType.SeekThermalCompactPro = .SeekThermalCompact from h) (by decide),
      fun _ => by decide⟩
  · exact ⟨177840, 2736, 684, 240, 320, rfl, rfl, rfl, rfl, rfl, by decide,
      fun h => absurd (show SeekDeviceType.SeekThermalNano300 = .SeekThermalCompact from h) (by decide),
      fun _ => by decide⟩

/-- C6 (amended) at the CompactPro. -/
theorem profile_consistency_witness :
    ∃ total header step height width : Nat,
      compactProDevice._getFrameTransferTotalSize = .ok total
      ∧ compactProDevice._getFrameHeaderSize = .ok header
      ∧ compactProDevice._getRowStep = .ok step
      ∧ compactProDevice.getFrameHeight = .ok height
      ∧ compactProDevice.getFrameWidth = .ok width
      ∧ step ≥ width * 2
      ∧ (compactProDevice.type = .SeekThermalCompact → total = header + step * height)
      ∧ (compactProDevice.type ≠ .SeekThermalCompact →
          total = header + step * (height + 16)) :=
  profile_consistency compactProDevice (by decide)

/-! ### Memory lemmas -/

theorem length_writeU16LE (buf : List Byte) (off v : Nat) :
    (writeU16LE buf off v).length = buf.length := by
  simp [writeU16LE]

theorem getD_writeU16LE_of_ne (buf : List Byte) (off v p : Nat) (h1 : p ≠ off)
    (h2 : p ≠ off + 1) : (writeU16LE buf off v).getD p 0 = buf.getD p 0 := by
  simp only [writeU16LE, List.getD_eq_getElem?_getD]
  rw [List.getElem?_set_ne (Ne.symm h2), List.getElem?_set_ne (Ne.symm h1)]

theorem readU16LE_writeU16LE_same (buf : List Byte) (off v : Nat) (h : off + 1 < buf.length) :
    readU16LE (writeU16LE buf off v) off = v % 65536 := by
  have h0 : off < buf.length := by omega
  have e1 : (writeU16LE buf off v).getD off 0 = loByte v := by
    simp only [writeU16LE, List.getD_eq_getElem?_getD]
    rw [List.getElem?_set_ne (by omega), List.getElem?_set_self h0]
    rfl
  have e2 : (writeU16LE buf off v).getD (off + 1) 0 = hiByte v := by
    simp only [writeU16LE, List.getD_eq_getElem?_getD]
    rw [List.getElem?_set_self (by simpa using h)]
    rfl
  simp only [readU16LE, e1, e2, loByte, hiByte]
  omega

theorem readU16LE_writeU16LE_of_ne (buf : List Byte) (off v off' : Nat)
    (h : off' + 2 ≤ off ∨ off + 2 ≤ off') :
    readU16LE (writeU16LE buf off v) off' = readU16LE buf off' := by
  simp only [readU16LE]
  rw [getD_writeU16LE_of_ne buf off v off' (by omega) (by omega),
    getD_writeU16LE_of_ne buf off v (off' + 1) (by omega) (by omega)]

theorem readU16LE_lt (buf : List Byte) (off : Nat) : readU16LE buf off < 65536 := by
  have h1 := (buf.getD off 0).isLt
  have h2 := (buf.getD (off + 1) 0).isLt
  simp only [readU16LE]
  omega

theorem storeU16_ok {buf : List Byte} {off : Nat} (v : Nat) (h : off + 2 ≤ buf.length) :
    storeU16 buf off v = .ok (writeU16LE buf off v) := by
  unfold storeU16
  rw [if_pos (by omega)]

/-- A loop over `0 .. n-1` in which every pass succeeds and re-establishes an
invariant indexed by the number of completed passes. -/
theorem foldlM_range_inv {σ : Type} (f : σ → Nat → Except Fault σ) (P : Nat → σ → Prop)
    (n : Nat) (s0 : σ) (h0 : P 0 s0)
    (hstep : ∀ i, i < n → ∀ s, P i s → ∃ s', f s i = .ok s' ∧ P (i + 1) s') :
    ∃ s', (List.range n).foldlM f s0 = .ok s' ∧ P n s' := by
  induction n with
  | zero => exact ⟨s0, rfl, h0⟩
  | succ n ih =>
    obtain ⟨s1, h1, hP1⟩ := ih (fun i hi s hs => hstep i (by omega) s hs)
    obtain ⟨s2, h2, hP2⟩ := hstep n (by omega) s1 hP1
    refine ⟨s2, ?_, hP2⟩
    rw [List.range_succ, List.foldlM_append, h1]
    simp only [List.foldlM_cons, List.foldlM_nil]
    show (f s1 n >>= fun s => pure s) = _
    rw [h2]
    rfl

/-! ### `extractFrame`: the accumulation over the 3×3 neighbourhood -/

/-- The raw sample of an in-bounds neighbour lies inside `data` when `data` holds
`height` rows of `row_step` samples (the last one needed up to column `width`). -/
theorem neighbour_index_safe (W H RS : Nat) (data : List Byte) (y x : Nat) (k m : Int)
    (hlen : 2 * ((H - 1) * RS + W) ≤ data.length)
    (hin : specInBounds W H y x k m) :
    2 * (((y : Int) + k) * RS + x + m).toNat + 2 ≤ data.length := by
  obtain ⟨h1, h2, h3, h4⟩ := hin
  obtain ⟨r, hr⟩ := Int.eq_ofNat_of_zero_le h1
  obtain ⟨c, hc⟩ := Int.eq_ofNat_of_zero_le h3
  have hr' : r < H := by omega
  have hc' : c < W := by omega
  have e : (((y : Int) + k) * RS + x + m) = ((r * RS + c : Nat) : Int) := by
    rw [hr]; push_cast; omega
  rw [e, Int.toNat_ofNat]
  have hmul : r * RS ≤ (H - 1) * RS := Nat.mul_le_mul_right RS (by omega)
  omega

theorem extractFrame_neighbour_eq (W H RS : Nat) (data : List Byte) (y x : Nat)
    (hsafe : ∀ k m, specInBounds W H y x k m →
      2 * (((y : Int) + k) * RS + x + m).toNat + 2 ≤ data.length)
    (k : Int) (acc : Int × Int) (m : Int) :
    SeekThermalCamera.extractFrame_neighbour W H RS data y x k acc m
      = .ok (acc.1 + (if specContributes W H RS data y x k m
                then (specSample RS data y x k m : Int)
                  * SeekThermalCamera.filter_weights.getD ((k + 1) * 3 + m + 1).toNat 0
                else 0),
             acc.2 + (if specContributes W H RS data y x k m
                then SeekThermalCamera.filter_weights.getD ((k + 1) * 3 + m + 1).toNat 0
                else 0)) := by
  unfold SeekThermalCamera.extractFrame_neighbour
  by_cases hin : specInBounds W H y x k m
  · have hcond : ¬ ((y : Int) + k < 0 ∨ (y : Int) + k ≥ H ∨ (x : Int) + m < 0
        ∨ (x : Int) + m ≥ W) := by
      obtain ⟨h1, h2, h3, h4⟩ := hin
      omega
    rw [if_neg hcond]
    simp only []
    rw [loadU16_ok (hsafe k m hin)]
    show (if _ then _ else _) = _
    by_cases hv : readU16LE data (2 * (((y : Int) + k) * RS + x + m).toNat) = 0
        ∨ readU16LE data (2 * (((y : Int) + k) * RS + x + m).toNat) = 0xffff
    · have hc : ¬ specContributes W H RS data y x k m := by
        unfold specContributes specSample
        rintro ⟨_, h0, hf⟩
        rcases hv with hv | hv
        · exact h0 hv
        · exact hf hv
      rw [if_pos hv, if_neg hc, if_neg hc]
      simp
    · have hc : specContributes W H RS data y x k m := by
        unfold specContributes specSample
        exact ⟨hin, fun h => hv (Or.inl h), fun h => hv (Or.inr h)⟩
      rw [if_neg hv, if_pos hc, if_pos hc]
      rfl
  · have hcond : ((y : Int) + k < 0 ∨ (y : Int) + k ≥ H ∨ (x : Int) + m < 0
        ∨ (x : Int) + m ≥ W) := by
      unfold specInBounds at hin
      omega
    have hc : ¬ specContributes W H RS data y x k m := fun h => hin h.1
    rw [if_pos hcond, if_neg hc, if_neg hc]
    simp

/-- The two inner loops of `extractFrame` compute the specification's sum and count. -/
theorem extractFrame_accumulate_eq (W H RS : Nat) (data : List Byte) (y x : Nat)
    (hsafe : ∀ k m, specInBounds W H y x k m →
      2 * (((y : Int) + k) * RS + x + m).toNat + 2 ≤ data.length) :
    SeekThermalCamera.extractFrame_accumulate W H RS data y x
      = .ok ((specSum W H RS data y x : Int), (specCount W H RS data y x : Int)) := by
  have step := extractFrame_neighbour_eq W H RS data y x hsafe
  unfold SeekThermalCamera.extractFrame_accumulate
  simp only [List.foldlM_cons, List.foldlM_nil, step, bind, Except.bind, pure, Except.pure]
  simp only [specSum, specCount, specWeights, List.map_cons, List.map_nil, List.sum_cons,
    List.sum_nil, SeekThermalCamera.filter_weights]
  push_cast
  norm_num
  constructor <;> ring

/-! ### `extractFrame`: the stored value and the two outer loops -/

theorem sum_map_bounds {α : Type} (l : List α) (f g : α → Nat)
    (h : ∀ a ∈ l, g a ≤ f a ∧ f a ≤ 65534 * g a) :
    (l.map g).sum ≤ (l.map f).sum ∧ (l.map f).sum ≤ 65534 * (l.map g).sum := by
  induction l with
  | nil => simp
  | cons a l ih =>
    have ha := h a (List.mem_cons_self a l)
    have hl := ih (fun b hb => h b (List.mem_cons_of_mem a hb))
    simp only [List.map_cons, List.sum_cons]
    omega

/-- The specification's sum lies between `count` and `0xFFFE * count`. -/
theorem specSum_bounds (W H RS : Nat) (data : List Byte) (y x : Nat) :
    specCount W H RS data y x ≤ specSum W H RS data y x
    ∧ specSum W H RS data y x ≤ 65534 * specCount W H RS data y x := by
  unfold specSum specCount
  apply sum_map_bounds
  intro e _
  by_cases hc : specContributes W H RS data y x e.1 e.2.1
  · rw [if_pos hc, if_pos hc]
    have hlt := readU16LE_lt data (2 * (((y : Int) + e.1) * RS + x + e.2.1).toNat)
    obtain ⟨_, h0, hf⟩ := hc
    unfold specSample at *
    have h1 : 1 ≤ readU16LE data (2 * (((y : Int) + e.1) * RS + x + e.2.1).toNat) := by omega
    have h2 : readU16LE data (2 * (((y : Int) + e.1) * RS + x + e.2.1).toNat) ≤ 65534 := by
      omega
    constructor
    · calc e.2.2 = 1 * e.2.2 := by omega
        _ ≤ _ := Nat.mul_le_mul_right _ h1
    · exact Nat.mul_le_mul_right _ h2
  · rw [if_neg hc, if_neg hc]
    omega

/-- The stored pixel value is 0 when nothing contributed and the integer quotient
`sum / count` otherwise. -/
theorem extractFrame_value_eq (S C : Nat) (h1 : C ≤ S) (h2 : S ≤ 65534 * C) :
    SeekThermalCamera.extractFrame_value ((S : Int), (C : Int))
      = if C = 0 then 0 else S / C := by
  unfold SeekThermalCamera.extractFrame_value
  by_cases hC : C = 0
  · have hS : S = 0 := by omega
    subst hC; subst hS
    rfl
  · have hS : (S : Int) ≠ 0 := by omega
    rw [if_neg hC]
    simp only []
    rw [if_neg hS]
    have e : (S : Int).tdiv (C : Int) = ((S / C : Nat) : Int) := rfl
    have hq : S / C ≤ 65534 := by
      have : S / C ≤ 65534 * C / C := Nat.div_le_div_right h2
      rwa [Nat.mul_div_cancel _ (by omega)] at this
    rw [e, Int.emod_eq_of_lt (Int.ofNat_nonneg _) (by exact_mod_cast (by omega : S / C < 65536)),
      Int.toNat_ofNat]

theorem pixel_index_unique (W y x y' x' : Nat) (hx : x < W) (hx' : x' < W)
    (h : y' * W + x' = y * W + x) : y' = y ∧ x' = x := by
  rcases Nat.lt_trichotomy y' y with hlt | heq | hgt
  · have := Nat.mul_le_mul_right W (show y' + 1 ≤ y from hlt)
    rw [Nat.add_mul] at this
    omega
  · subst heq
    omega
  · have := Nat.mul_le_mul_right W (show y + 1 ≤ y' from hgt)
    rw [Nat.add_mul] at this
    omega

theorem stored_step (W : Nat) (pix : Nat → Nat → Nat) (fd : List Byte) (y x : Nat)
    (out : List Byte) (hx : x < W) (hfit : 2 * (y * W + x) + 2 ≤ fd.length)
    (hpix : pix y x < 65536) (h : Stored W pix fd (y * W + x) out) :
    Stored W pix fd (y * W + x + 1) (writeU16LE out (2 * (y * W + x)) (pix y x)) := by
  obtain ⟨hl, hs, hr⟩ := h
  refine ⟨by rw [length_writeU16LE, hl], ?_, ?_⟩
  · intro y' x' hx' hlt
    by_cases heq : y' * W + x' = y * W + x
    · obtain ⟨e1, e2⟩ := pixel_index_unique W y x y' x' hx hx' heq
      subst e1; subst e2
      rw [readU16LE_writeU16LE_same _ _ _ (by omega), Nat.mod_eq_of_lt hpix]
    · rw [readU16LE_writeU16LE_of_ne _ _ _ _ (by omega)]
      exact hs y' x' hx' (by omega)
  · intro p hp
    rw [getD_writeU16LE_of_ne _ _ _ _ (by omega) (by omega)]
    exact hr p (by omega)

/-- The two outer loops of `extractFrame` succeed when the input holds `H` rows of
`RS` samples and the output `H * W` samples; afterwards pixel `(x, y)` of the output
is 0 if the specification's count is 0 and `sum / count` (integer division) otherwise,
and the output is unchanged beyond the image. -/
theorem extractFrame_loops_spec (W H RS : Nat) (data fd : List Byte)
    (hlen : 2 * ((H - 1) * RS + W) ≤ data.length) (hout : 2 * (H * W) ≤ fd.length) :
    ∃ out, SeekThermalCamera.extractFrame_loops W H RS data fd = .ok out
      ∧ Stored W (flooredAverage W H RS data) fd (H * W) out := by
  unfold SeekThermalCamera.extractFrame_loops
  apply foldlM_range_inv _ (fun y out => Stored W (flooredAverage W H RS data) fd (y * W) out)
  · exact ⟨rfl, fun y x _ h => absurd h (by omega), fun _ _ => rfl⟩
  · intro y hy s hs
    have hrow : (y + 1) * W ≤ H * W := Nat.mul_le_mul_right W hy
    rw [Nat.add_mul, Nat.one_mul] at hrow ⊢
    apply foldlM_range_inv _
      (fun x out => Stored W (flooredAverage W H RS data) fd (y * W + x) out)
    · exact hs
    · intro x hx s' hs'
      have hb := specSum_bounds W H RS data y x
      have hpix : flooredAverage W H RS data y x < 65536 := by
        unfold flooredAverage
        split
        · omega
        · have : specSum W H RS data y x / specCount W H RS data y x
              ≤ 65534 * specCount W H RS data y x / specCount W H RS data y x :=
            Nat.div_le_div_right hb.2
          rw [Nat.mul_div_cancel _ (by omega)] at this
          omega
      have hacc := extractFrame_accumulate_eq W H RS data y x
        (fun k m hin => neighbour_index_safe W H RS data y x k m hlen hin)
      have hval : SeekThermalCamera.extractFrame_value
          ((specSum W H RS data y x : Int), (specCount W H RS data y x : Int))
          = flooredAverage W H RS data y x := extractFrame_value_eq _ _ hb.1 hb.2
      refine ⟨writeU16LE s' (2 * (y * W + x)) (flooredAverage W H RS data y x), ?_, ?_⟩
      · simp only [hacc, bind, Except.bind, hval]
        exact storeU16_ok _ (by rw [hs'.1]; omega)
      · exact stored_step W _ fd y x s' hx (by omega) hpix hs'

/-! ### `extractFrame` -/

/-- `extractFrame` succeeds whenever the device profile is defined, the input holds
`height` rows of `row_step / 2` samples and the output holds `width * height`
samples; its result is described by `Stored`. -/
theorem extractFrame_stored (cam : SeekThermalCamera) (data fd : List Byte)
    (width height step : Nat)
    (hw : cam.device_.getFrameWidth = .ok width)
    (hh : cam.device_.getFrameHeight = .ok height)
    (hs : cam.device_._getRowStep = .ok step)
    (hdata : 2 * ((height - 1) * (step / 2) + width) ≤ data.length)
    (hout : 2 * (height * width) ≤ fd.length) :
    ∃ out, cam.extractFrame data fd = .ok out
      ∧ Stored width (flooredAverage width height (step / 2) data) fd (height * width) out := by
  obtain ⟨out, h1, h2⟩ := extractFrame_loops_spec width height (step / 2) data fd hdata hout
  refine ⟨out, ?_, h2⟩
  unfold SeekThermalCamera.extractFrame
  simp only [hw, hh, hs, bind, Except.bind]
  exact h1

theorem specWeights_pos : ∀ e ∈ specWeights, 0 < e.2.2 := by decide

theorem specCount_eq_zero_iff (W H RS : Nat) (data : List Byte) (y x : Nat) :
    specCount W H RS data y x = 0
      ↔ ∀ e ∈ specWeights, ¬ specContributes W H RS data y x e.1 e.2.1 := by
  unfold specCount
  rw [List.sum_eq_zero_iff]
  constructor
  · intro h e he hc
    have := h (if specContributes W H RS data y x e.1 e.2.1 then e.2.2 else 0)
      (List.mem_map.mpr ⟨e, he, rfl⟩)
    rw [if_pos hc] at this
    have := specWeights_pos e he
    omega
  · intro h v hv
    obtain ⟨e, he, rfl⟩ := List.mem_map.mp hv
    rw [if_neg (h e he)]

/-- C1 (amended): `extractFrame` succeeds on a raw pixel region of `height` rows of
`row_step / 2` samples and an output of `width * height` samples; the output sample
at index `y * width + x` is 0 if no in-bounds 3×3 neighbour has a value other than 0
or 0xFFFF, and otherwise equals `sum / count` rounded down (integer division), where
`sum` and `count` accumulate `value * weight` and `weight` over the valid in-bounds
neighbours with the weights `[1,2,1; 2,4,2; 1,2,1]`. -/
theorem extractFrame_pixel (cam : SeekThermalCamera) (data frame_data : List Byte)
    (width height step : Nat)
    (hw : cam.device_.getFrameWidth = .ok width)
    (hh : cam.device_.getFrameHeight = .ok height)
    (hs : cam.device_._getRowStep = .ok step)
    (hdata : 2 * ((height - 1) * (step / 2) + width) ≤ data.length)
    (hout : 2 * (height * width) ≤ frame_data.length) :
    ∃ out, cam.extractFrame data frame_data = .ok out
      ∧ ∀ y x, y < height → x < width →
        ((∀ e ∈ specWeights, ¬ specContributes width height (step / 2) data y x e.1 e.2.1) →
          readU16LE out (2 * (y * width + x)) = 0)
        ∧ ((∃ e ∈ specWeights, specContributes width height (step / 2) data y x e.1 e.2.1) →
          readU16LE out (2 * (y * width + x))
            = specSum width height (step / 2) data y x
              / specCount width height (step / 2) data y x) := by
  obtain ⟨out, h1, _, h2, _⟩ :=
    extractFrame_stored cam data frame_data width height step hw hh hs hdata hout
  refine ⟨out, h1, fun y x hy hx => ?_⟩
  have hidx : y * width + x < height * width := by
    have := Nat.mul_le_mul_right width (show y + 1 ≤ height from hy)
    rw [Nat.add_mul] at this
    omega
  have hpix := h2 y x hx hidx
  constructor
  · intro hnone
    rw [hpix, flooredAverage, if_pos ((specCount_eq_zero_iff _ _ _ _ _ _).mpr hnone)]
  · rintro ⟨e, he, hc⟩
    have hne : specCount width height (step / 2) data y x ≠ 0 := fun h0 =>
      (specCount_eq_zero_iff _ _ _ _ _ _).mp h0 e he hc
    rw [hpix, flooredAverage, if_neg hne]

theorem roundingRaw_length : roundingRaw.length = 64896 := by
  rw [roundingRaw, List.length_append, List.length_replicate]
  rfl

theorem blankImage_length : blankImage.length = 64272 :=
  List.length_replicate _ _

/-- C1 (amended) at the Compact, on a raw region whose first two samples are 1 and 3. -/
theorem extractFrame_pixel_witness :
    ∃ out, compactCamera.extractFrame roundingRaw blankImage = .ok out
      ∧ ∀ y x, y < 156 → x < 206 →
        ((∀ e ∈ specWeights, ¬ specContributes 206 156 (416 / 2) roundingRaw y x e.1 e.2.1) →
          readU16LE out (2 * (y * 206 + x)) = 0)
        ∧ ((∃ e ∈ specWeights, specContributes 206 156 (416 / 2) roundingRaw y x e.1 e.2.1) →
          readU16LE out (2 * (y * 206 + x))
            = specSum 206 156 (416 / 2) roundingRaw y x
              / specCount 206 156 (416 / 2) roundingRaw y x) :=
  extractFrame_pixel compactCamera roundingRaw blankImage 206 156 416 rfl rfl rfl
    (le_of_le_of_eq (by decide) roundingRaw_length.symm)
    (le_of_le_of_eq (by decide) blankImage_length.symm)

theorem roundingRaw_sum : specSum 206 156 208 roundingRaw 0 0 = 10 := by
  decide

theorem roundingRaw_count : specCount 206 156 208 roundingRaw 0 0 = 6 := by
  decide

/-- C1 as stated fails: at the Compact, with raw samples 1 (weight 4) and 3 (weight 2)
the only valid neighbours of pixel (0, 0), sum / count = 10 / 6, whose nearest integer
is 2, and `extractFrame` stores 1. -/
theorem extractFrame_rounding_counterexample :
    ∃ out, compactCamera.extractFrame roundingRaw blankImage = .ok out
      ∧ (∃ e ∈ specWeights, specContributes 206 156 208 roundingRaw 0 0 e.1 e.2.1)
      ∧ specSum 206 156 208 roundingRaw 0 0 = 10
      ∧ specCount 206 156 208 roundingRaw 0 0 = 6
      ∧ readU16LE out (2 * (0 * 206 + 0)) = 1
      ∧ readU16LE out (2 * (0 * 206 + 0))
          ≠ specRound (specSum 206 156 208 roundingRaw 0 0)
              (specCount 206 156 208 roundingRaw 0 0) := by
  obtain ⟨out, h1, _, h2, _⟩ :=
    extractFrame_stored compactCamera roundingRaw blankImage 206 156 416 rfl rfl rfl
      (le_of_le_of_eq (by decide) roundingRaw_length.symm)
      (le_of_le_of_eq (by decide) blankImage_length.symm)
  have hpix := h2 0 0 (by decide) (by decide)
  have hval : flooredAverage 206 156 (416 / 2) roundingRaw 0 0 = 1 := by
    show flooredAverage 206 156 208 roundingRaw 0 0 = 1
    unfold flooredAverage
    rw [roundingRaw_sum, roundingRaw_count]
    rfl
  rw [hval] at hpix
  refine ⟨out, h1, ⟨(0, 0, 4), by decide, by decide⟩, roundingRaw_sum, roundingRaw_count,
    hpix, ?_⟩
  rw [hpix, roundingRaw_sum, roundingRaw_count]
  decide

/-! ### `applyCalibration` -/

theorem calibrated_step (cal : List Byte) (offset : Nat) (fd : List Byte) (n : Nat)
    (out : List Byte) (hfit : 2 * n + 2 ≤ fd.length) (h : Calibrated cal offset fd n out) :
    Calibrated cal offset fd (n + 1)
      (writeU16LE out (2 * n)
        ((((readU16LE out (2 * n) : Int) + offset - readU16LE cal (2 * n)) % 65536).toNat)) := by
  obtain ⟨hl, hs, hr⟩ := h
  have hsame : readU16LE out (2 * n) = readU16LE fd (2 * n) := by
    simp only [readU16LE]
    rw [hr (2 * n) (by omega), hr (2 * n + 1) (by omega)]
  refine ⟨by rw [length_writeU16LE, hl], ?_, ?_⟩
  · intro i hi
    by_cases heq : i = n
    · subst heq
      rw [readU16LE_writeU16LE_same _ _ _ (by omega), hsame]
      have hnn : 0 ≤ ((readU16LE fd (2 * i) : Int) + offset - readU16LE cal (2 * i)) % 65536 :=
        Int.emod_nonneg _ (by decide)
      have hlt : ((readU16LE fd (2 * i) : Int) + offset - readU16LE cal (2 * i)) % 65536
          < 65536 := Int.emod_lt_of_pos _ (by decide)
      omega
    · rw [readU16LE_writeU16LE_of_ne _ _ _ _ (by omega)]
      exact hs i (by omega)
  · intro p hp
    rw [getD_writeU16LE_of_ne _ _ _ _ (by omega) (by omega)]
    exact hr p (by omega)

/-- `applyCalibration` succeeds when the frame holds at least as many samples as the
calibration reference; its result is described by `Calibrated`. -/
theorem applyCalibration_calibrated (cam : SeekThermalCamera) (fd : List Byte)
    (hfd : 2 * (cam.calibration_frame_.length / 2) ≤ fd.length) :
    ∃ out, cam.applyCalibration fd = .ok out
      ∧ Calibrated cam.calibration_frame_ cam.offset_ fd
          (cam.calibration_frame_.length / 2) out := by
  unfold SeekThermalCamera.applyCalibration
  apply foldlM_range_inv _ (fun n out => Calibrated cam.calibration_frame_ cam.offset_ fd n out)
  · exact ⟨rfl, fun i h => absurd h (by omega), fun _ _ => rfl⟩
  · intro n hn s hs
    refine ⟨_, ?_, calibrated_step _ _ fd n s (by omega) hs⟩
    rw [loadU16_ok (by rw [hs.1]; omega), loadU16_ok (by omega)]
    simp only [bind, Except.bind]
    exact storeU16_ok _ (by rw [hs.1]; omega)

/-- C2: `applyCalibration` stores, for every pixel index `i < width * height`,
`(in[i] + 0x4000 - reference[i]) mod 2^16` (unsigned 16-bit wrap-around, no clamping);
samples are two bytes, low byte first. -/
theorem applyCalibration_sample (cam : SeekThermalCamera) (frame_data : List Byte)
    (width height : Nat)
    (_hw : cam.getFrameWidth = .ok width) (_hh : cam.getFrameHeight = .ok height)
    (hcal : cam.calibration_frame_.length = 2 * (width * height))
    (hoff : cam.offset_ = 0x4000)
    (hfd : 2 * (width * height) ≤ frame_data.length) :
    ∃ out, cam.applyCalibration frame_data = .ok out
      ∧ out.length = frame_data.length
      ∧ ∀ i, i < width * height →
          (((out.getD (2 * i) 0).val + 256 * (out.getD (2 * i + 1) 0).val : Nat) : Int)
            = ((((frame_data.getD (2 * i) 0).val
                  + 256 * (frame_data.getD (2 * i + 1) 0).val : Nat) : Int) + 0x4000
                - (((cam.calibration_frame_.getD (2 * i) 0).val
                  + 256 * (cam.calibration_frame_.getD (2 * i + 1) 0).val : Nat) : Int))
              % 2 ^ 16 := by
  have hn : cam.calibration_frame_.length / 2 = width * height := by omega
  obtain ⟨out, h1, h2, h3, _⟩ := applyCalibration_calibrated cam frame_data (by omega)
  refine ⟨out, h1, h2, fun i hi => ?_⟩
  have := h3 i (by omega)
  rw [hoff] at this
  exact this

theorem length_flatten_replicate_pair (n : Nat) (a b : Byte) :
    (List.replicate n [a, b]).flatten.length = 2 * n := by
  induction n with
  | zero => rfl
  | succ n ih =>
    rw [List.replicate_succ, List.flatten_cons, List.length_append, ih]
    simp only [List.length_cons, List.length_nil]
    omega

theorem compactCamera_calibration_length :
    compactCamera.calibration_frame_.length = 2 * (206 * 156) :=
  length_flatten_replicate_pair _ _ _

/-- The constructor applied to a Compact identity yields `compactCamera`. -/
theorem new_compact : SeekThermalCamera.new compactDevice none = .ok compactCamera := rfl

/-- C2 at a freshly constructed Compact camera and a zeroed frame. -/
theorem applyCalibration_sample_witness :
    ∃ out, compactCamera.applyCalibration blankImage = .ok out
      ∧ out.length = blankImage.length
      ∧ ∀ i, i < 206 * 156 →
          (((out.getD (2 * i) 0).val + 256 * (out.getD (2 * i + 1) 0).val : Nat) : Int)
            = ((((blankImage.getD (2 * i) 0).val
                  + 256 * (blankImage.getD (2 * i + 1) 0).val : Nat) : Int) + 0x4000
                - (((compactCamera.calibration_frame_.getD (2 * i) 0).val
                  + 256 * (compactCamera.calibration_frame_.getD (2 * i + 1) 0).val : Nat)
                    : Int))
              % 2 ^ 16 :=
  applyCalibration_sample compactCamera blankImage 206 156 rfl rfl
    compactCamera_calibration_length rfl (le_of_le_of_eq (by decide) blankImage_length.symm)

/-! ### Frame capture: the early returns -/

/-- C9: on a closed session `_grabRawFrame` and `grabFrame` return `DEVICE_NOT_OPEN`
and leave the buffer argument, the size argument, the header argument, the camera
(scratch buffer and calibration reference included) and the USB environment as they
were. -/
theorem grab_closed_session (cam : SeekThermalCamera) (usb : Usb)
    (frame_data : Option (List Byte)) (image_data : Option (Option (List Byte)))
    (size : Nat) (header : Option FrameHeader)
    (hclosed : cam.usb_device_handle_ = none) :
    cam._grabRawFrame usb frame_data size
      = .ok { result := .DEVICE_NOT_OPEN, frame_data := frame_data, size := size, usb := usb }
    ∧ cam.grabFrame usb image_data size header
      = .ok { result := .DEVICE_NOT_OPEN, cam := cam, image_data := image_data, size := size,
              header := header, usb := usb } := by
  unfold SeekThermalCamera._grabRawFrame SeekThermalCamera.grabFrame
  rw [hclosed]
  exact ⟨rfl, rfl⟩

/-- C9 at the freshly constructed (closed) Compact camera. -/
theorem grab_closed_session_witness :
    compactCamera._grabRawFrame steadyUsb (some blankImage) 64272
      = .ok { result := .DEVICE_NOT_OPEN, frame_data := some blankImage, size := 64272,
              usb := steadyUsb }
    ∧ compactCamera.grabFrame steadyUsb (some (some blankImage)) 64272 (some {})
      = .ok { result := .DEVICE_NOT_OPEN, cam := compactCamera,
              image_data := some (some blankImage), size := 64272,
              header := some {}, usb := steadyUsb } :=
  grab_closed_session compactCamera steadyUsb (some blankImage) (some (some blankImage)) 64272
    (some {}) rfl

/-- C8: on an open session, `_grabRawFrame` with a caller buffer whose size is below
the model's total transfer size, and `grabFrame` with a caller image buffer whose size
is below `width * height * 2`, return `BUFFER_TOO_SMALL`; the USB environment is
unchanged, so no control write and no bulk transfer was issued. -/
theorem grab_buffer_too_small (cam : SeekThermalCamera) (usb : Usb)
    (frame_buffer image_buffer : List Byte) (frame_size image_size total width height : Nat)
    (header : Option FrameHeader)
    (hopen : cam.usb_device_handle_ ≠ none)
    (htotal : cam.device_._getFrameTransferTotalSize = .ok total)
    (hw : cam.device_.getFrameWidth = .ok width)
    (hh : cam.device_.getFrameHeight = .ok height)
    (hframe : frame_size < total)
    (himage : image_size < width * height * 2) :
    cam._grabRawFrame usb (some frame_buffer) frame_size
        = .ok { result := .BUFFER_TOO_SMALL, frame_data := some frame_buffer,
                size := frame_size, usb := usb }
    ∧ cam.grabFrame usb (some (some image_buffer)) image_size header
        = .ok { result := .BUFFER_TOO_SMALL, cam := cam,
                image_data := some (some image_buffer), size := image_size,
                header := header, usb := usb } := by
  obtain ⟨h, hh'⟩ := Option.ne_none_iff_exists'.mp hopen
  constructor
  · unfold SeekThermalCamera._grabRawFrame
    rw [hh']
    simp only [htotal, bind, Except.bind]
    rw [if_pos hframe]
  · unfold SeekThermalCamera.grabFrame
    rw [hh']
    simp only [SeekThermalCamera.getFrameSize, SeekThermalCamera.getFrameWidth,
      SeekThermalCamera.getFrameHeight, hw, hh, bind, Except.bind, pure, Except.pure]
    simp [himage]

/-- C8 at an open Compact camera, with a 64272-byte frame buffer (the transfer needs
64896) and an image size one byte short. -/
theorem grab_buffer_too_small_witness :
    compactCameraOpen._grabRawFrame steadyUsb (some blankImage) 64272
        = .ok { result := .BUFFER_TOO_SMALL, frame_data := some blankImage,
                size := 64272, usb := steadyUsb }
    ∧ compactCameraOpen.grabFrame steadyUsb (some (some blankImage)) 64271 (some {})
        = .ok { result := .BUFFER_TOO_SMALL, cam := compactCameraOpen,
                image_data := some (some blankImage), size := 64271,
                header := some {}, usb := steadyUsb } :=
  grab_buffer_too_small compactCameraOpen steadyUsb blankImage blankImage 64272 64271 64896
    206 156 (some {}) (by decide) rfl rfl rfl (by decide) (by decide)

/-! ### Frame capture: the bulk loop -/

theorem storeBytes_ok {buf : List Byte} {off : Nat} {src : List Byte}
    (h : off + src.length ≤ buf.length) :
    storeBytes buf off src = .ok (writeBytes buf off src) := by
  unfold storeBytes
  rw [if_pos h]

theorem length_writeBytes {buf : List Byte} {off : Nat} {src : List Byte}
    (h : off + src.length ≤ buf.length) : (writeBytes buf off src).length = buf.length := by
  unfold writeBytes
  simp only [List.length_append, List.length_take, List.length_drop]
  omega

theorem loop_done (R : Int) (fuel : Nat) (usb : Usb) (buf : List Byte) (offset : Nat)
    (todo : Int) (h : ¬ todo > 0) :
    SeekThermalCamera._grabRawFrame_loop R fuel usb buf offset todo
      = .ok (.SUCCESS, usb, buf) := by
  unfold SeekThermalCamera._grabRawFrame_loop
  rw [if_neg h]

/-- One pass of the bulk loop on a reply that fits into the buffer. -/
theorem loop_step (R : Int) (fuel : Nat) (usb : Usb) (buf : List Byte) (offset : Nat)
    (todo : Int) (h : todo > 0) (hfit : offset + (usb.bulk 0).data.length ≤ buf.length) :
    SeekThermalCamera._grabRawFrame_loop R (fuel + 1) usb buf offset todo
      = if (usb.bulk 0).error ≠ 0 then
          .ok (.TRANSFER_INCOMPLETE, (usb.bulk_transfer 0x81 R).2,
            writeBytes buf offset (usb.bulk 0).data)
        else if todo - ((usb.bulk 0).data.length : Int) ≠ 0
            ∧ R ≠ ((usb.bulk 0).data.length : Int) then
          .ok (.TRANSFER_INCOMPLETE, (usb.bulk_transfer 0x81 R).2,
            writeBytes buf offset (usb.bulk 0).data)
        else
          SeekThermalCamera._grabRawFrame_loop R fuel (usb.bulk_transfer 0x81 R).2
            (writeBytes buf offset (usb.bulk 0).data) (offset + (usb.bulk 0).data.length)
            (todo - ((usb.bulk 0).data.length : Int)) := by
  rw [SeekThermalCamera._grabRawFrame_loop, if_pos h]
  simp only [Usb.bulk_transfer, storeBytes_ok hfit, bind, Except.bind]

theorem take_writeBytes (buf src : List Byte) (off : Nat)
    (h : off + src.length ≤ buf.length) :
    (writeBytes buf off src).take (off + src.length) = buf.take off ++ src := by
  unfold writeBytes
  apply List.take_left'
  simp only [List.length_append, List.length_take]
  omega

theorem drop_writeBytes (buf src : List Byte) (off k : Nat)
    (h : off + src.length ≤ buf.length) :
    (writeBytes buf off src).drop (off + src.length + k) = buf.drop (off + src.length + k) := by
  have hl : (buf.take off ++ src).length = off + src.length := by
    simp only [List.length_append, List.length_take]
    omega
  unfold writeBytes
  rw [← hl, List.drop_append, List.drop_drop, hl]

theorem received_length (R : Nat) (m : Nat) (bulk : Nat → BulkReply)
    (h : ∀ n, n < m → fullChunk R (bulk n)) : (received bulk m).length = m * R := by
  induction m generalizing bulk with
  | zero => simp [received]
  | succ m ih =>
    rw [received, List.length_append, ih (fun n => bulk (n + 1)) (fun n hn => h (n + 1) (by omega)),
      (h 0 (by omega)).2, Nat.add_mul]
    omega

/-- The bulk loop, every one of the next `m` replies being a full chunk: it issues
exactly `m` bulk transfers, stores their data back to back and reports `SUCCESS`. -/
theorem loop_success (R : Nat) (hR : 0 < R) (m : Nat) :
    ∀ (fuel : Nat) (usb : Usb) (buf : List Byte) (offset : Nat),
      m ≤ fuel → (∀ n, n < m → fullChunk R (usb.bulk n)) → offset + m * R ≤ buf.length →
      ∃ usb', SeekThermalCamera._grabRawFrame_loop R fuel usb buf offset ((m * R : Nat) : Int)
          = .ok (.SUCCESS, usb',
              buf.take offset ++ received usb.bulk m ++ buf.drop (offset + m * R))
        ∧ usb'.calls = usb.calls ++ List.replicate m (.bulk_transfer 0x81 R)
        ∧ usb'.control = usb.control
        ∧ ∀ n, usb'.bulk n = usb.bulk (n + m) := by
  induction m with
  | zero =>
    intro fuel usb buf offset _ _ _
    refine ⟨usb, ?_, by simp, rfl, fun n => rfl⟩
    rw [loop_done _ _ _ _ _ _ (by simp)]
    simp [received]
  | succ m ih =>
    intro fuel usb buf offset hfuel hfull hfit
    obtain ⟨fuel, rfl⟩ : ∃ f, fuel = f + 1 := ⟨fuel - 1, by omega⟩
    obtain ⟨herr, hlen⟩ := hfull 0 (by omega)
    have hmul : (m + 1) * R = m * R + R := by rw [Nat.add_mul]; omega
    have hpos : (((m + 1) * R : Nat) : Int) > 0 := by
      have : 0 < (m + 1) * R := Nat.mul_pos (by omega) hR
      omega
    have hfit0 : offset + (usb.bulk 0).data.length ≤ buf.length := by omega
    have hwl : (writeBytes buf offset (usb.bulk 0).data).length = buf.length :=
      length_writeBytes hfit0
    obtain ⟨usb', h1, h2, h3, h4⟩ := ih fuel (usb.bulk_transfer 0x81 R).2
      (writeBytes buf offset (usb.bulk 0).data) (offset + R) (by omega)
      (fun n hn => hfull (n + 1) (by omega)) (by rw [hwl]; omega)
    refine ⟨usb', ?_, ?_, h3, fun n => ?_⟩
    · rw [loop_step _ _ _ _ _ _ hpos hfit0, if_neg (by simp [herr]),
        if_neg (by simp [hlen]), hlen]
      have htodo : (((m + 1) * R : Nat) : Int) - (R : Int) = ((m * R : Nat) : Int) := by
        omega
      rw [htodo, h1]
      have e1 : (writeBytes buf offset (usb.bulk 0).data).take (offset + R)
          = buf.take offset ++ (usb.bulk 0).data := by
        have := take_writeBytes buf (usb.bulk 0).data offset hfit0
        rwa [hlen] at this
      have e2 : (writeBytes buf offset (usb.bulk 0).data).drop (offset + R + m * R)
          = buf.drop (offset + (m + 1) * R) := by
        have := drop_writeBytes buf (usb.bulk 0).data offset (m * R) hfit0
        rw [hlen] at this
        rw [this]
        congr 1
        omega
      rw [e1, e2]
      simp only [received, Usb.bulk_transfer, List.append_assoc]
    · rw [h2]
      simp only [Usb.bulk_transfer, List.replicate_succ, List.append_assoc, List.singleton_append]
    · rw [h4]
      rfl

/-- The bulk loop when reply `k` is the first that is not a full chunk (an error, or
fewer bytes than requested): it issues exactly `k + 1` bulk transfers and reports
`TRANSFER_INCOMPLETE`. -/
theorem loop_incomplete (R : Nat) (hR : 0 < R) (k : Nat) :
    ∀ (m fuel : Nat) (usb : Usb) (buf : List Byte) (offset : Nat),
      k < m → k < fuel → (∀ n, n < k → fullChunk R (usb.bulk n)) →
      ¬ fullChunk R (usb.bulk k) → (usb.bulk k).data.length ≤ R →
      offset + m * R ≤ buf.length →
      ∃ usb' buf',
        SeekThermalCamera._grabRawFrame_loop R fuel usb buf offset ((m * R : Nat) : Int)
          = .ok (.TRANSFER_INCOMPLETE, usb', buf')
        ∧ usb'.calls = usb.calls ++ List.replicate (k + 1) (.bulk_transfer 0x81 R)
        ∧ usb'.control = usb.control
        ∧ (∀ n, usb'.bulk n = usb.bulk (n + (k + 1)))
        ∧ buf'.length = buf.length := by
  induction k with
  | zero =>
    intro m fuel usb buf offset hm hfuel _ hbad hle hfit
    obtain ⟨fuel, rfl⟩ : ∃ f, fuel = f + 1 := ⟨fuel - 1, by omega⟩
    obtain ⟨m, rfl⟩ : ∃ m', m = m' + 1 := ⟨m - 1, by omega⟩
    have hmul : (m + 1) * R = m * R + R := by rw [Nat.add_mul]; omega
    have hpos : (((m + 1) * R : Nat) : Int) > 0 := by omega
    have hfit0 : offset + (usb.bulk 0).data.length ≤ buf.length := by omega
    refine ⟨(usb.bulk_transfer 0x81 R).2, writeBytes buf offset (usb.bulk 0).data, ?_, rfl, rfl,
      fun n => rfl, length_writeBytes hfit0⟩
    rw [loop_step _ _ _ _ _ _ hpos hfit0]
    by_cases herr : (usb.bulk 0).error = 0
    · have hlen : (usb.bulk 0).data.length ≠ R := fun h => hbad ⟨herr, h⟩
      rw [if_neg (by simp [herr]), if_pos (by constructor <;> omega)]
    · rw [if_pos herr]
  | succ k ih =>
    intro m fuel usb buf offset hm hfuel hfull hbad hle hfit
    obtain ⟨fuel, rfl⟩ : ∃ f, fuel = f + 1 := ⟨fuel - 1, by omega⟩
    obtain ⟨m, rfl⟩ : ∃ m', m = m' + 1 := ⟨m - 1, by omega⟩
    obtain ⟨herr, hlen⟩ := hfull 0 (by omega)
    have hmul : (m + 1) * R = m * R + R := by rw [Nat.add_mul]; omega
    have hpos : (((m + 1) * R : Nat) : Int) > 0 := by omega
    have hfit0 : offset + (usb.bulk 0).data.length ≤ buf.length := by omega
    have hwl : (writeBytes buf offset (usb.bulk 0).data).length = buf.length :=
      length_writeBytes hfit0
    obtain ⟨usb', buf', h1, h2, h3, h4, h5⟩ := ih m fuel (usb.bulk_transfer 0x81 R).2
      (writeBytes buf offset (usb.bulk 0).data) (offset + R) (by omega) (by omega)
      (fun n hn => hfull (n + 1) (by omega)) hbad hle (by rw [hwl]; omega)
    refine ⟨usb', buf', ?_, ?_, h3, fun n => ?_, by rw [h5, hwl]⟩
    · rw [loop_step _ _ _ _ _ _ hpos hfit0, if_neg (by simp [herr]),
        if_neg (by simp [hlen]), hlen]
      have htodo : (((m + 1) * R : Nat) : Int) - (R : Int) = ((m * R : Nat) : Int) := by
        omega
      rw [htodo, h1]
    · rw [h2]
      simp only [Usb.bulk_transfer, List.replicate_succ, List.append_assoc, List.singleton_append]
    · rw [h4]
      rfl

/-! ### Frame capture: `_grabRawFrame` -/

/-- On an open session `write` issues one control transfer and succeeds exactly when
the transfer reports the full payload length. -/
theorem write_open (cam : SeekThermalCamera) (usb : Usb) (command : SeekDeviceCommand)
    (data : List Byte) (hopen : cam.usb_device_handle_ ≠ none) :
    cam.write usb command data
      = .ok (decide ((usb.control 0).transferred = (data.length : Int)),
             (usb.control_transfer 0x41 command.code data).2) := by
  obtain ⟨h, hh⟩ := Option.ne_none_iff_exists'.mp hopen
  unfold SeekThermalCamera.write
  rw [hh]
  simp only [Usb.control_transfer]
  by_cases hneg : (usb.control 0).transferred < 0
  · rw [if_pos hneg]
    have : ¬ (usb.control 0).transferred = (data.length : Int) := by omega
    simp [this]
  · rw [if_neg hneg]
    by_cases heq : (usb.control 0).transferred.toNat = data.length
    · rw [if_neg (by simpa using heq)]
      have : (usb.control 0).transferred = (data.length : Int) := by omega
      simp [this]
    · rw [if_pos heq]
      have : ¬ (usb.control 0).transferred = (data.length : Int) := by omega
      simp [this]

/-- With `*frame_data == nullptr` the call behaves as with a zeroed buffer of the
total transfer size. -/
theorem grabRawFrame_allocate (cam : SeekThermalCamera) (usb : Usb) (size total : Nat)
    (hopen : cam.usb_device_handle_ ≠ none)
    (htotal : cam.device_._getFrameTransferTotalSize = .ok total) :
    cam._grabRawFrame usb none size
      = cam._grabRawFrame usb (some (List.replicate total 0)) total := by
  obtain ⟨h, hh⟩ := Option.ne_none_iff_exists'.mp hopen
  unfold SeekThermalCamera._grabRawFrame
  rw [hh]
  simp only [htotal, bind, Except.bind]

/-- `_grabRawFrame` on an open session with a sufficiently large caller buffer: the
start-transfer write followed, if it succeeded, by the bulk loop. -/
theorem grabRawFrame_open (cam : SeekThermalCamera) (usb : Usb) (b : List Byte)
    (size total request devreq : Nat)
    (hopen : cam.usb_device_handle_ ≠ none)
    (htotal : cam.device_._getFrameTransferTotalSize = .ok total)
    (hreq : cam.device_._getFrameTransferRequestSize = .ok request)
    (hdev : cam.device_._getFrameTransferDeviceRequestSize = .ok devreq)
    (hsize : total ≤ size) :
    cam._grabRawFrame usb (some b) size
      = if (usb.control 0).transferred = 4 then
          (SeekThermalCamera._grabRawFrame_loop request total
              (usb.control_transfer 0x41 83 (le32Bytes devreq)).2 b 0 total).map
            (fun r => { result := r.1, frame_data := some r.2.2, size := size, usb := r.2.1 })
        else
          .ok { result := .FAILED_TO_START_TRANSFER, frame_data := some b, size := size,
                usb := (usb.control_transfer 0x41 83 (le32Bytes devreq)).2 } := by
  obtain ⟨h, hh⟩ := Option.ne_none_iff_exists'.mp hopen
  unfold SeekThermalCamera._grabRawFrame
  rw [hh]
  simp only [htotal, hreq, hdev, bind, Except.bind, write_open cam usb _ _ hopen]
  rw [if_neg (by omega)]
  by_cases hst : (usb.control 0).transferred = 4
  · rw [if_pos hst]
    simp only [le32Bytes, List.length_cons, List.length_nil, hst]
    simp only [SeekDeviceCommand.code]
    cases SeekThermalCamera._grabRawFrame_loop request total
      (usb.control_transfer 0x41 83 (le32Bytes devreq)).2 b 0 total <;> rfl
  · rw [if_neg hst]
    simp only [le32Bytes, List.length_cons, List.length_nil]
    have : ¬ (usb.control 0).transferred = ((0 + 1 + 1 + 1 + 1 : Nat) : Int) := by
      simpa using hst
    simp only [this, SeekDeviceCommand.code, decide_False, Bool.not_false, if_true]

/-- The transfer sizes of a supported model: the chunk size is positive and divides
the total transfer size. -/
theorem transfer_profile (d : SeekDevice) (total request : Nat) (ht : d.type.supported)
    (htotal : d._getFrameTransferTotalSize = .ok total)
    (hreq : d._getFrameTransferRequestSize = .ok request) :
    0 < request ∧ total = (total / request) * request := by
  obtain ⟨t, serial, port⟩ := d
  simp only at ht
  rcases ht with rfl | rfl | rfl
  · have e1 : total = 64896 := by
      have h : (Except.ok 64896 : Except Fault Nat) = .ok total := htotal
      injection h with h; exact h.symm
    have e2 : request = 16224 := by
      have h : (Except.ok 16224 : Except Fault Nat) = .ok request := hreq
      injection h with h; exact h.symm
    subst e1 e2
    decide
  · have e1 : total = 177840 := by
      have h : (Except.ok 177840 : Except Fault Nat) = .ok total := htotal
      injection h with h; exact h.symm
    have e2 : request = 13680 := by
      have h : (Except.ok 13680 : Except Fault Nat) = .ok request := hreq
      injection h with h; exact h.symm
    subst e1 e2
    decide
  · have e1 : total = 177840 := by
      have h : (Except.ok 177840 : Except Fault Nat) = .ok total := htotal
      injection h with h; exact h.symm
    have e2 : request = 13680 := by
      have h : (Except.ok 13680 : Except Fault Nat) = .ok request := hreq
      injection h with h; exact h.symm
    subst e1 e2
    decide

/-- `_grabRawFrame` on an open session, caller buffer of at least `chunks * request`
bytes, start-transfer write accepted, all `chunks` replies full: `SUCCESS`, the bytes
received stored at the start of the buffer. -/
theorem grabRawFrame_success (cam : SeekThermalCamera) (usb : Usb) (b : List Byte)
    (size chunks request devreq : Nat)
    (hopen : cam.usb_device_handle_ ≠ none)
    (htotal : cam.device_._getFrameTransferTotalSize = .ok (chunks * request))
    (hreq : cam.device_._getFrameTransferRequestSize = .ok request)
    (hdev : cam.device_._getFrameTransferDeviceRequestSize = .ok devreq)
    (hR : 0 < request) (hsize : chunks * request ≤ size) (hlen : chunks * request ≤ b.length)
    (hst : (usb.control 0).transferred = 4)
    (hfull : ∀ n, n < chunks → fullChunk request (usb.bulk n)) :
    ∃ usb', cam._grabRawFrame usb (some b) size
        = .ok { result := .SUCCESS
                frame_data := some (received usb.bulk chunks ++ b.drop (chunks * request))
                size := size, usb := usb' }
      ∧ usb'.calls = usb.calls ++ [startTransferCall devreq]
          ++ List.replicate chunks (frameBulkCall request)
      ∧ (∀ n, usb'.control n = usb.control (n + 1))
      ∧ ∀ n, usb'.bulk n = usb.bulk (n + chunks) := by
  have hfuel : chunks ≤ chunks * request := Nat.le_mul_of_pos_right chunks hR
  obtain ⟨usb', h1, h2, h3, h4⟩ := loop_success request hR chunks (chunks * request)
    (usb.control_transfer 0x41 83 (le32Bytes devreq)).2 b 0 hfuel hfull (by omega)
  refine ⟨usb', ?_, ?_, fun n => by rw [h3]; rfl, h4⟩
  · rw [grabRawFrame_open cam usb b size _ request devreq hopen htotal hreq hdev hsize,
      if_pos hst, h1]
    simp only [Except.map, List.take_zero, List.nil_append, Nat.zero_add]
    rfl
  · rw [h2]
    rfl

/-- `_grabRawFrame` on an open session, caller buffer of at least `chunks * request`
bytes, start-transfer write accepted, reply `k` the first that is not a full chunk:
`TRANSFER_INCOMPLETE` after exactly `k + 1` bulk transfers. -/
theorem grabRawFrame_incomplete (cam : SeekThermalCamera) (usb : Usb) (b : List Byte)
    (size chunks request devreq k : Nat)
    (hopen : cam.usb_device_handle_ ≠ none)
    (htotal : cam.device_._getFrameTransferTotalSize = .ok (chunks * request))
    (hreq : cam.device_._getFrameTransferRequestSize = .ok request)
    (hdev : cam.device_._getFrameTransferDeviceRequestSize = .ok devreq)
    (hR : 0 < request) (hsize : chunks * request ≤ size) (hlen : chunks * request ≤ b.length)
    (hst : (usb.control 0).transferred = 4)
    (hk : k < chunks) (hfull : ∀ n, n < k → fullChunk request (usb.bulk n))
    (hbad : ¬ fullChunk request (usb.bulk k)) (hle : (usb.bulk k).data.length ≤ request) :
    ∃ usb' b', cam._grabRawFrame usb (some b) size
        = .ok { result := .TRANSFER_INCOMPLETE, frame_data := some b', size := size,
                usb := usb' }
      ∧ usb'.calls = usb.calls ++ [startTransferCall devreq]
          ++ List.replicate (k + 1) (frameBulkCall request)
      ∧ b'.length = b.length := by
  have hfuel : chunks ≤ chunks * request := Nat.le_mul_of_pos_right chunks hR
  obtain ⟨usb', b', h1, h2, _, _, h5⟩ := loop_incomplete request hR k chunks (chunks * request)
    (usb.control_transfer 0x41 83 (le32Bytes devreq)).2 b 0 hk (by omega) hfull hbad hle
    (by omega)
  refine ⟨usb', b', ?_, ?_, h5⟩
  · rw [grabRawFrame_open cam usb b size _ request devreq hopen htotal hreq hdev hsize,
      if_pos hst, h1]
    rfl
  · rw [h2]
    rfl

/-- C7: `_grabRawFrame` on an open session of a supported model with a sufficiently
large buffer (or none, so that one is allocated), libusb never delivering more than
the requested chunk.  If the start-transfer write fails the result is
`FAILED_TO_START_TRANSFER` and no bulk transfer is issued.  Otherwise the result is
`SUCCESS` if and only if each of the `total / chunk` bulk replies is error-free and
full; then exactly that many bulk transfers were issued and the buffer starts with the
`total` bytes received.  If reply `k` is the first with an error or fewer bytes than
the chunk size, the result is `TRANSFER_INCOMPLETE` and exactly `k + 1` bulk transfers
were issued. -/
theorem grabRawFrame_result (cam : SeekThermalCamera) (usb : Usb)
    (frame_data : Option (List Byte)) (size total request devreq : Nat)
    (hsupp : cam.device_.type.supported)
    (hopen : cam.usb_device_handle_ ≠ none)
    (htotal : cam.device_._getFrameTransferTotalSize = .ok total)
    (hreq : cam.device_._getFrameTransferRequestSize = .ok request)
    (hdev : cam.device_._getFrameTransferDeviceRequestSize = .ok devreq)
    (hbuf : ∀ b, frame_data = some b → total ≤ size ∧ total ≤ b.length)
    (hlib : ∀ n, (usb.bulk n).data.length ≤ request) :
    ∃ r, cam._grabRawFrame usb frame_data size = .ok r
      ∧ ((usb.control 0).transferred ≠ 4 →
          r.result = .FAILED_TO_START_TRANSFER
          ∧ r.usb.calls = usb.calls ++ [startTransferCall devreq])
      ∧ ((usb.control 0).transferred = 4 →
          (r.result = .SUCCESS ↔ ∀ n, n < total / request → fullChunk request (usb.bulk n))
          ∧ (r.result = .SUCCESS →
              r.usb.calls = usb.calls ++ [startTransferCall devreq]
                ++ List.replicate (total / request) (frameBulkCall request)
              ∧ (received usb.bulk (total / request)).length = total
              ∧ ∃ b, r.frame_data = some b
                  ∧ b.take total = received usb.bulk (total / request))
          ∧ ∀ k, k < total / request → (∀ n, n < k → fullChunk request (usb.bulk n)) →
              ¬ fullChunk request (usb.bulk k) →
              r.result = .TRANSFER_INCOMPLETE
              ∧ r.usb.calls = usb.calls ++ [startTransferCall devreq]
                  ++ List.replicate (k + 1) (frameBulkCall request)) := by
  obtain ⟨hR, hmul⟩ := transfer_profile cam.device_ total request hsupp htotal hreq
  generalize hchunks : total / request = chunks at hmul ⊢
  subst hmul
  -- reduce to a caller-supplied buffer
  obtain ⟨b, size', hsize, hlen, hcall⟩ : ∃ b size', chunks * request ≤ size'
      ∧ chunks * request ≤ b.length
      ∧ cam._grabRawFrame usb frame_data size = cam._grabRawFrame usb (some b) size' := by
    cases frame_data with
    | none =>
      exact ⟨List.replicate (chunks * request) 0, chunks * request, le_refl _,
        by rw [List.length_replicate], grabRawFrame_allocate cam usb size _ hopen htotal⟩
    | some b => exact ⟨b, size, (hbuf b rfl).1, (hbuf b rfl).2, rfl⟩
  rw [hcall]
  by_cases hst : (usb.control 0).transferred = 4
  · by_cases hall : ∀ n, n < chunks → fullChunk request (usb.bulk n)
    · obtain ⟨usb', h1, h2, _, _⟩ := grabRawFrame_success cam usb b size' chunks request devreq
        hopen htotal hreq hdev hR hsize hlen hst hall
      have hrl := received_length request chunks usb.bulk hall
      refine ⟨_, h1, fun h => absurd hst h, fun _ => ⟨⟨fun _ => hall, fun _ => rfl⟩,
        fun _ => ⟨h2, hrl, _, rfl, ?_⟩, fun k hk hfull hbad => absurd (hall k hk) hbad⟩⟩
      rw [← hrl]
      exact List.take_left' rfl
    · have hex : ∃ k, k < chunks ∧ ¬ fullChunk request (usb.bulk k) := by
        by_contra hne
        exact hall (fun n hn => by_contra fun hb => hne ⟨n, hn, hb⟩)
      classical
      have hk0 := Nat.find_spec hex
      have hmin : ∀ n, n < Nat.find hex → fullChunk request (usb.bulk n) := fun n hn =>
        by_contra fun hb => Nat.find_min hex hn ⟨by omega, hb⟩
      obtain ⟨usb', b', h1, h2, _⟩ := grabRawFrame_incomplete cam usb b size' chunks request
        devreq (Nat.find hex) hopen htotal hreq hdev hR hsize hlen hst hk0.1 hmin hk0.2
        (hlib _)
      refine ⟨_, h1, fun h => absurd hst h, fun _ => ⟨⟨fun h => ?_, fun h => absurd h hall⟩,
        fun h => ?_, fun k hk hfull hbad => ?_⟩⟩
      · exact absurd (show GrabFrameResult.TRANSFER_INCOMPLETE = .SUCCESS from h) (by decide)
      · exact absurd (show GrabFrameResult.TRANSFER_INCOMPLETE = .SUCCESS from h) (by decide)
      · have hk : k = Nat.find hex := by
          rcases Nat.lt_trichotomy k (Nat.find hex) with hlt | heq | hgt
          · exact absurd (hmin k hlt) hbad
          · exact heq
          · exact absurd (hfull _ hgt) hk0.2
        subst hk
        exact ⟨rfl, h2⟩
  · refine ⟨{ result := .FAILED_TO_START_TRANSFER, frame_data := some b, size := size',
              usb := (usb.control_transfer 0x41 83 (le32Bytes devreq)).2 }, ?_,
      fun _ => ⟨rfl, rfl⟩, fun h => absurd h hst⟩
    rw [grabRawFrame_open cam usb b size' _ request devreq hopen htotal hreq hdev hsize,
      if_neg hst]

/-- C7 at an open Compact camera and a device that delivers four full chunks. -/
theorem grabRawFrame_result_witness :
    ∃ r, compactCameraOpen._grabRawFrame steadyUsb none 0 = .ok r
      ∧ r.result = .SUCCESS
      ∧ r.usb.calls = [startTransferCall 32448] ++ List.replicate 4 (frameBulkCall 16224) := by
  obtain ⟨r, h1, _, h3⟩ := grabRawFrame_result compactCameraOpen steadyUsb none 0 64896 16224
    32448 (by decide) (by decide) rfl rfl rfl (fun b h => nomatch h)
    (fun n => le_of_eq (List.length_replicate _ _))
  obtain ⟨hiff, hcalls, _⟩ := h3 rfl
  have hs : r.result = .SUCCESS :=
    hiff.mpr (fun n _ => ⟨rfl, List.length_replicate _ _⟩)
  exact ⟨r, h1, hs, (hcalls hs).1⟩

/-! ### Frame capture: `grabFrame` with a header and no image -/

theorem resizeBytes_length (v : List Byte) (n : Nat) :
    (SeekThermalCamera.resizeBytes v n).length = n := by
  unfold SeekThermalCamera.resizeBytes
  simp only [List.length_append, List.length_take, List.length_replicate]
  omega

/-- A successful `grabFrame` that asks for a header and no image, on an open session
of a supported model whose scratch buffer is not larger than the transfer: the scratch
buffer ends up holding the bytes received, the header holds their first bytes, and the
calibration reference is replaced by `extractFrame` of the pixel region exactly when
`_isCalibrationFrame` accepts the buffer. -/
theorem grabFrame_header_only (cam : SeekThermalCamera) (usb : Usb) (size : Nat)
    (h : FrameHeader) (chunks request devreq header_size min_size width height step : Nat)
    (hsupp : cam.device_.type.supported)
    (hopen : cam.usb_device_handle_ ≠ none)
    (htotal : cam.device_._getFrameTransferTotalSize = .ok (chunks * request))
    (hreq : cam.device_._getFrameTransferRequestSize = .ok request)
    (hdev : cam.device_._getFrameTransferDeviceRequestSize = .ok devreq)
    (hhs : cam.device_._getFrameHeaderSize = .ok header_size)
    (hmin : FrameHeader.GetMinHeaderSize cam.device_.type = .ok min_size)
    (hw : cam.device_.getFrameWidth = .ok width)
    (hh : cam.device_.getFrameHeight = .ok height)
    (hs : cam.device_._getRowStep = .ok step)
    (hR : 0 < request) (h6 : 6 ≤ chunks * request)
    (hpix : header_size + 2 * ((height - 1) * (step / 2) + width) ≤ chunks * request)
    (hcal : 2 * (height * width) ≤ cam.calibration_frame_.length)
    (hbuf : cam.buffer_.length ≤ chunks * request)
    (hhdr : max h.data_.length min_size ≤ chunks * request)
    (hst : (usb.control 0).transferred = 4)
    (hfull : ∀ n, n < chunks → fullChunk request (usb.bulk n)) :
    ∃ r, cam.grabFrame usb none size (some h) = .ok r
      ∧ r.result = .SUCCESS
      ∧ r.cam.buffer_ = received usb.bulk chunks
      ∧ r.header = some { type_ := cam.device_.type
                          data_ := (received usb.bulk chunks).take
                            (max h.data_.length min_size) }
      ∧ (readU16LE (received usb.bulk chunks) 4 = 1 →
          cam.extractFrame ((received usb.bulk chunks).drop header_size) cam.calibration_frame_
            = .ok r.cam.calibration_frame_)
      ∧ (readU16LE (received usb.bulk chunks) 4 ≠ 1 →
          r.cam.calibration_frame_ = cam.calibration_frame_) := by
  obtain ⟨hd, hh'⟩ := Option.ne_none_iff_exists'.mp hopen
  have hrl := received_length request chunks usb.bulk hfull
  -- the scratch buffer handed to `_grabRawFrame`
  obtain ⟨b0, hb0, hb0len⟩ : ∃ b0, (if cam.buffer_.length < chunks * request
      then SeekThermalCamera.resizeBytes cam.buffer_ (chunks * request) else cam.buffer_) = b0
      ∧ b0.length = chunks * request := by
    refine ⟨_, rfl, ?_⟩
    split
    · exact resizeBytes_length _ _
    · omega
  obtain ⟨usb', hraw, _, _, _⟩ := grabRawFrame_success cam usb b0 b0.length chunks request
    devreq hopen htotal hreq hdev hR (by omega) (by omega) hst hfull
  have hcap : received usb.bulk chunks ++ b0.drop (chunks * request)
      = received usb.bulk chunks := by
    rw [List.drop_of_length_le (by omega), List.append_nil]
  rw [hcap] at hraw
  have hiscal := isCalibrationFrame_of_six cam.device_ (received usb.bulk chunks) hsupp
    (by omega)
  -- the header data after resize and copy
  have hheader : ∀ d : List Byte, d.length = max h.data_.length min_size →
      storeBytes d 0 ((received usb.bulk chunks).take (min b0.length d.length))
        = .ok ((received usb.bulk chunks).take (max h.data_.length min_size)) := by
    intro d hdl
    have hmn : min b0.length d.length = d.length := by omega
    have htl : ((received usb.bulk chunks).take d.length).length = d.length := by
      rw [List.length_take]; omega
    rw [hmn, storeBytes_ok (by omega)]
    unfold writeBytes
    rw [List.take_zero, List.nil_append, htl, Nat.zero_add, List.drop_of_length_le (by omega),
      List.append_nil, hdl]
  have hdata : (if h.data_.length < min_size
      then SeekThermalCamera.resizeBytes h.data_ min_size else h.data_).length
        = max h.data_.length min_size := by
    split
    · rw [resizeBytes_length]; omega
    · omega
  unfold SeekThermalCamera.grabFrame
  rw [hh']
  simp only [htotal, bind, Except.bind, pure, Except.pure, hb0, hraw, Option.getD_some,
    hhs, hiscal, hmin, ne_eq, not_true_eq_false, if_false, hheader _ hdata,
    Bool.false_eq_true]
  by_cases hc : readU16LE (received usb.bulk chunks) 4 = 1
  · obtain ⟨out, hout, _⟩ := extractFrame_stored cam
      ((received usb.bulk chunks).drop header_size) cam.calibration_frame_ width height step
      hw hh hs (by rw [List.length_drop]; omega) hcal
    have hex : ∀ (b cal : List Byte) (ctx hdl : Option Nat) (off : Nat) (own : Bool),
        SeekThermalCamera.extractFrame
          { device_ := cam.device_, buffer_ := b, calibration_frame_ := cal,
            usb_context_ := ctx, usb_device_handle_ := hdl, offset_ := off,
            own_usb_context_ := own }
          ((received usb.bulk chunks).drop header_size) cam.calibration_frame_ = .ok out :=
      fun _ _ _ _ _ _ => hout
    simp only [hc, beq_self_eq_true, if_true, hex]
    exact ⟨_, rfl, rfl, rfl, rfl, fun _ => rfl, fun hne => absurd trivial hne⟩
  · have hb : (readU16LE (received usb.bulk chunks) 4 == 1) = false := by
      simpa using hc
    simp only [hb, Bool.false_eq_true, if_false]
    exact ⟨_, rfl, rfl, rfl, rfl, fun he => absurd he hc, fun _ => rfl⟩

theorem mismatchChunk_length : mismatchChunk.length = 16224 := by
  simp only [mismatchChunk, List.length_append, List.length_replicate, List.length_cons,
    List.length_nil]

theorem mismatchUsb_full : ∀ n, n < 4 → fullChunk 16224 (mismatchUsb.bulk n) := by
  intro n _
  by_cases h0 : n = 0
  · subst h0
    exact ⟨rfl, mismatchChunk_length⟩
  · simp only [mismatchUsb, if_neg h0]
    exact ⟨rfl, List.length_replicate _ _⟩

set_option maxRecDepth 8000 in
theorem mismatch_first_pixel :
    flooredAverage 206 156 208 (received mismatchUsb.bulk 4) 0 0 = 0 := by
  decide

/-- C10 (code defect) at the Compact: the device delivers a frame whose 16-bit sample
at byte offset 4 is 1 and whose frame type (byte offset 20) is 3.  `grabFrame` returns
`SUCCESS`, the returned header reports `THERMAL_FRAME`, and yet the calibration
reference has been replaced by `extractFrame` of the captured pixels (its first
sample changes from 0x4000 to 0). -/
theorem grabFrame_compact_calibration_mismatch :
    ∃ r h, compactCameraOpen.grabFrame mismatchUsb none 0 (some {}) = .ok r
      ∧ r.result = .SUCCESS
      ∧ r.header = some h
      ∧ h.getFrameType = .ok .THERMAL_FRAME
      ∧ compactCameraOpen.extractFrame r.cam.buffer_ compactCameraOpen.calibration_frame_
          = .ok r.cam.calibration_frame_
      ∧ readU16LE compactCameraOpen.calibration_frame_ 0 = 0x4000
      ∧ readU16LE r.cam.calibration_frame_ 0 = 0 := by
  obtain ⟨r, h1, h2, h3, h4, h5, _⟩ := grabFrame_header_only compactCameraOpen mismatchUsb 0 {}
    4 16224 32448 0 82 206 156 416 (by decide) (by decide) rfl rfl rfl rfl rfl rfl rfl rfl
    (by decide) (by decide) (by decide)
    (le_of_le_of_eq (by decide) compactCamera_calibration_length.symm)
    (by decide) (by decide) rfl mismatchUsb_full
  have hcal := h5 (by decide)
  rw [List.drop_zero] at hcal
  obtain ⟨out, hout, _, hpix, _⟩ := extractFrame_stored compactCameraOpen
    (received mismatchUsb.bulk 4) compactCameraOpen.calibration_frame_ 206 156 416 rfl rfl rfl
    (le_of_le_of_eq (by decide) (received_length 16224 4 mismatchUsb.bulk mismatchUsb_full).symm)
    (le_of_le_of_eq (by decide) compactCamera_calibration_length.symm)
  have heq : out = r.cam.calibration_frame_ := by
    rw [hout] at hcal
    injection hcal
  have h00 := hpix 0 0 (by decide) (by decide)
  rw [heq] at h00
  refine ⟨r, _, h1, h2, h4, ?_, ?_, ?_, ?_⟩
  · decide
  · rw [h3]; exact hcal
  · decide
  · rw [show (0 : Nat) = 2 * (0 * 206 + 0) from rfl, h00]
    exact mismatch_first_pixel

/-! ### `extractFrame` on uniform and all-sentinel frames; self-calibration -/

/-- The raw value of an in-bounds neighbour is the sample at row `r`, column `c` of
the image for some `r < H`, `c < W`. -/
theorem specSample_inBounds (W H RS : Nat) (data : List Byte) (y x : Nat) (k m : Int)
    (hin : specInBounds W H y x k m) :
    ∃ r c, r < H ∧ c < W ∧ specSample RS data y x k m = readU16LE data (2 * (r * RS + c)) := by
  obtain ⟨h1, h2, h3, h4⟩ := hin
  obtain ⟨r, hr⟩ := Int.eq_ofNat_of_zero_le h1
  obtain ⟨c, hc⟩ := Int.eq_ofNat_of_zero_le h3
  refine ⟨r, c, by omega, by omega, ?_⟩
  have e : (((y : Int) + k) * RS + x + m) = ((r * RS + c : Nat) : Int) := by
    rw [hr]; push_cast; omega
  unfold specSample
  rw [e, Int.toNat_ofNat]

/-- The pixel itself is one of its in-bounds neighbours. -/
theorem centre_inBounds (W H y x : Nat) (hy : y < H) (hx : x < W) :
    specInBounds W H y x 0 0 := by
  unfold specInBounds
  omega

theorem centre_sample (RS : Nat) (data : List Byte) (y x : Nat) :
    specSample RS data y x 0 0 = readU16LE data (2 * (y * RS + x)) := by
  have e : (((y : Int) + 0) * RS + x + 0) = ((y * RS + x : Nat) : Int) := by
    push_cast; rw [Int.add_zero, Int.add_zero]
  unfold specSample
  rw [e, Int.toNat_ofNat]

theorem centre_mem_specWeights : ((0, 0, 4) : Int × Int × Nat) ∈ specWeights := by decide

theorem sum_map_mul_const {α : Type} (l : List α) (g : α → Nat) (V : Nat) :
    (l.map fun a => V * g a).sum = V * (l.map g).sum := by
  induction l with
  | nil => simp
  | cons a l ih => simp only [List.map_cons, List.sum_cons, ih, Nat.mul_add]

/-- On a frame whose every image sample is `V`, a valid value, the floored weighted
average of every pixel is `V`. -/
theorem flooredAverage_uniform (W H RS : Nat) (data : List Byte) (V : Nat)
    (hV1 : 1 ≤ V) (hV2 : V ≤ 0xFFFE)
    (huni : ∀ r c, r < H → c < W → readU16LE data (2 * (r * RS + c)) = V)
    (y x : Nat) (hy : y < H) (hx : x < W) :
    flooredAverage W H RS data y x = V := by
  have hsum : specSum W H RS data y x = V * specCount W H RS data y x := by
    unfold specSum specCount
    rw [← sum_map_mul_const]
    congr 1
    apply List.map_congr_left
    intro e _
    by_cases hc : specContributes W H RS data y x e.1 e.2.1
    · rw [if_pos hc, if_pos hc]
      obtain ⟨r, c, hr, hcw, hs⟩ := specSample_inBounds W H RS data y x e.1 e.2.1 hc.1
      rw [hs, huni r c hr hcw]
    · rw [if_neg hc, if_neg hc, Nat.mul_zero]
  have hcount : specCount W H RS data y x ≠ 0 := by
    intro h0
    have hnone := (specCount_eq_zero_iff W H RS data y x).mp h0 (0, 0, 4)
      centre_mem_specWeights
    apply hnone
    have hs : specSample RS data y x 0 0 = V := by
      rw [centre_sample, huni y x hy hx]
    exact ⟨centre_inBounds W H y x hy hx, by rw [hs]; omega, by rw [hs]; omega⟩
  unfold flooredAverage
  rw [if_neg hcount, hsum, Nat.mul_div_cancel _ (by omega)]

/-- On a frame whose every image sample is 0xFFFF no neighbour contributes, and the
floored weighted average of every pixel is 0. -/
theorem flooredAverage_sentinel (W H RS : Nat) (data : List Byte)
    (hall : ∀ r c, r < H → c < W → readU16LE data (2 * (r * RS + c)) = 0xFFFF)
    (y x : Nat) :
    flooredAverage W H RS data y x = 0 := by
  have hcount : specCount W H RS data y x = 0 := by
    rw [specCount_eq_zero_iff]
    intro e _ hc
    obtain ⟨r, c, hr, hcw, hs⟩ := specSample_inBounds W H RS data y x e.1 e.2.1 hc.1
    exact hc.2.2 (by rw [hs, hall r c hr hcw])
  unfold flooredAverage
  rw [if_pos hcount]

theorem pixel_index_lt (W H y x : Nat) (hy : y < H) (hx : x < W) : y * W + x < H * W := by
  have := Nat.mul_le_mul_right W (show y + 1 ≤ H from hy)
  rw [Nat.add_mul] at this
  omega

/-- C12: for every model and every value `V` with `1 ≤ V ≤ 0xFFFE`, if every raw
sample of the `width × height` image region equals `V`, then `extractFrame` stores `V`
in every output pixel, border and corner pixels included. -/
theorem extractFrame_uniform (cam : SeekThermalCamera) (data frame_data : List Byte)
    (width height step V : Nat)
    (hw : cam.device_.getFrameWidth = .ok width)
    (hh : cam.device_.getFrameHeight = .ok height)
    (hs : cam.device_._getRowStep = .ok step)
    (hdata : 2 * ((height - 1) * (step / 2) + width) ≤ data.length)
    (hout : 2 * (height * width) ≤ frame_data.length)
    (hV1 : 1 ≤ V) (hV2 : V ≤ 0xFFFE)
    (huni : ∀ r c, r < height → c < width →
      (data.getD (2 * (r * (step / 2) + c)) 0).val
        + 256 * (data.getD (2 * (r * (step / 2) + c) + 1) 0).val = V) :
    ∃ out, cam.extractFrame data frame_data = .ok out
      ∧ ∀ y x, y < height → x < width →
          (out.getD (2 * (y * width + x)) 0).val
            + 256 * (out.getD (2 * (y * width + x) + 1) 0).val = V := by
  obtain ⟨out, h1, _, h2, _⟩ :=
    extractFrame_stored cam data frame_data width height step hw hh hs hdata hout
  refine ⟨out, h1, fun y x hy hx => ?_⟩
  have := h2 y x hx (pixel_index_lt width height y x hy hx)
  rw [flooredAverage_uniform width height (step / 2) data V hV1 hV2 huni y x hy hx] at this
  exact this

/-- C13: for every model, if every raw sample of the image region is 0xFFFF, then
`extractFrame` stores 0 in every output pixel. -/
theorem extractFrame_all_sentinel (cam : SeekThermalCamera) (data frame_data : List Byte)
    (width height step : Nat)
    (hw : cam.device_.getFrameWidth = .ok width)
    (hh : cam.device_.getFrameHeight = .ok height)
    (hs : cam.device_._getRowStep = .ok step)
    (hdata : 2 * ((height - 1) * (step / 2) + width) ≤ data.length)
    (hout : 2 * (height * width) ≤ frame_data.length)
    (hall : ∀ r c, r < height → c < width →
      (data.getD (2 * (r * (step / 2) + c)) 0).val
        + 256 * (data.getD (2 * (r * (step / 2) + c) + 1) 0).val = 0xFFFF) :
    ∃ out, cam.extractFrame data frame_data = .ok out
      ∧ ∀ y x, y < height → x < width →
          (out.getD (2 * (y * width + x)) 0).val
            + 256 * (out.getD (2 * (y * width + x) + 1) 0).val = 0 := by
  obtain ⟨out, h1, _, h2, _⟩ :=
    extractFrame_stored cam data frame_data width height step hw hh hs hdata hout
  refine ⟨out, h1, fun y x hy hx => ?_⟩
  have := h2 y x hx (pixel_index_lt width height y x hy hx)
  rw [flooredAverage_sentinel width height (step / 2) data hall y x] at this
  exact this

theorem getD_flatten_replicate_pair (n : Nat) (a b : Byte) (i : Nat) (hi : i < n) :
    ((List.replicate n [a, b]).flatten.getD (2 * i) 0 = a)
    ∧ ((List.replicate n [a, b]).flatten.getD (2 * i + 1) 0 = b) := by
  induction n generalizing i with
  | zero => omega
  | succ n ih =>
    have e : (List.replicate (n + 1) [a, b]).flatten
        = a :: b :: (List.replicate n [a, b]).flatten := by
      rw [List.replicate_succ, List.flatten_cons]
      rfl
    rw [e]
    cases i with
    | zero => exact ⟨rfl, rfl⟩
    | succ j =>
      have e1 : 2 * (j + 1) = (2 * j + 1) + 1 := by omega
      rw [e1]
      simp only [List.getD_cons_succ]
      exact ih j (by omega)

theorem getD_replicate_lt (n : Nat) (a : Byte) (p : Nat) (hp : p < n) :
    (List.replicate n a).getD p 0 = a := by
  rw [List.getD_eq_getElem?_getD, List.getElem?_replicate, if_pos hp]
  rfl

theorem uniformRaw_length : uniformRaw.length = 64896 :=
  length_flatten_replicate_pair _ _ _

theorem sentinelRaw_length : sentinelRaw.length = 64896 :=
  List.length_replicate _ _

theorem uniformRaw_sample (r c : Nat) (hr : r < 156) (hc : c < 206) :
    (uniformRaw.getD (2 * (r * (416 / 2) + c)) 0).val
      + 256 * (uniformRaw.getD (2 * (r * (416 / 2) + c) + 1) 0).val = 5 := by
  have hi : r * (416 / 2) + c < 32448 := by omega
  obtain ⟨h1, h2⟩ := getD_flatten_replicate_pair 32448 5 0 _ hi
  unfold uniformRaw
  rw [h1, h2]
  rfl

theorem sentinelRaw_sample (r c : Nat) (hr : r < 156) (hc : c < 206) :
    (sentinelRaw.getD (2 * (r * (416 / 2) + c)) 0).val
      + 256 * (sentinelRaw.getD (2 * (r * (416 / 2) + c) + 1) 0).val = 0xFFFF := by
  unfold sentinelRaw
  rw [getD_replicate_lt _ _ _ (by omega), getD_replicate_lt _ _ _ (by omega)]
  rfl

/-- C12 at the Compact, on a frame whose every sample is 5. -/
theorem extractFrame_uniform_witness :
    ∃ out, compactCamera.extractFrame uniformRaw blankImage = .ok out
      ∧ ∀ y x, y < 156 → x < 206 →
          (out.getD (2 * (y * 206 + x)) 0).val
            + 256 * (out.getD (2 * (y * 206 + x) + 1) 0).val = 5 :=
  extractFrame_uniform compactCamera uniformRaw blankImage 206 156 416 5 rfl rfl rfl
    (le_of_le_of_eq (by decide) uniformRaw_length.symm)
    (le_of_le_of_eq (by decide) blankImage_length.symm) (by decide) (by decide)
    (fun r c hr hc => uniformRaw_sample r c hr hc)

/-- C13 at the Compact, on a frame whose every sample is 0xFFFF. -/
theorem extractFrame_all_sentinel_witness :
    ∃ out, compactCamera.extractFrame sentinelRaw blankImage = .ok out
      ∧ ∀ y x, y < 156 → x < 206 →
          (out.getD (2 * (y * 206 + x)) 0).val
            + 256 * (out.getD (2 * (y * 206 + x) + 1) 0).val = 0 :=
  extractFrame_all_sentinel compactCamera sentinelRaw blankImage 206 156 416 rfl rfl rfl
    (le_of_le_of_eq (by decide) sentinelRaw_length.symm)
    (le_of_le_of_eq (by decide) blankImage_length.symm)
    (fun r c hr hc => sentinelRaw_sample r c hr hc)

/-- C11: self-calibration.  If the calibration reference is derived from a raw frame
`F` by `extractFrame`, and `F` itself is then extracted into an image buffer and
passed through `applyCalibration` with that reference (what `grabFrame` does for a
captured calibration frame when an image is requested), every one of the
`width * height` output samples equals 0x4000. -/
theorem self_calibration (cam : SeekThermalCamera) (F image : List Byte)
    (width height step : Nat)
    (hw : cam.device_.getFrameWidth = .ok width)
    (hh : cam.device_.getFrameHeight = .ok height)
    (hs : cam.device_._getRowStep = .ok step)
    (hF : 2 * ((height - 1) * (step / 2) + width) ≤ F.length)
    (hcal : cam.calibration_frame_.length = 2 * (width * height))
    (himage : 2 * (width * height) ≤ image.length)
    (hoff : cam.offset_ = 0x4000) :
    ∃ reference extracted out,
      cam.extractFrame F cam.calibration_frame_ = .ok reference
      ∧ SeekThermalCamera.extractFrame { cam with calibration_frame_ := reference } F image
          = .ok extracted
      ∧ SeekThermalCamera.applyCalibration { cam with calibration_frame_ := reference }
          extracted = .ok out
      ∧ ∀ i, i < width * height →
          (out.getD (2 * i) 0).val + 256 * (out.getD (2 * i + 1) 0).val = 0x4000 := by
  have hwh : height * width = width * height := Nat.mul_comm _ _
  obtain ⟨reference, hr1, hrl, hr2, _⟩ := extractFrame_stored cam F cam.calibration_frame_
    width height step hw hh hs hF (by omega)
  obtain ⟨extracted, he1, hel, he2, _⟩ :=
    extractFrame_stored { cam with calibration_frame_ := reference } F image width height step
      hw hh hs hF (by omega)
  obtain ⟨out, ho1, _, ho2, _⟩ :=
    applyCalibration_calibrated { cam with calibration_frame_ := reference } extracted
      (by show 2 * (reference.length / 2) ≤ extracted.length; omega)
  refine ⟨reference, extracted, out, hr1, he1, ho1, fun i hi => ?_⟩
  have hW : 0 < width := by
    rcases Nat.eq_zero_or_pos width with h0 | h0
    · rw [h0, Nat.zero_mul] at hi; omega
    · exact h0
  have hidx : i / width * width + i % width = i := Nat.div_add_mod' i width
  have hmod : i % width < width := Nat.mod_lt _ hW
  have hr := hr2 (i / width) (i % width) hmod (by omega)
  have he := he2 (i / width) (i % width) hmod (by omega)
  rw [hidx] at hr he
  have ho := ho2 i (by show i < reference.length / 2; omega)
  have hoff' : ({ cam with calibration_frame_ := reference } : SeekThermalCamera).offset_
      = 0x4000 := hoff
  rw [hoff'] at ho
  have hcal' : ({ cam with calibration_frame_ := reference } : SeekThermalCamera).calibration_frame_
      = reference := rfl
  rw [hcal', hr, he] at ho
  have hlt := readU16LE_lt out (2 * i)
  unfold readU16LE at ho hlt
  omega

/-- C11 at a freshly constructed Compact camera, on the raw frame `roundingRaw`. -/
theorem self_calibration_witness :
    ∃ reference extracted out,
      compactCamera.extractFrame roundingRaw compactCamera.calibration_frame_ = .ok reference
      ∧ SeekThermalCamera.extractFrame { compactCamera with calibration_frame_ := reference }
          roundingRaw blankImage = .ok extracted
      ∧ SeekThermalCamera.applyCalibration
          { compactCamera with calibration_frame_ := reference } extracted = .ok out
      ∧ ∀ i, i < 206 * 156 →
          (out.getD (2 * i) 0).val + 256 * (out.getD (2 * i + 1) 0).val = 0x4000 :=
  self_calibration compactCamera roundingRaw blankImage 206 156 416 rfl rfl rfl
    (le_of_le_of_eq (by decide) roundingRaw_length.symm) compactCamera_calibration_length
    (le_of_le_of_eq (by decide) blankImage_length.symm) rfl

/-! ### `createCamera` -/

theorem new_supported (device : SeekDevice) (context : Option Nat)
    (ht : device.type.supported) :
    ∃ cam, SeekThermalCamera.new device context = .ok cam ∧ cam.device_ = device
      ∧ cam.usb_device_handle_ = none := by
  obtain ⟨t, serial, port⟩ := device
  simp only at ht
  rcases ht with rfl | rfl | rfl
  · exact ⟨_, rfl, rfl, rfl⟩
  · exact ⟨_, rfl, rfl, rfl⟩
  · exact ⟨_, rfl, rfl, rfl⟩

/-- C17: `createCamera` never throws; it returns a camera exactly when the identity's
model is Compact, CompactPro or Nano300, and the empty handle for `None` and every
other model value. -/
theorem createCamera_valid (device : SeekDevice) (context : Option Nat) :
    (∃ r, createCamera device context = .ok r)
    ∧ ((∃ cam, createCamera device context = .ok (some cam)) ↔ device.type.supported)
    ∧ (¬ device.type.supported → createCamera device context = .ok none) := by
  have hnone : ¬ device.type.supported → createCamera device context = .ok none := by
    intro hns
    unfold createCamera
    rw [if_neg (fun h => hns (Or.inl h)), if_neg (fun h => hns (Or.inr (Or.inl h))),
      if_neg (fun h => hns (Or.inr (Or.inr h)))]
  have hsome : device.type.supported → ∃ cam, createCamera device context = .ok (some cam) := by
    intro hs
    obtain ⟨cam, hcam, _⟩ := new_supported device context hs
    refine ⟨cam, ?_⟩
    unfold createCamera
    rw [hcam]
    rcases hs with h | h | h
    · rw [if_pos h]; rfl
    · by_cases h1 : device.type = .SeekThermalCompact
      · rw [if_pos h1]; rfl
      · rw [if_neg h1, if_pos h]; rfl
    · by_cases h1 : device.type = .SeekThermalCompact
      · rw [if_pos h1]; rfl
      · by_cases h2 : device.type = .SeekThermalCompactPro
        · rw [if_neg h1, if_pos h2]; rfl
        · rw [if_neg h1, if_neg h2, if_pos h]; rfl
  refine ⟨?_, ⟨?_, hsome⟩, hnone⟩
  · by_cases hs : device.type.supported
    · obtain ⟨cam, h⟩ := hsome hs
      exact ⟨_, h⟩
    · exact ⟨_, hnone hs⟩
  · rintro ⟨cam, h⟩
    by_contra hns
    rw [hnone hns] at h
    injection h with h
    exact Option.noConfusion h

/-! ### Session operations: `write`, `close` -/

theorem Op.bind_eq {α β : Type} (m : Op α) (f : α → Op β) (s : Session) :
    (m >>= f) s = match m s with
      | (.ok a, s') => f a s'
      | (.error e, s') => (.error e, s') := rfl

theorem Op.pure_eq {α : Type} (a : α) (s : Session) : (pure a : Op α) s = (.ok a, s) := rfl

/-- On an open session `write` issues one control transfer, never throws, and leaves
the camera as it was. -/
theorem Session.write_of_open (cam : SeekThermalCamera) (usb : Usb) (command : SeekDeviceCommand)
    (data : List Byte) (hopen : cam.usb_device_handle_ ≠ none) :
    Session.write command data { cam := cam, usb := usb }
      = (.ok (decide ((usb.control 0).transferred = (data.length : Int))),
         { cam := cam, usb := (usb.control_transfer 0x41 command.code data).2 }) := by
  unfold Session.write
  simp only [openseekthermal.write_open cam usb command data hopen]

/-- `close` on an open session. -/
theorem Session.close_open (s : Session) (handle : Nat)
    (hopen : s.cam.usb_device_handle_ = some handle) :
    Session.close s
      = (.ok (),
         { cam := { s.cam with usb_device_handle_ := none }
           usb := { s.usb with
             control := fun n => s.usb.control (n + 1 + 1 + 1)
             calls := s.usb.calls ++ [operationModeOffCall] ++ [operationModeOffCall]
               ++ [operationModeOffCall] ++ [.release_interface handle 0]
               ++ [.close_device handle] } }) := by
  obtain ⟨cam, usb⟩ := s
  have hne : cam.usb_device_handle_ ≠ none := by
    rw [show cam.usb_device_handle_ = some handle from hopen]; exact Option.some_ne_none _
  have hforM : ∀ f : Nat → Op PUnit, ([0, 1, 2] : List Nat).forM f
      = (f 0 >>= fun _ => f 1 >>= fun _ => f 2 >>= fun _ => pure ⟨⟩) := fun _ => rfl
  unfold Session.close
  simp only [show cam.usb_device_handle_ = some handle from hopen, hforM, Op.bind_eq,
    Op.pure_eq, Session.write_of_open _ _ _ _ hne]
  rfl

/-- C18: `close()` never throws.  On an open session it issues exactly three
`SET_OPERATION_MODE` writes with payload `{0x00, 0x00}`, whatever the device answers,
then releases interface 0 and closes the handle, and ends with no handle held and the
rest of the camera unchanged.  On a closed session it issues no call and changes
nothing, so a second `close()` after a `close()` changes nothing. -/
theorem close_effect (s : Session) :
    (Session.close s).1 = .ok ()
    ∧ (Session.close s).2.cam = { s.cam with usb_device_handle_ := none }
    ∧ (∀ handle, s.cam.usb_device_handle_ = some handle →
        (Session.close s).2.usb.calls
          = s.usb.calls ++ [operationModeOffCall, operationModeOffCall, operationModeOffCall,
              .release_interface handle 0, .close_device handle])
    ∧ (s.cam.usb_device_handle_ = none → Session.close s = (.ok (), s))
    ∧ Session.close (Session.close s).2 = (.ok (), (Session.close s).2) := by
  have hclosed : ∀ t : Session, t.cam.usb_device_handle_ = none →
      Session.close t = (.ok (), t) := by
    intro t ht
    unfold Session.close
    rw [ht]
  cases hh : s.cam.usb_device_handle_ with
  | none =>
    rw [hclosed s hh]
    refine ⟨rfl, ?_, fun handle h => (nomatch h), fun _ => rfl, hclosed s hh⟩
    obtain ⟨cam, usb⟩ := s
    obtain ⟨d, b, c, ctx, hdl, off, own⟩ := cam
    simp only at hh
    subst hh
    rfl
  | some handle =>
    rw [Session.close_open s handle hh]
    refine ⟨rfl, rfl, fun h' heq => ?_, fun h => (nomatch h), hclosed _ rfl⟩
    injection heq with heq
    subst heq
    simp only [List.append_assoc, List.cons_append, List.nil_append]

/-- C18 on an open Compact session whose device rejects the three writes. -/
theorem close_effect_witness :
    (Session.close rejectingSession).1 = .ok ()
    ∧ (Session.close rejectingSession).2.cam.usb_device_handle_ = none
    ∧ (Session.close rejectingSession).2.usb.calls
        = [operationModeOffCall, operationModeOffCall, operationModeOffCall,
           .release_interface 0 0, .close_device 0]
    ∧ Session.close (Session.close rejectingSession).2
        = (.ok (), (Session.close rejectingSession).2) :=
  ⟨(close_effect rejectingSession).1,
   congrArg SeekThermalCamera.usb_device_handle_ (close_effect rejectingSession).2.1,
   (close_effect rejectingSession).2.2.1 0 rfl,
   (close_effect rejectingSession).2.2.2.2⟩

/-! ### `getSeekDevice` and `listDevices` -/

/-- The string `get_usb_descriptor_ascii_string` returns, as a function of the device
and the index. -/
theorem get_usb_descriptor_ascii_string_eq (usb : Usb) (h : Nat) (device : UsbDeviceInfo)
    (index : Nat) :
    (get_usb_descriptor_ascii_string usb h device index).1
      = if index = 0 then "" else (device.strings index).getD "" := by
  unfold get_usb_descriptor_ascii_string
  by_cases h0 : index = 0
  · rw [if_pos h0, if_pos h0]
  · rw [if_neg h0, if_neg h0]
    cases device.strings index <;> rfl

theorem ite_fst {α β : Type} (c : Prop) [Decidable c] (a b : α × β) :
    (if c then a else b).1 = if c then a.1 else b.1 := by
  split <;> rfl

/-- The identity `getSeekDevice` returns, as a function of the device only. -/
theorem getSeekDevice_fst_eq (usb : Usb) (i : Nat) (device : UsbDeviceInfo) :
    (getSeekDevice usb i device).1
      = if device.descriptor_result < 0 then {}
        else if device.idVendor ≠ 0x289d then {}
        else if device.iProduct = 0 then {}
        else if device.idProduct = 0x0010 then
          if device.open_result < 0 then {}
          else if ((device.strings device.iProduct).getD "").isEmpty then {}
          else if containsString ((device.strings device.iProduct).getD "")
              "PIR206 Thermal Camera" then
            { type := .SeekThermalCompact, serial := ""
              usb_port := bus_and_port_numbers_to_string device }
          else {}
        else if device.idProduct = 0x0011 then
          if device.open_result < 0 then {}
          else if ((device.strings device.iProduct).getD "").isEmpty then {}
          else if containsString ((device.strings device.iProduct).getD "")
              "PIR324 Thermal Camera" then
            { type := .SeekThermalCompactPro
              serial := if device.iSerialNumber ≠ 0
                then (device.strings device.iSerialNumber).getD "" else ""
              usb_port := bus_and_port_numbers_to_string device }
          else if containsString ((device.strings device.iProduct).getD "") "Nano300" then
            { type := .SeekThermalNano300
              serial := if device.iSerialNumber ≠ 0
                then (device.strings device.iSerialNumber).getD "" else ""
              usb_port := bus_and_port_numbers_to_string device }
          else {}
        else {} := by
  unfold getSeekDevice
  simp only [ite_fst, get_usb_descriptor_ascii_string_eq]
  by_cases h3 : device.iProduct = 0
  · simp only [h3, if_true]
  · by_cases h4 : device.iSerialNumber = 0
    · simp only [h3, h4, if_false, ne_eq, not_true_eq_false]
    · simp only [h3, h4, if_false, ne_eq, not_false_eq_true, if_true,
        get_usb_descriptor_ascii_string_eq]

/-- The identity `getSeekDevice` returns depends on the device only. -/
theorem getSeekDevice_fst (usb : Usb) (i : Nat) (device : UsbDeviceInfo) :
    (getSeekDevice usb i device).1 = resolvedDevice device := by
  unfold resolvedDevice
  rw [getSeekDevice_fst_eq, getSeekDevice_fst_eq]

/-- The model `getSeekDevice` resolves is `None` or one of the three supported ones. -/
theorem resolvedDevice_type (device : UsbDeviceInfo) :
    (resolvedDevice device).type = .None ∨ (resolvedDevice device).type.supported := by
  unfold resolvedDevice
  rw [getSeekDevice_fst_eq]
  repeat' split
  all_goals first
    | exact Or.inl rfl
    | exact Or.inr (Or.inl rfl)
    | exact Or.inr (Or.inr (Or.inl rfl))
    | exact Or.inr (Or.inr (Or.inr rfl))

/-- For a resolved model, the test `( type & types ) != None` of `listDevices` says
that the model is not `None` and its bit is set in the mask. -/
theorem and_ne_none_iff (mask model : SeekDeviceType)
    (hm : model = .None ∨ model.supported) :
    model.and mask ≠ .None ↔ maskSelects mask model := by
  have hbit : ∀ k : Nat, (2 ^ k &&& mask.bits ≠ 0) ↔ (2 ^ k &&& mask.bits = 2 ^ k) := by
    intro k
    rw [Nat.and_comm, Nat.and_two_pow]
    have hpos : 0 < 2 ^ k := Nat.pow_pos (by decide)
    cases mask.bits.testBit k
    · simp only [Bool.toNat_false, Nat.zero_mul, ne_eq, not_true_eq_false, false_iff]
      omega
    · simp only [Bool.toNat_true, Nat.one_mul, ne_eq, iff_true]
      omega
  have hne : ∀ a : Nat, (SeekDeviceType.mk a ≠ .None) ↔ a ≠ 0 := by
    intro a
    constructor
    · intro h h0; exact h (by rw [h0]; rfl)
    · intro h h0; injection h0 with h0; exact h h0
  unfold maskSelects SeekDeviceType.and
  rw [hne]
  rcases hm with rfl | rfl | rfl | rfl
  · simp [SeekDeviceType.None]
  · simp [SeekDeviceType.SeekThermalCompact, SeekDeviceType.None]
  · have := hbit 1
    simpa [SeekDeviceType.SeekThermalCompactPro, SeekDeviceType.None] using this
  · have := hbit 3
    simpa [SeekDeviceType.SeekThermalNano300, SeekDeviceType.None] using this

/-- The loop of `listDevices` appends, in enumeration order, the resolved identities
that pass the mask test. -/
theorem listDevices_loop_eq (types : SeekDeviceType) (devs : List UsbDeviceInfo) :
    ∀ (i : Nat) (result : List SeekDevice) (usb : Usb),
      (listDevices_loop types devs i result usb).1
        = result ++ (devs.map resolvedDevice).filter
            (fun d => decide (maskSelects types d.type)) := by
  induction devs with
  | nil => intro i result usb; simp [listDevices_loop]
  | cons d rest ih =>
    intro i result usb
    have hiff := and_ne_none_iff types (resolvedDevice d).type (resolvedDevice_type d)
    unfold listDevices_loop
    simp only [getSeekDevice_fst, List.map_cons]
    by_cases hsel : maskSelects types (resolvedDevice d).type
    · rw [if_pos (hiff.mpr hsel), ih, List.filter_cons_of_pos (by simpa using hsel)]
      simp only [List.append_assoc, List.singleton_append]
    · rw [if_neg (fun h => hsel (hiff.mp h)), ih,
        List.filter_cons_of_neg (by simpa using hsel)]

/-- C16: when `libusb_init` succeeds and the bus enumerates as `devs`, `listDevices`
returns, in enumeration order, exactly the resolved identities of the devices whose
model is not `None` and has its bit set in the mask. -/
theorem listDevices_filter (types : SeekDeviceType) (usb : Usb) (devs : List UsbDeviceInfo)
    (hinit : 0 ≤ usb.init_results 0) (hlist : usb.device_lists 0 = .ok devs) :
    (listDevices types usb).1
      = .ok ((devs.map resolvedDevice).filter fun d => decide (maskSelects types d.type)) := by
  unfold listDevices
  simp only [Usb.libusb_init, Usb.get_device_list, hlist]
  rw [if_neg (by omega)]
  cases devs with
  | nil => rfl
  | cons d rest =>
    rw [if_neg (by simp)]
    simp only [listDevices_loop_eq, List.nil_append]

/-- C16 on a bus presenting one CompactPro and one Nano300, with the mask
`Compact | Nano300`: the result holds the Nano300 entry only. -/
theorem listDevices_filter_witness :
    (listDevices (SeekDeviceType.SeekThermalCompact.or .SeekThermalNano300) twoCameraUsb).1
      = .ok [{ type := .SeekThermalNano300, serial := "N300A", usb_port := "1-3.1" }] :=
  (listDevices_filter (SeekDeviceType.SeekThermalCompact.or .SeekThermalNano300) twoCameraUsb
    [compactProOnBus, nano300OnBus] (by decide) rfl).trans (by decide)

/-! ### `openDevice`: device selection -/

theorem string_isEmpty_iff (s : String) : s.isEmpty = true ↔ s = "" := by
  constructor
  · intro h
    have : s.endPos = 0 := by simpa [String.isEmpty] using h
    apply String.ext
    have h2 : s.utf8ByteSize = 0 := by
      have := congrArg String.Pos.byteIdx this
      simpa [String.endPos] using this
    cases s with
    | mk data =>
      cases data with
      | nil => rfl
      | cons c cs =>
        simp [String.utf8ByteSize, String.utf8ByteSize.go] at h2
        have := Char.utf8Size_pos c
        omega
  · intro h; subst h; rfl

/-- The effect of `get_usb_descriptor_ascii_string` on the environment: one recorded
call, unless the index is 0. -/
theorem get_usb_descriptor_ascii_string_snd (usb : Usb) (h : Nat) (device : UsbDeviceInfo)
    (index : Nat) :
    (get_usb_descriptor_ascii_string usb h device index).2
      = { usb with calls := usb.calls
            ++ (if index = 0 then [] else [.get_string_descriptor_ascii h index]) } := by
  unfold get_usb_descriptor_ascii_string
  by_cases h0 : index = 0
  · simp only [h0, if_true, List.append_nil]
  · simp only [h0, if_false, Usb.record]
    cases device.strings index <;> rfl

/-- The scan of `openDevice` stops at the first qualifying device; it leaves the
camera as it was and only adds calls to the environment. -/
theorem openDevice_scan_eq (cam : SeekThermalCamera) (vendor product : Nat)
    (hv : cam.device_._getVendorID = .ok vendor)
    (hp : cam.device_._getProductID = .ok product)
    (devs : List UsbDeviceInfo) :
    ∀ (i : Nat) (usb : Usb), ∃ extra,
      Session.openDevice_scan devs i { cam := cam, usb := usb }
        = (.ok (firstQualifying cam.device_ vendor product devs i),
           { cam := cam, usb := { usb with calls := usb.calls ++ extra } }) := by
  induction devs with
  | nil =>
    intro i usb
    exact ⟨[], by simp [Session.openDevice_scan, firstQualifying, Op.pure_eq]⟩
  | cons d rest ih =>
    intro i usb
    have hskip : ¬ qualifies cam.device_ vendor product d → ∀ usb₁ : Usb, ∀ pre,
        usb₁ = { usb with calls := usb.calls ++ pre } →
        ∃ extra, Session.openDevice_scan rest (i + 1) { cam := cam, usb := usb₁ }
          = (.ok (firstQualifying cam.device_ vendor product (d :: rest) i),
             { cam := cam, usb := { usb with calls := usb.calls ++ extra } }) := by
      intro hnq usb₁ pre hu
      obtain ⟨extra, he⟩ := ih (i + 1) usb₁
      refine ⟨pre ++ extra, ?_⟩
      rw [he, hu]
      simp only [firstQualifying, if_neg hnq, List.append_assoc]
    unfold Session.openDevice_scan
    by_cases h1 : d.descriptor_result = 0
    swap
    · simp only [ne_eq, h1, not_false_eq_true, if_true]
      exact hskip (fun hq => h1 hq.1.1) usb [] (by simp)
    by_cases h2 : d.idVendor = vendor
    swap
    · simp only [ne_eq, h1, h2, not_true_eq_false, not_false_eq_true, if_true, if_false,
        Op.bind_eq, Op.getCam, Op.lift, Op.pure_eq, hv]
      exact hskip (fun hq => h2 hq.1.2.1) usb [] (by simp)
    by_cases h3 : d.idProduct = product
    swap
    · simp only [ne_eq, h1, h2, h3, not_true_eq_false, not_false_eq_true, if_true, if_false,
        Op.bind_eq, Op.getCam, Op.lift, Op.pure_eq, hv, hp, decide_True]
      exact hskip (fun hq => h3 hq.1.2.2) usb [] (by simp)
    by_cases h4 : cam.device_.serial.isEmpty = true
        ∧ ¬ cam.device_.usb_port = bus_and_port_numbers_to_string d
    · simp only [ne_eq, h1, h2, h3, h4, not_true_eq_false, not_false_eq_true, if_true, if_false,
        Op.bind_eq, Op.getCam, Op.lift, Op.pure_eq, hv, hp, decide_False, Bool.false_eq_true,
        and_self]
      refine hskip (fun hq => ?_) usb [] (by simp)
      rcases hq.2.2 with ⟨hne, _⟩ | ⟨_, hport⟩
      · exact hne ((string_isEmpty_iff _).mp h4.1)
      · exact h4.2 hport
    by_cases h5 : d.open_result < 0
    · simp only [ne_eq, h1, h2, h3, h4, h5, not_true_eq_false, not_false_eq_true, if_true,
        if_false, Op.bind_eq, Op.getCam, Op.lift, Op.pure_eq, hv, hp, decide_False,
        Bool.false_eq_true, Op.record, Usb.record]
      exact hskip (fun hq => by have := hq.2.1; omega) _ [.open_device i] rfl
    by_cases h6 : ¬ cam.device_.serial.isEmpty = true
        ∧ ¬ serialDescriptor d = cam.device_.serial
    · have h6' := h6
      unfold serialDescriptor at h6'
      simp only [ne_eq, h1, h2, h3, h4, h5, h6', not_true_eq_false, not_false_eq_true, if_true,
        if_false, Op.bind_eq, Op.getCam, Op.lift, Op.pure_eq, hv, hp, decide_False,
        Bool.false_eq_true, Op.record, Usb.record, get_usb_descriptor_ascii_string_eq, and_self,
        false_and, true_and, and_true, and_false]
      refine hskip (fun hq => ?_) _
        ([.open_device i] ++ (if d.iSerialNumber = 0 then []
            else [.get_string_descriptor_ascii i d.iSerialNumber]) ++ [.close_device i]) ?_
      · rcases hq.2.2 with ⟨_, hser⟩ | ⟨hemp, _⟩
        · exact h6.2 hser
        · exact h6.1 ((string_isEmpty_iff _).mpr hemp)
      · simp only [get_usb_descriptor_ascii_string_snd, List.append_assoc]
    · have h6' := h6
      unfold serialDescriptor at h6'
      have hq : qualifies cam.device_ vendor product d := by
        refine ⟨⟨h1, h2, h3⟩, by omega, ?_⟩
        by_cases hemp : cam.device_.serial.isEmpty = true
        · right
          refine ⟨(string_isEmpty_iff _).mp hemp, ?_⟩
          by_contra hport
          exact h4 ⟨hemp, hport⟩
        · left
          refine ⟨fun he => hemp ((string_isEmpty_iff _).mpr he), ?_⟩
          by_contra hser
          exact h6 ⟨hemp, hser⟩
      simp only [ne_eq, h1, h2, h3, h4, h5, h6', not_true_eq_false, not_false_eq_true, if_true,
        if_false, Op.bind_eq, Op.getCam, Op.lift, Op.pure_eq, hv, hp, decide_False,
        Bool.false_eq_true, Op.record, Usb.record, get_usb_descriptor_ascii_string_eq,
        firstQualifying, hq, false_and, true_and, and_true, and_false]
      refine ⟨[.open_device i] ++ (if d.iSerialNumber = 0 then []
            else [.get_string_descriptor_ascii i d.iSerialNumber]), ?_⟩
      simp only [get_usb_descriptor_ascii_string_snd, List.append_assoc]

/-- The configuration step of `openDevice` leaves the camera as it was. -/
theorem openDevice_configure_cam (device : UsbDeviceInfo) (handle : Nat) (s : Session) :
    (Session.openDevice_configure device handle s).2.cam = s.cam := by
  unfold Session.openDevice_configure
  simp only [Op.bind_eq, Op.record, Op.fail, Op.pure_eq]
  repeat' split
  all_goals rfl

/-- The context step of `openDevice`, when a context is held or `libusb_init` succeeds:
no exception, and only the context fields of the camera and the `libusb_init` stream
change. -/
theorem openDevice_context_ok (cam : SeekThermalCamera) (usb : Usb)
    (hinit : cam.usb_context_ = none → usb.init_results 0 = 0) :
    ∃ cam' usb', Session.openDevice_context { cam := cam, usb := usb }
        = (.ok (), { cam := cam', usb := usb' })
      ∧ cam'.device_ = cam.device_
      ∧ cam'.usb_device_handle_ = cam.usb_device_handle_
      ∧ usb'.device_lists = usb.device_lists := by
  unfold Session.openDevice_context
  by_cases hctx : cam.usb_context_ = none
  · simp only [Op.bind_eq, Op.getCam, hctx, if_true, Usb.libusb_init, hinit hctx, ne_eq,
      not_true_eq_false, if_false, Op.setCam]
    exact ⟨_, _, rfl, rfl, rfl, rfl⟩
  · simp only [Op.bind_eq, Op.getCam, hctx, if_false, Op.pure_eq]
    exact ⟨_, _, rfl, rfl, rfl, rfl⟩

/-- `openDevice` on a closed session, when the context step succeeds and the bus
enumerates as `devs`: the handle held afterwards is the first qualifying device (none
if there is none), whatever the configuration step does; without a qualifying device
the call throws `SeekSetupError`, and with one it ends as the configuration step
does. -/
theorem openDevice_handle (s : Session) (devs : List UsbDeviceInfo) (vendor product : Nat)
    (hclosed : s.cam.usb_device_handle_ = none)
    (hv : s.cam.device_._getVendorID = .ok vendor)
    (hp : s.cam.device_._getProductID = .ok product)
    (hinit : s.cam.usb_context_ = none → s.usb.init_results 0 = 0)
    (hlist : s.usb.device_lists 0 = .ok devs) :
    (Session.openDevice s).2.cam.usb_device_handle_
        = firstQualifying s.cam.device_ vendor product devs 0
    ∧ (firstQualifying s.cam.device_ vendor product devs 0 = none →
        (Session.openDevice s).1 = .error .SeekSetupError)
    ∧ (∀ handle, firstQualifying s.cam.device_ vendor product devs 0 = some handle →
        ∃ s', (Session.openDevice s).1
          = (Session.openDevice_configure (devs.getD handle {}) handle s').1) := by
  obtain ⟨cam, usb⟩ := s
  simp only at hclosed hv hp hinit hlist
  obtain ⟨cam', usb', hctx, hdev, hhdl, hdl⟩ := openDevice_context_ok cam usb hinit
  have hv' : cam'.device_._getVendorID = .ok vendor := by rw [hdev]; exact hv
  have hp' : cam'.device_._getProductID = .ok product := by rw [hdev]; exact hp
  obtain ⟨extra, hscan⟩ := openDevice_scan_eq cam' vendor product hv' hp' devs 0
    (usb'.get_device_list).2
  have hlist' : usb'.device_lists 0 = .ok devs := by rw [hdl]; exact hlist
  have hrun : Session.openDevice { cam := cam, usb := usb }
      = (match firstQualifying cam.device_ vendor product devs 0 with
          | none => Op.fail .SeekSetupError
          | some handle => Session.openDevice_configure (devs.getD handle {}) handle)
        { cam := { cam' with
            usb_device_handle_ := firstQualifying cam.device_ vendor product devs 0 }
          usb := { (usb'.get_device_list).2 with
            calls := (usb'.get_device_list).2.calls ++ extra } } := by
    unfold Session.openDevice
    simp only [Op.bind_eq, Op.getCam, hclosed, ne_eq, not_true_eq_false, if_false, hctx,
      Usb.get_device_list, hlist']
    simp only [Usb.get_device_list] at hscan
    rw [hscan]
    simp only [Op.setCam, hdev]
  rw [hrun]
  cases hfq : firstQualifying cam.device_ vendor product devs 0 with
  | none =>
    exact ⟨rfl, fun _ => rfl, fun handle h => (nomatch h)⟩
  | some handle =>
    refine ⟨?_, fun h => (nomatch h), fun h' heq => ?_⟩
    · rw [openDevice_configure_cam]
    · injection heq with heq
      subst heq
      exact ⟨_, rfl⟩

theorem firstQualifying_some (identity : SeekDevice) (vendor product : Nat)
    (devs : List UsbDeviceInfo) :
    ∀ (i k : Nat), k < devs.length →
      qualifies identity vendor product (devs.getD k {}) →
      (∀ j, j < k → ¬ qualifies identity vendor product (devs.getD j {})) →
      firstQualifying identity vendor product devs i = some (i + k) := by
  induction devs with
  | nil => intro i k hk; simp at hk
  | cons d rest ih =>
    intro i k hk hq hmin
    cases k with
    | zero =>
      have hq0 : qualifies identity vendor product d := hq
      simp only [firstQualifying, if_pos hq0, Nat.add_zero]
    | succ k =>
      have hnq : ¬ qualifies identity vendor product d := hmin 0 (by omega)
      simp only [firstQualifying, if_neg hnq]
      rw [ih (i + 1) k (by simpa using hk) hq (fun j hj => hmin (j + 1) (by omega))]
      congr 1
      omega

theorem firstQualifying_none (identity : SeekDevice) (vendor product : Nat)
    (devs : List UsbDeviceInfo) :
    ∀ (i : Nat), (∀ k, k < devs.length → ¬ qualifies identity vendor product (devs.getD k {})) →
      firstQualifying identity vendor product devs i = none := by
  induction devs with
  | nil => intro i _; rfl
  | cons d rest ih =>
    intro i hall
    have hnq : ¬ qualifies identity vendor product d := hall 0 (by simp)
    simp only [firstQualifying, if_neg hnq]
    exact ih (i + 1) (fun k hk => hall (k + 1) (by simpa using hk))

theorem firstQualifying_congr (id₁ id₂ : SeekDevice) (vendor product : Nat)
    (h : ∀ d, qualifies id₁ vendor product d ↔ qualifies id₂ vendor product d)
    (devs : List UsbDeviceInfo) :
    ∀ i, firstQualifying id₁ vendor product devs i = firstQualifying id₂ vendor product devs i := by
  induction devs with
  | nil => intro i; rfl
  | cons d rest ih =>
    intro i
    by_cases hq : qualifies id₁ vendor product d
    · simp only [firstQualifying, if_pos hq, if_pos ((h d).mp hq)]
    · simp only [firstQualifying, if_neg hq, if_neg (fun h2 => hq ((h d).mpr h2))]
      exact ih (i + 1)

/-- With a non-empty serial, whether a device qualifies does not depend on the
identity's port path. -/
theorem qualifies_port_irrelevant (identity : SeekDevice) (port : String) (vendor product : Nat)
    (hserial : identity.serial ≠ "") (d : UsbDeviceInfo) :
    qualifies { identity with usb_port := port } vendor product d
      ↔ qualifies identity vendor product d := by
  unfold qualifies
  constructor
  · rintro ⟨h1, h2, h3⟩
    refine ⟨h1, h2, ?_⟩
    rcases h3 with h3 | ⟨h3, _⟩
    · exact Or.inl h3
    · exact absurd h3 hserial
  · rintro ⟨h1, h2, h3⟩
    refine ⟨h1, h2, ?_⟩
    rcases h3 with h3 | ⟨h3, _⟩
    · exact Or.inl h3
    · exact absurd h3 hserial

/-- C15: `openDevice` on a closed session, with the bus enumerating as `devs`.  Among
the devices whose vendor and product ID match the target model, the one opened is the
first that can be opened and whose serial descriptor equals the identity's non-empty
serial, or, the identity's serial being empty, whose port path equals the identity's;
with a non-empty serial the device held afterwards does not depend on the identity's
port path; if no device qualifies, `openDevice` throws `SeekSetupError` and holds no
handle. -/
theorem openDevice_selection (s : Session) (devs : List UsbDeviceInfo) (vendor product : Nat)
    (hclosed : s.cam.usb_device_handle_ = none)
    (hv : s.cam.device_._getVendorID = .ok vendor)
    (hp : s.cam.device_._getProductID = .ok product)
    (hinit : s.cam.usb_context_ = none → s.usb.init_results 0 = 0)
    (hlist : s.usb.device_lists 0 = .ok devs) :
    (∀ k, k < devs.length → qualifies s.cam.device_ vendor product (devs.getD k {}) →
        (∀ j, j < k → ¬ qualifies s.cam.device_ vendor product (devs.getD j {})) →
        (Session.openDevice s).2.cam.usb_device_handle_ = some k)
    ∧ ((∀ k, k < devs.length → ¬ qualifies s.cam.device_ vendor product (devs.getD k {})) →
        (Session.openDevice s).1 = .error .SeekSetupError
        ∧ (Session.openDevice s).2.cam.usb_device_handle_ = none)
    ∧ (s.cam.device_.serial ≠ "" → ∀ port,
        (Session.openDevice
            { s with cam := { s.cam with
                device_ := { s.cam.device_ with usb_port := port } } }).2.cam.usb_device_handle_
          = (Session.openDevice s).2.cam.usb_device_handle_) := by
  obtain ⟨hh, hnone, _⟩ := openDevice_handle s devs vendor product hclosed hv hp hinit hlist
  refine ⟨fun k hk hq hmin => ?_, fun hall => ?_, fun hserial port => ?_⟩
  · rw [hh, firstQualifying_some _ _ _ devs 0 k hk hq hmin, Nat.zero_add]
  · have hfq := firstQualifying_none _ _ _ devs 0 hall
    exact ⟨hnone hfq, by rw [hh, hfq]⟩
  · obtain ⟨hh', _, _⟩ := openDevice_handle
      { s with cam := { s.cam with device_ := { s.cam.device_ with usb_port := port } } }
      devs vendor product hclosed hv hp hinit hlist
    rw [hh', hh]
    exact firstQualifying_congr _ _ vendor product
      (qualifies_port_irrelevant s.cam.device_ port vendor product hserial) devs 0

/-- C15 on a bus with an unrelated device, a Compact on port 1-5 and a Compact on
port 1-2, for the identity with port path "1-2" and no serial: the third device is the
one opened. -/
theorem openDevice_selection_witness :
    (Session.openDevice selectionSession).2.cam.usb_device_handle_ = some 2 :=
  (openDevice_selection selectionSession threeDeviceBus 0x289d 0x0010 rfl rfl rfl
    (fun _ => rfl) rfl).1 2 (by decide) (by decide) (by decide)

/-! ### `open` -/

/-- `close` never throws and leaves no handle. -/
theorem Session.close_result (s : Session) :
    (Session.close s).1 = .ok () ∧ (Session.close s).2.cam.usb_device_handle_ = none := by
  cases hh : s.cam.usb_device_handle_ with
  | none =>
    have : Session.close s = (.ok (), s) := by
      unfold Session.close
      rw [hh]
    rw [this]
    exact ⟨rfl, hh⟩
  | some handle =>
    rw [Session.close_open s handle hh]
    exact ⟨rfl, rfl⟩

/-- When `openDevice` succeeds and `setupCamera` throws, `open` calls `close` before
the exception propagates: the same exception reaches the caller and no handle is
held. -/
theorem open_setup_failure_closes (s : Session) (e : Fault)
    (hopen : (Session.openDevice s).1 = .ok ())
    (hsetup : (Session.setupCamera (Session.openDevice s).2).1 = .error e)
    (hexc : e.isException = true) :
    (Session.open s).1 = .error e ∧ (Session.open s).2.cam.usb_device_handle_ = none := by
  have hrun : Session.open s
      = (match Session.setupCamera (Session.openDevice s).2 with
          | (.error e, s') =>
            if e.isException then
              match Session.close s' with
              | (.ok _, s'') => (.error e, s'')
              | (.error e', s'') => (.error e', s'')
            else (.error e, s')
          | (.ok a, s') => (.ok a, s')) := by
    unfold Session.open
    rw [Op.bind_eq]
    cases h : Session.openDevice s with
    | mk v s1 =>
      rw [h] at hopen
      simp only at hopen
      subst hopen
      rfl
  rw [hrun]
  cases h : Session.setupCamera (Session.openDevice s).2 with
  | mk v s2 =>
    rw [h] at hsetup
    simp only at hsetup
    subst hsetup
    simp only [hexc, if_true]
    obtain ⟨hc1, hc2⟩ := Session.close_result s2
    cases hc : Session.close s2 with
    | mk v3 s3 =>
      rw [hc] at hc1 hc2
      simp only at hc1 hc2
      subst hc1
      exact ⟨rfl, hc2⟩

/-- C14 (code defect): the Compact is found and opened, and `libusb_claim_interface`
then fails with -6.  `open()` throws `USBError` from `openDevice`, outside the `try`
block, so `close()` is not called: the session still holds the handle when the error
reaches the caller, and the last call issued is the failed claim. -/
theorem open_claim_failure_keeps_handle :
    (Session.open claimFailsSession).1 = .error (.USBError (-6))
    ∧ (Session.open claimFailsSession).2.cam.usb_device_handle_ = some 0
    ∧ (Session.open claimFailsSession).2.usb.calls
        = [.init, .get_device_list, .open_device 0, .get_configuration 0,
           .claim_interface 0 0] := by
  decide

/-! ### `setupCamera`: scripted devices, mode confirmation and error-code check -/

theorem write_scripted (cam : SeekThermalCamera) (hopen : cam.usb_device_handle_ ≠ none)
    (command : SeekDeviceCommand) (data : List Byte) (r : ControlReply)
    (rest : List ControlReply) (calls : List UsbCall) :
    Session.write command data (scriptedSession cam (r :: rest) calls)
      = (.ok (decide (r.transferred = (data.length : Int))),
         scriptedSession cam rest (calls ++ [.control_transfer 0x41 command.code data])) := by
  unfold scriptedSession
  rw [Session.write_of_open _ _ _ _ hopen]
  rfl

theorem write_scripted_ok (cam : SeekThermalCamera) (hopen : cam.usb_device_handle_ ≠ none)
    (command : SeekDeviceCommand) (data : List Byte) (n : Nat)
    (rest : List ControlReply) (calls : List UsbCall) (hn : n = data.length) :
    Session.write command data (scriptedSession cam (okWrite n :: rest) calls)
      = (.ok true,
         scriptedSession cam rest (calls ++ [.control_transfer 0x41 command.code data])) := by
  rw [write_scripted cam hopen, hn]
  simp only [okWrite, decide_True]

theorem writeOrThrow_scripted (cam : SeekThermalCamera) (hopen : cam.usb_device_handle_ ≠ none)
    (command : SeekDeviceCommand) (data : List Byte) (n : Nat)
    (rest : List ControlReply) (calls : List UsbCall) (hn : n = data.length) :
    Session.writeOrThrow command data (scriptedSession cam (okWrite n :: rest) calls)
      = (.ok (),
         scriptedSession cam rest (calls ++ [.control_transfer 0x41 command.code data])) := by
  unfold Session.writeOrThrow
  rw [Op.bind_eq, write_scripted_ok cam hopen _ _ _ _ _ hn]
  rfl

theorem read_scripted (cam : SeekThermalCamera) (hopen : cam.usb_device_handle_ ≠ none)
    (command : SeekDeviceCommand) (data d : List Byte)
    (rest : List ControlReply) (calls : List UsbCall) (hd : d.length = data.length) :
    Session.read command data (scriptedSession cam (okRead d :: rest) calls)
      = (.ok (true, d),
         scriptedSession cam rest (calls ++ [.control_transfer 0xC0 command.code data])) := by
  obtain ⟨handle, hh⟩ := Option.ne_none_iff_exists'.mp hopen
  have e1 : d.take data.length = d := by rw [← hd]; exact List.take_length d
  have e2 : data.drop data.length = [] := List.drop_length data
  unfold Session.read scriptedSession
  have hlt : ¬ ((data.length : Int) < 0) := by omega
  simp only [hh, Usb.control_transfer, scriptedUsb, List.getD_cons_zero, okRead, e1, e2,
    List.append_nil, hd, hlt, if_false, Int.toNat_ofNat, ne_eq, not_true_eq_false]
  rfl

theorem readOrThrow_scripted (cam : SeekThermalCamera) (hopen : cam.usb_device_handle_ ≠ none)
    (command : SeekDeviceCommand) (data d : List Byte)
    (rest : List ControlReply) (calls : List UsbCall) (hd : d.length = data.length) :
    Session.readOrThrow command data (scriptedSession cam (okRead d :: rest) calls)
      = (.ok d,
         scriptedSession cam rest (calls ++ [.control_transfer 0xC0 command.code data])) := by
  unfold Session.readOrThrow
  rw [Op.bind_eq, read_scripted cam hopen _ _ _ _ _ hd]
  rfl

theorem modeOff_scripted_exit (cam : SeekThermalCamera)
    (hopen : cam.usb_device_handle_ ≠ none) (fuel retries : Nat) (data d : List Byte)
    (rest : List ControlReply) (calls : List UsbCall) (hretries : retries < 10)
    (hd : d.length = data.length)
    (hexit : ¬ (d.getD 0 0 ≠ 0x00 ∧ d.getD 1 0 ≠ 0x00)) :
    Session.setupCamera_modeOff (fuel + 1) retries data
        (scriptedSession cam (okWrite 2 :: okRead d :: rest) calls)
      = (.ok d,
         scriptedSession cam rest
           (calls ++ [.control_transfer 0x41 60 [0x00, 0x00]]
              ++ [.control_transfer 0xC0 61 data])) := by
  have hr : ¬ (retries + 1 > 10) := by omega
  unfold Session.setupCamera_modeOff
  simp only [hr, if_false, Op.bind_eq, writeOrThrow_scripted cam hopen _ [0x00, 0x00] 2 _ _ rfl,
    readOrThrow_scripted cam hopen _ _ _ _ _ hd, hexit, Op.pure_eq]
  rfl

theorem modeOn_scripted_exit (cam : SeekThermalCamera)
    (hopen : cam.usb_device_handle_ ≠ none) (fuel retries : Nat) (data d : List Byte)
    (rest : List ControlReply) (calls : List UsbCall) (hretries : retries < 10)
    (hd : d.length = 2)
    (hexit : ¬ (d.getD 0 0 ≠ 0x01 ∧ d.getD 1 0 ≠ 0x00)) :
    Session.setupCamera_modeOn (fuel + 1) retries data
        (scriptedSession cam (okWrite 2 :: okRead d :: rest) calls)
      = (.ok d,
         scriptedSession cam rest
           (calls ++ [.control_transfer 0x41 60 [0x01, 0x00]]
              ++ [.control_transfer 0xC0 61 (SeekThermalCamera.resizeBytes data 2)])) := by
  have hr : ¬ (retries + 1 > 10) := by omega
  have hd2 : d.length = (SeekThermalCamera.resizeBytes data 2).length := by
    rw [resizeBytes_length, hd]
  unfold Session.setupCamera_modeOn
  simp only [hr, if_false, Op.bind_eq, write_scripted_ok cam hopen _ [0x01, 0x00] 2 _ _ rfl,
    Bool.not_true, Bool.false_eq_true, readOrThrow_scripted cam hopen _ _ _ _ _ hd2, hexit,
    Op.pure_eq]
  rfl

theorem scriptedSession_cam (cam : SeekThermalCamera) (script : List ControlReply)
    (calls : List UsbCall) : (scriptedSession cam script calls).cam = cam := rfl

theorem compact_setup_unconfirmed (cam : SeekThermalCamera)
    (htype : cam.device_.type = .SeekThermalCompact)
    (hopen : cam.usb_device_handle_ ≠ none) :
    Session.setupCamera (scriptedSession cam unconfirmedModeScript [])
      = (.ok (),
         scriptedSession cam []
          [.control_transfer 0x41 84 [0x01],
           .control_transfer 0x41 60 [0x00, 0x00],
           .control_transfer 0xC0 61 [0, 0],
           .control_transfer 0x41 86 [0x20, 0x00, 0x30, 0x00, 0x00, 0x00],
           .control_transfer 0x41 85 [0x17, 0x00],
           .control_transfer 0x41 86 [0x20, 0x00, 0x50, 0x00, 0x00, 0x00],
           .control_transfer 0x41 86 [0x0c, 0x00, 0x70, 0x00, 0x00, 0x00],
           .control_transfer 0x41 86 [0x06, 0x00, 0x08, 0x00, 0x00, 0x00],
           .control_transfer 0xC0 53 [0x01, 0x00, 0, 0],
           .control_transfer 0x41 62 [0x08, 0x00],
           .control_transfer 0xC0 61 [0, 0],
           .control_transfer 0x41 60 [0x01, 0x00],
           .control_transfer 0xC0 61 [0, 0]]) := by
  have herr : ¬ (([0, 0, 0, 0] : List Byte).getD 0 0 ≠ 0x00
      ∨ ([0, 0, 0, 0] : List Byte).getD 1 0 ≠ 0x00
      ∨ ([0, 0, 0, 0] : List Byte).getD 2 0 ≠ 0x00
      ∨ ([0, 0, 0, 0] : List Byte).getD 3 0 ≠ 0x00) := by decide
  unfold Session.setupCamera SeekThermalCompact.setupCamera unconfirmedModeScript
  simp only [Op.bind_eq, Op.getCam, scriptedSession_cam, htype, if_true, write_scripted_ok cam hopen,
    Bool.not_true, Bool.false_eq_true, if_false, Op.pure_eq,
    modeOff_scripted_exit cam hopen 10 0 (List.replicate 2 0) [0x01, 0x00] _ _ (by decide) rfl (by decide), writeOrThrow_scripted cam hopen,
    readOrThrow_scripted cam hopen, modeOn_scripted_exit cam hopen 10 0 _ [0x00, 0x00] _ _ (by decide) rfl (by decide),
    List.length_cons, List.length_nil, Nat.reduceAdd, resizeBytes_length,
    List.length_replicate, herr]
  rfl

theorem unconfirmedModeSession_eq :
    unconfirmedModeSession = scriptedSession compactCameraOpen unconfirmedModeScript [] := rfl

theorem compactCameraOpen_type : compactCameraOpen.device_.type = .SeekThermalCompact := rfl

theorem compactCameraOpen_open : compactCameraOpen.usb_device_handle_ ≠ none := by decide

/-- C19 (code defect) at the Compact.  The mode-off loop is left without error although
the mode read back is `{0x01, 0x00}` (on), and the mode-on loop is left without error
although the mode read back is `{0x00, 0x00}` (off): each loop continues only while
both bytes differ from the wanted ones.  On a device that answers so, the whole of
`setupCamera` returns normally after one mode-off write and one mode-on write. -/
theorem setupCamera_mode_not_confirmed :
    (Session.setupCamera_modeOff 11 0 [0, 0] modeOffLoopSession).1 = .ok [0x01, 0x00]
    ∧ (Session.setupCamera_modeOn 11 0 [0, 0] modeOnLoopSession).1 = .ok [0x00, 0x00]
    ∧ (Session.setupCamera unconfirmedModeSession).1 = .ok ()
    ∧ (Session.setupCamera unconfirmedModeSession).2.usb.calls
        = [.control_transfer 0x41 84 [0x01],
           .control_transfer 0x41 60 [0x00, 0x00],
           .control_transfer 0xC0 61 [0, 0],
           .control_transfer 0x41 86 [0x20, 0x00, 0x30, 0x00, 0x00, 0x00],
           .control_transfer 0x41 85 [0x17, 0x00],
           .control_transfer 0x41 86 [0x20, 0x00, 0x50, 0x00, 0x00, 0x00],
           .control_transfer 0x41 86 [0x0c, 0x00, 0x70, 0x00, 0x00, 0x00],
           .control_transfer 0x41 86 [0x06, 0x00, 0x08, 0x00, 0x00, 0x00],
           .control_transfer 0xC0 53 [0x01, 0x00, 0, 0],
           .control_transfer 0x41 62 [0x08, 0x00],
           .control_transfer 0xC0 61 [0, 0],
           .control_transfer 0x41 60 [0x01, 0x00],
           .control_transfer 0xC0 61 [0, 0]] := by
  rw [unconfirmedModeSession_eq,
    compact_setup_unconfirmed compactCameraOpen compactCameraOpen_type compactCameraOpen_open]
  exact ⟨by decide, by decide, rfl, rfl⟩

/-! ### `setupCamera`: the settings sweep and the error-code check -/

theorem sweepCalls_length (addrs : List Nat) :
    ∀ data : List Byte, (sweepCalls data addrs).length = 2 * addrs.length := by
  induction addrs with
  | nil => intro _; rfl
  | cons a l ih =>
    intro data
    rw [sweepCalls, List.length_cons, List.length_cons, ih, List.length_cons]
    omega

theorem sweepData_zeros (addrs : List Nat) :
    sweepData (List.replicate 64 0) addrs = List.replicate 64 0 := by
  cases addrs <;> rfl

theorem sweep_scripted (cam : SeekThermalCamera) (hopen : cam.usb_device_handle_ ≠ none)
    (tail : List ControlReply) :
    ∀ (addrs : List Nat) (n : Nat) (_ : addrs.length = n) (data : List Byte)
      (calls : List UsbCall),
      (addrs.foldlM
          (fun data addr => do
            Session.writeOrThrow .SET_FACTORY_SETTINGS_FEATURES
              [0x20, 0x00, loByte addr, hiByte addr, 0x00, 0x00]
            Session.readOrThrow .GET_FACTORY_SETTINGS (SeekThermalCamera.resizeBytes data 64))
          data : Op (List Byte))
          (scriptedSession cam
            ((List.replicate n [okWrite 6, okRead (List.replicate 64 0)]).flatten ++ tail) calls)
        = (.ok (sweepData data addrs),
           scriptedSession cam tail (calls ++ sweepCalls data addrs)) := by
  intro addrs
  induction addrs with
  | nil =>
    intro n hn data calls
    subst hn
    rw [List.foldlM_nil, sweepCalls, List.append_nil]
    rfl
  | cons a l ih =>
    intro n hn data calls
    subst hn
    have hd : (List.replicate 64 (0 : Byte)).length
        = (SeekThermalCamera.resizeBytes data 64).length := by
      rw [resizeBytes_length, List.length_replicate]
    have hscript : (List.replicate (a :: l).length [okWrite 6, okRead (List.replicate 64 0)]).flatten
          ++ tail
        = okWrite 6 :: okRead (List.replicate 64 0)
            :: ((List.replicate l.length [okWrite 6, okRead (List.replicate 64 0)]).flatten
                ++ tail) := rfl
    rw [hscript, List.foldlM_cons, Op.bind_eq, Op.bind_eq,
      writeOrThrow_scripted cam hopen _
        [0x20, 0x00, loByte a, hiByte a, 0x00, 0x00] 6 _ _ rfl]
    simp only [readOrThrow_scripted cam hopen _ _ _ _ _ hd]
    rw [ih l.length rfl, sweepData_zeros, sweepCalls, sweepData]
    simp only [List.append_assoc, List.cons_append, List.nil_append]

theorem nano300_setup_error_ignored (cam : SeekThermalCamera)
    (htype : cam.device_.type = .SeekThermalNano300)
    (hopen : cam.usb_device_handle_ ≠ none) :
    Session.setupCamera (scriptedSession cam nano300ErrorScript [])
      = (.ok (),
         scriptedSession cam []
          (([.control_transfer 0x41 84 [0x00, 0x00],
             .control_transfer 0x41 60 [0x00, 0x00],
             .control_transfer 0xC0 61 [0, 0],
             .control_transfer 0x41 62 [0x08, 0x00],
             .control_transfer 0x41 86 [0x08, 0x00, 0x02, 0x06, 0x00, 0x00],
             .control_transfer 0xC0 88 (List.replicate 16 0),
             .control_transfer 0xC0 78 (List.replicate 4 0),
             .control_transfer 0x41 86 [0x08, 0x00, 0x02, 0x06, 0x00, 0x00],
             .control_transfer 0xC0 88 (List.replicate 16 0),
             .control_transfer 0x41 85 [0x17, 0x00],
             .control_transfer 0xC0 78 (List.replicate 64 0),
             .control_transfer 0xC0 78 (List.replicate 4 0),
             .control_transfer 0xC0 54 (List.replicate 12 0),
             .control_transfer 0x41 85 [0x15, 0x00],
             .control_transfer 0xC0 78 (List.replicate 64 0),
             .control_transfer 0xC0 54 (List.replicate 12 0),
             .control_transfer 0xC0 78 (List.replicate 4 0)]
            ++ sweepCalls (List.replicate 4 0) ((List.range 80).map fun i => i * 0x20)
            ++ [.control_transfer 0x41 85 [0x15, 0x00],
                .control_transfer 0xC0 78 (List.replicate 64 0)])
           ++ [.control_transfer 0xC0 53 [0, 0, 0, 0],
               .control_transfer 0x41 55 [0xFC, 0x00, 0x04, 0x00],
               .control_transfer 0x41 60 [0x01, 0x00],
               .control_transfer 0xC0 61 [0x01, 0x00]])) := by
  have herr : ¬ (([0x01, 0, 0, 0] : List Byte).getD 0 0 ≠ 0x00
      ∧ ([0x01, 0, 0, 0] : List Byte).getD 1 0 ≠ 0x00
      ∧ ([0x01, 0, 0, 0] : List Byte).getD 2 0 ≠ 0x00
      ∧ ([0x01, 0, 0, 0] : List Byte).getD 3 0 ≠ 0x00) := by decide
  have hne1 : ¬ (SeekDeviceType.SeekThermalNano300 = SeekDeviceType.SeekThermalCompact) := by
    decide
  have hne2 : ¬ (SeekDeviceType.SeekThermalNano300 = SeekDeviceType.SeekThermalCompactPro) := by
    decide
  have h80 : ((List.range 80).map fun i => i * 0x20).length = 80 := by
    rw [List.length_map, List.length_range]
  unfold Session.setupCamera SeekThermalNano300.setupCamera nano300ErrorScript
    Session.setupCamera_sweep
  simp only [Op.bind_eq, Op.getCam, scriptedSession_cam, htype, hne1, hne2, if_true, if_false,
    write_scripted_ok cam hopen,
    Bool.not_true, Bool.false_eq_true, Op.pure_eq,
    modeOff_scripted_exit cam hopen 10 0 (List.replicate 2 0) [0, 0] _ _ (by decide) rfl
      (by decide),
    writeOrThrow_scripted cam hopen, readOrThrow_scripted cam hopen,
    sweep_scripted cam hopen _ _ 80 h80,
    modeOn_scripted_exit cam hopen 10 0 _ [0x01, 0x00] _ _ (by decide) rfl (by decide),
    List.length_cons, List.length_nil, Nat.reduceAdd, resizeBytes_length,
    List.length_replicate, herr, List.append_assoc, List.cons_append, List.nil_append]
  rfl

/-- The sibling path: on the same error code the Compact setup throws `SeekSetupError`
right after the `GET_ERROR_CODE` read and issues no further command. -/
theorem compact_setup_error_code_throws (cam : SeekThermalCamera)
    (htype : cam.device_.type = .SeekThermalCompact)
    (hopen : cam.usb_device_handle_ ≠ none) :
    Session.setupCamera (scriptedSession cam compactErrorScript [])
      = (.error .SeekSetupError,
         scriptedSession cam []
          [.control_transfer 0x41 84 [0x01],
           .control_transfer 0x41 60 [0x00, 0x00],
           .control_transfer 0xC0 61 [0, 0],
           .control_transfer 0x41 86 [0x20, 0x00, 0x30, 0x00, 0x00, 0x00],
           .control_transfer 0x41 85 [0x17, 0x00],
           .control_transfer 0x41 86 [0x20, 0x00, 0x50, 0x00, 0x00, 0x00],
           .control_transfer 0x41 86 [0x0c, 0x00, 0x70, 0x00, 0x00, 0x00],
           .control_transfer 0x41 86 [0x06, 0x00, 0x08, 0x00, 0x00, 0x00],
           .control_transfer 0xC0 53 [0, 0, 0, 0]]) := by
  have herr : (([0x01, 0, 0, 0] : List Byte).getD 0 0 ≠ 0x00
      ∨ ([0x01, 0, 0, 0] : List Byte).getD 1 0 ≠ 0x00
      ∨ ([0x01, 0, 0, 0] : List Byte).getD 2 0 ≠ 0x00
      ∨ ([0x01, 0, 0, 0] : List Byte).getD 3 0 ≠ 0x00) := by decide
  unfold Session.setupCamera SeekThermalCompact.setupCamera compactErrorScript
  simp only [Op.bind_eq, Op.getCam, scriptedSession_cam, htype, if_true, if_false,
    write_scripted_ok cam hopen, Bool.not_true, Bool.false_eq_true, Op.pure_eq,
    modeOff_scripted_exit cam hopen 10 0 (List.replicate 2 0) [0x00, 0x00] _ _ (by decide) rfl
      (by decide),
    writeOrThrow_scripted cam hopen, readOrThrow_scripted cam hopen,
    List.length_cons, List.length_nil, Nat.reduceAdd, resizeBytes_length,
    List.length_replicate, herr, List.append_assoc, List.cons_append, List.nil_append]
  rfl

theorem nano300ErrorSession_eq :
    nano300ErrorSession = scriptedSession nano300CameraOpen nano300ErrorScript [] := rfl

theorem nano300CameraOpen_type : nano300CameraOpen.device_.type = .SeekThermalNano300 := rfl

theorem nano300CameraOpen_open : nano300CameraOpen.usb_device_handle_ ≠ none := by decide

set_option maxRecDepth 4000 in
/-- C20 (code defect) at the Nano300.  The device answers the `GET_ERROR_CODE` read (the
180th control transfer of the setup) with `{0x01, 0x00, 0x00, 0x00}`, a result with a
non-zero byte.  `setupCamera` does not throw: it goes on with the `TOGGLE_SHUTTER`
write and the mode-on loop and returns normally, because the Nano300 test joins the
four bytes with `&&`. -/
theorem setupCamera_nano300_ignores_error_code :
    (nano300ErrorSession.usb.control 179).data = [0x01, 0x00, 0x00, 0x00]
    ∧ (Session.setupCamera nano300ErrorSession).1 = .ok ()
    ∧ ((Session.setupCamera nano300ErrorSession).2.usb.calls.drop 179)
        = [.control_transfer 0xC0 53 [0, 0, 0, 0],
           .control_transfer 0x41 55 [0xFC, 0x00, 0x04, 0x00],
           .control_transfer 0x41 60 [0x01, 0x00],
           .control_transfer 0xC0 61 [0x01, 0x00]] := by
  refine ⟨by decide, ?_, ?_⟩
  · rw [nano300ErrorSession_eq,
      nano300_setup_error_ignored nano300CameraOpen nano300CameraOpen_type
        nano300CameraOpen_open]
  · rw [nano300ErrorSession_eq,
      nano300_setup_error_ignored nano300CameraOpen nano300CameraOpen_type
        nano300CameraOpen_open]
    refine List.drop_left' ?_
    simp only [List.length_append, List.length_cons, List.length_nil, sweepCalls_length,
      List.length_map, List.length_range]

/-! ### `extractFrame`: reads stay inside the captured transfer -/

/-- The figures of the two device profiles: every supported model has either the
Compact's or the CompactPro/Nano300's. -/
theorem profile_values (d : SeekDevice) (ht : d.type.supported) :
    (d.getFrameWidth = .ok 206 ∧ d.getFrameHeight = .ok 156 ∧ d._getRowStep = .ok 416
      ∧ d._getFrameHeaderSize = .ok 0 ∧ d._getFrameTransferTotalSize = .ok 64896
      ∧ d._getFrameTransferRequestSize = .ok 16224
      ∧ d._getFrameTransferDeviceRequestSize = .ok 32448
      ∧ FrameHeader.GetMinHeaderSize d.type = .ok 82
      ∧ FrameHeader.GetFrameNumberOffset d.type = .ok 80
      ∧ FrameHeader.GetFrameTypeOffset d.type = .ok 20)
    ∨ (d.getFrameWidth = .ok 320 ∧ d.getFrameHeight = .ok 240 ∧ d._getRowStep = .ok 684
      ∧ d._getFrameHeaderSize = .ok 2736 ∧ d._getFrameTransferTotalSize = .ok 177840
      ∧ d._getFrameTransferRequestSize = .ok 13680
      ∧ d._getFrameTransferDeviceRequestSize = .ok 88920
      ∧ FrameHeader.GetMinHeaderSize d.type = .ok 32
      ∧ FrameHeader.GetFrameNumberOffset d.type = .ok 2
      ∧ FrameHeader.GetFrameTypeOffset d.type = .ok 4) := by
  obtain ⟨t, serial, port⟩ := d
  simp only at ht
  rcases ht with rfl | rfl | rfl
  · exact Or.inl ⟨rfl, rfl, rfl, rfl, rfl, rfl, rfl, rfl, rfl, rfl⟩
  · exact Or.inr ⟨rfl, rfl, rfl, rfl, rfl, rfl, rfl, rfl, rfl, rfl⟩
  · exact Or.inr ⟨rfl, rfl, rfl, rfl, rfl, rfl, rfl, rfl, rfl, rfl⟩

/-- The byte position of an in-bounds neighbour inside a buffer that carries
`header` bytes before `H` rows of `RS` samples. -/
theorem neighbour_byte_position (W H RS header total : Nat) (y x : Nat) (k m : Int)
    (hfit : header + 2 * ((H - 1) * RS + W) ≤ total)
    (hclip : ¬ ((y : Int) + k < 0 ∨ (y : Int) + k ≥ H ∨ (x : Int) + m < 0 ∨ (x : Int) + m ≥ W)) :
    0 ≤ ((y : Int) + k) * RS + x + m
    ∧ header + 2 * (((y : Int) + k) * RS + x + m).toNat + 2 ≤ total := by
  have hin : specInBounds W H y x k m := by
    unfold specInBounds
    omega
  obtain ⟨h1, h2, h3, h4⟩ := hin
  obtain ⟨r, hr⟩ := Int.eq_ofNat_of_zero_le h1
  obtain ⟨c, hc⟩ := Int.eq_ofNat_of_zero_le h3
  have hr' : r < H := by omega
  have hc' : c < W := by omega
  have e : (((y : Int) + k) * RS + x + m) = ((r * RS + c : Nat) : Int) := by
    rw [hr]; push_cast; omega
  rw [e, Int.toNat_ofNat]
  have hmul : r * RS ≤ (H - 1) * RS := Nat.mul_le_mul_right RS (by omega)
  exact ⟨Int.ofNat_nonneg _, by omega⟩

/-- C27: for every supported model the reads of `extractFrame` stay inside the
captured transfer.  For an output pixel `(x, y)` and a neighbour `(y + k, x + m)` that
passes the border clipping of the code, the sample index is not negative and the two
bytes at `header_size + 2 * ((y + k) * row_stride + x + m)` lie within the total
transfer size; the output index `y * width + x` lies within the `width * height`
output samples; and `extractFrame` on the pixel region of a buffer of the total
transfer size, with an output of `width * height` samples, returns without an access
outside either. -/
theorem extractFrame_reads_in_bounds (d : SeekDevice) (ht : d.type.supported) :
    ∃ width height step header total : Nat,
      d.getFrameWidth = .ok width ∧ d.getFrameHeight = .ok height
      ∧ d._getRowStep = .ok step ∧ d._getFrameHeaderSize = .ok header
      ∧ d._getFrameTransferTotalSize = .ok total
      ∧ (∀ (y x : Nat) (k m : Int), y < height → x < width →
          ¬ ((y : Int) + k < 0 ∨ (y : Int) + k ≥ height ∨ (x : Int) + m < 0
              ∨ (x : Int) + m ≥ width) →
          0 ≤ ((y : Int) + k) * (step / 2 : Nat) + x + m
          ∧ header + 2 * (((y : Int) + k) * (step / 2 : Nat) + x + m).toNat + 2 ≤ total
          ∧ y * width + x < width * height)
      ∧ ∀ (cam : SeekThermalCamera) (buffer frame_data : List Byte),
          cam.device_ = d → total ≤ buffer.length → 2 * (width * height) ≤ frame_data.length →
          ∃ out, cam.extractFrame (buffer.drop header) frame_data = .ok out := by
  have key : ∀ width height step header total : Nat,
      d.getFrameWidth = .ok width → d.getFrameHeight = .ok height →
      d._getRowStep = .ok step → d._getFrameHeaderSize = .ok header →
      d._getFrameTransferTotalSize = .ok total →
      header + 2 * ((height - 1) * (step / 2) + width) ≤ total →
      (∀ (y x : Nat) (k m : Int), y < height → x < width →
          ¬ ((y : Int) + k < 0 ∨ (y : Int) + k ≥ height ∨ (x : Int) + m < 0
              ∨ (x : Int) + m ≥ width) →
          0 ≤ ((y : Int) + k) * (step / 2 : Nat) + x + m
          ∧ header + 2 * (((y : Int) + k) * (step / 2 : Nat) + x + m).toNat + 2 ≤ total
          ∧ y * width + x < width * height)
      ∧ ∀ (cam : SeekThermalCamera) (buffer frame_data : List Byte),
          cam.device_ = d → total ≤ buffer.length → 2 * (width * height) ≤ frame_data.length →
          ∃ out, cam.extractFrame (buffer.drop header) frame_data = .ok out := by
    intro width height step header total hw hh hs _ _ hfit
    refine ⟨fun y x k m hy hx hclip => ?_, fun cam buffer frame_data hcam hbuf hout => ?_⟩
    · obtain ⟨h1, h2⟩ := neighbour_byte_position width height (step / 2) header total y x k m
        hfit hclip
      refine ⟨h1, h2, ?_⟩
      rw [Nat.mul_comm width height]
      exact pixel_index_lt width height y x hy hx
    · subst hcam
      obtain ⟨out, h, _⟩ := extractFrame_stored cam (buffer.drop header) frame_data width height
        step hw hh hs (by rw [List.length_drop]; omega) (by rw [Nat.mul_comm height width]; exact hout)
      exact ⟨out, h⟩
  rcases profile_values d ht with ⟨hw, hh, hs, hhs, htot, _⟩ | ⟨hw, hh, hs, hhs, htot, _⟩
  · exact ⟨206, 156, 416, 0, 64896, hw, hh, hs, hhs, htot,
      key 206 156 416 0 64896 hw hh hs hhs htot (by decide)⟩
  · exact ⟨320, 240, 684, 2736, 177840, hw, hh, hs, hhs, htot,
      key 320 240 684 2736 177840 hw hh hs hhs htot (by decide)⟩

/-- C27 at the Compact: pixel (205, 155), the bottom-right corner, and its neighbour
one row up and one column to the left. -/
theorem extractFrame_reads_in_bounds_witness :
    compactDevice.type.supported
    ∧ ∃ width height step header total : Nat,
      compactDevice.getFrameWidth = .ok width ∧ compactDevice.getFrameHeight = .ok height
      ∧ compactDevice._getRowStep = .ok step ∧ compactDevice._getFrameHeaderSize = .ok header
      ∧ compactDevice._getFrameTransferTotalSize = .ok total
      ∧ (∀ (y x : Nat) (k m : Int), y < height → x < width →
          ¬ ((y : Int) + k < 0 ∨ (y : Int) + k ≥ height ∨ (x : Int) + m < 0
              ∨ (x : Int) + m ≥ width) →
          0 ≤ ((y : Int) + k) * (step / 2 : Nat) + x + m
          ∧ header + 2 * (((y : Int) + k) * (step / 2 : Nat) + x + m).toNat + 2 ≤ total
          ∧ y * width + x < width * height)
      ∧ ∀ (cam : SeekThermalCamera) (buffer frame_data : List Byte),
          cam.device_ = compactDevice → total ≤ buffer.length →
          2 * (width * height) ≤ frame_data.length →
          ∃ out, cam.extractFrame (buffer.drop header) frame_data = .ok out :=
  ⟨by decide, extractFrame_reads_in_bounds compactDevice (by decide)⟩

/-! ### `applyCalibration` before the first calibration frame -/

/-- The constructor, for a model with a frame width and height. -/
theorem new_eq (device : SeekDevice) (context : Option Nat) (width height : Nat)
    (hw : device.getFrameWidth = .ok width) (hh : device.getFrameHeight = .ok height) :
    SeekThermalCamera.new device context
      = .ok { device_ := device, usb_context_ := context
              calibration_frame_ :=
                (List.replicate (width * height) [loByte 0x4000, hiByte 0x4000]).flatten } := by
  unfold SeekThermalCamera.new
  simp only [hw, hh, bind, Except.bind]

/-- Two buffers with the same 16-bit value at an offset have the same two bytes there. -/
theorem getD_eq_of_readU16LE_eq (a b : List Byte) (p : Nat)
    (h : readU16LE a p = readU16LE b p) :
    a.getD p 0 = b.getD p 0 ∧ a.getD (p + 1) 0 = b.getD (p + 1) 0 := by
  unfold readU16LE at h
  have h1 := (a.getD p 0).isLt
  have h2 := (a.getD (p + 1) 0).isLt
  have h3 := (b.getD p 0).isLt
  have h4 := (b.getD (p + 1) 0).isLt
  exact ⟨Fin.ext (by omega), Fin.ext (by omega)⟩

/-- Two buffers of the same length with the same bytes are equal. -/
theorem eq_of_getD_eq (a b : List Byte) (hl : a.length = b.length)
    (h : ∀ p, a.getD p 0 = b.getD p 0) : a = b := by
  apply List.ext_getElem hl
  intro p h1 h2
  have := h p
  rwa [List.getD_eq_getElem _ _ h1, List.getD_eq_getElem _ _ h2] at this

/-- With a reference whose `n` samples all equal the offset, `applyCalibration` returns
a frame of at least `n` samples unchanged. -/
theorem applyCalibration_identity (cam : SeekThermalCamera) (n : Nat)
    (hlen : cam.calibration_frame_.length = 2 * n)
    (hcal : ∀ i, i < n → readU16LE cam.calibration_frame_ (2 * i) = cam.offset_)
    (frame : List Byte) (hfr : 2 * n ≤ frame.length) :
    cam.applyCalibration frame = .ok frame := by
  have hn : cam.calibration_frame_.length / 2 = n := by omega
  obtain ⟨out, h1, h2, h3, h4⟩ := applyCalibration_calibrated cam frame (by omega)
  rw [hn] at h3 h4
  rw [h1]
  congr 1
  apply eq_of_getD_eq out frame h2
  intro p
  by_cases hp : 2 * n ≤ p
  · exact h4 p hp
  · have hi : p / 2 < n := by omega
    have hs := h3 (p / 2) hi
    rw [hcal _ hi] at hs
    have hlt := readU16LE_lt frame (2 * (p / 2))
    have heq : readU16LE out (2 * (p / 2)) = readU16LE frame (2 * (p / 2)) := by
      have e : ((readU16LE frame (2 * (p / 2)) : Int) + cam.offset_ - cam.offset_) % 65536
          = readU16LE frame (2 * (p / 2)) := by
        rw [Int.add_sub_cancel]
        exact Int.emod_eq_of_lt (Int.ofNat_nonneg _) (by exact_mod_cast hlt)
      rw [e] at hs
      exact_mod_cast hs
    obtain ⟨e0, e1⟩ := getD_eq_of_readU16LE_eq out frame _ heq
    rcases Nat.mod_two_eq_zero_or_one p with hm | hm
    · have : p = 2 * (p / 2) := by omega
      rw [this]; exact e0
    · have : p = 2 * (p / 2) + 1 := by omega
      rw [this]; exact e1

/-- C29: on a freshly constructed camera of a supported model the calibration
reference holds `width * height` samples, all equal to 0x4000, the offset; hence
`applyCalibration` returns every frame of at least `width * height` samples
unchanged, and does so for as long as the reference and the offset are the
constructor's. -/
theorem applyCalibration_identity_before_calibration (device : SeekDevice)
    (context : Option Nat) (ht : device.type.supported) :
    ∃ cam width height,
      SeekThermalCamera.new device context = .ok cam
      ∧ device.getFrameWidth = .ok width ∧ device.getFrameHeight = .ok height
      ∧ cam.calibration_frame_.length = 2 * (width * height)
      ∧ (∀ i, i < width * height →
          (cam.calibration_frame_.getD (2 * i) 0).val
            + 256 * (cam.calibration_frame_.getD (2 * i + 1) 0).val = 0x4000)
      ∧ ∀ later : SeekThermalCamera,
          later.calibration_frame_ = cam.calibration_frame_ → later.offset_ = cam.offset_ →
          ∀ frame : List Byte, 2 * (width * height) ≤ frame.length →
            later.applyCalibration frame = .ok frame := by
  have key : ∀ width height : Nat, device.getFrameWidth = .ok width →
      device.getFrameHeight = .ok height →
      ∃ cam, SeekThermalCamera.new device context = .ok cam
        ∧ cam.calibration_frame_.length = 2 * (width * height)
        ∧ (∀ i, i < width * height →
            (cam.calibration_frame_.getD (2 * i) 0).val
              + 256 * (cam.calibration_frame_.getD (2 * i + 1) 0).val = 0x4000)
        ∧ ∀ later : SeekThermalCamera,
            later.calibration_frame_ = cam.calibration_frame_ → later.offset_ = cam.offset_ →
            ∀ frame : List Byte, 2 * (width * height) ≤ frame.length →
              later.applyCalibration frame = .ok frame := by
    intro width height hw hh
    have hsample : ∀ i, i < width * height →
        ((List.replicate (width * height) [loByte 0x4000, hiByte 0x4000]).flatten.getD (2 * i) 0).val
          + 256 * ((List.replicate (width * height)
              [loByte 0x4000, hiByte 0x4000]).flatten.getD (2 * i + 1) 0).val = 0x4000 := by
      intro i hi
      obtain ⟨e0, e1⟩ := getD_flatten_replicate_pair (width * height) (loByte 0x4000)
        (hiByte 0x4000) i hi
      rw [e0, e1]
      rfl
    refine ⟨_, new_eq device context width height hw hh,
      length_flatten_replicate_pair _ _ _, hsample, fun later hc ho frame hfr => ?_⟩
    apply applyCalibration_identity later (width * height)
    · rw [hc]; exact length_flatten_replicate_pair _ _ _
    · intro i hi
      rw [hc, ho]
      exact hsample i hi
    · exact hfr
  rcases profile_values device ht with ⟨hw, hh, _⟩ | ⟨hw, hh, _⟩
  · obtain ⟨cam, h⟩ := key 206 156 hw hh
    exact ⟨cam, 206, 156, h.1, hw, hh, h.2⟩
  · obtain ⟨cam, h⟩ := key 320 240 hw hh
    exact ⟨cam, 320, 240, h.1, hw, hh, h.2⟩

/-- C29 at the Compact: the constructor's camera returns the zeroed image unchanged. -/
theorem applyCalibration_identity_before_calibration_witness :
    compactCamera.applyCalibration blankImage = .ok blankImage := by
  obtain ⟨cam, width, height, hnew, hw, hh, _, _, hid⟩ :=
    applyCalibration_identity_before_calibration compactDevice none (by decide)
  have e1 : cam = compactCamera := by
    rw [new_compact] at hnew
    injection hnew with hnew
    exact hnew.symm
  have e2 : width = 206 := by
    have h : (Except.ok 206 : Except Fault Nat) = .ok width := hw
    injection h with h; exact h.symm
  have e3 : height = 156 := by
    have h : (Except.ok 156 : Except Fault Nat) = .ok height := hh
    injection h with h; exact h.symm
  subst e1 e2 e3
  exact hid compactCamera rfl rfl blankImage (le_of_le_of_eq (by decide) blankImage_length.symm)

/-! ### `extractFrame`: output range and dead-pixel fill -/

/-- Weighted sums: if every term of `f` lies between `lo` and `hi` times the
corresponding weight, so does the total. -/
theorem sum_map_between {α : Type} (l : List α) (f g : α → Nat) (lo hi : Nat)
    (h : ∀ a ∈ l, lo * g a ≤ f a ∧ f a ≤ hi * g a) :
    lo * (l.map g).sum ≤ (l.map f).sum ∧ (l.map f).sum ≤ hi * (l.map g).sum := by
  induction l with
  | nil => simp
  | cons a l ih =>
    have ha := h a (List.mem_cons_self a l)
    have hl := ih (fun b hb => h b (List.mem_cons_of_mem a hb))
    simp only [List.map_cons, List.sum_cons, Nat.mul_add]
    omega

/-- If every contributing neighbour of a pixel has a value between `lo` and `hi`, the
weighted sum lies between `lo * count` and `hi * count`. -/
theorem specSum_between (W H RS : Nat) (data : List Byte) (y x lo hi : Nat)
    (h : ∀ e ∈ specWeights, specContributes W H RS data y x e.1 e.2.1 →
      lo ≤ specSample RS data y x e.1 e.2.1 ∧ specSample RS data y x e.1 e.2.1 ≤ hi) :
    lo * specCount W H RS data y x ≤ specSum W H RS data y x
    ∧ specSum W H RS data y x ≤ hi * specCount W H RS data y x := by
  unfold specSum specCount
  apply sum_map_between
  intro e he
  by_cases hc : specContributes W H RS data y x e.1 e.2.1
  · rw [if_pos hc, if_pos hc]
    obtain ⟨h1, h2⟩ := h e he hc
    exact ⟨Nat.mul_le_mul_right _ h1, Nat.mul_le_mul_right _ h2⟩
  · rw [if_neg hc, if_neg hc]
    omega

/-- If some neighbour contributes and every contributing neighbour has a value between
`lo` and `hi`, the floored weighted average lies between `lo` and `hi`. -/
theorem flooredAverage_between (W H RS : Nat) (data : List Byte) (y x lo hi : Nat)
    (hex : ∃ e ∈ specWeights, specContributes W H RS data y x e.1 e.2.1)
    (h : ∀ e ∈ specWeights, specContributes W H RS data y x e.1 e.2.1 →
      lo ≤ specSample RS data y x e.1 e.2.1 ∧ specSample RS data y x e.1 e.2.1 ≤ hi) :
    lo ≤ flooredAverage W H RS data y x ∧ flooredAverage W H RS data y x ≤ hi := by
  obtain ⟨e, he, hc⟩ := hex
  have hne : specCount W H RS data y x ≠ 0 := fun h0 =>
    (specCount_eq_zero_iff W H RS data y x).mp h0 e he hc
  obtain ⟨h1, h2⟩ := specSum_between W H RS data y x lo hi h
  unfold flooredAverage
  rw [if_neg hne]
  constructor
  · exact (Nat.le_div_iff_mul_le (by omega)).mpr h1
  · exact Nat.div_le_of_le_mul (by rw [Nat.mul_comm]; exact h2)

/-- C28: `extractFrame` on a raw pixel region of `height` rows and an output of
`width * height` samples.  For every output pixel the two inner loops end with a sum
and a count such that the sum is 0 exactly when the count is 0, which is exactly when
no in-bounds neighbour is valid (so the division is never by zero); the output is 0
exactly in that case; otherwise it is `sum / count`, lies between every lower and
every upper bound of the valid in-bounds neighbour values (so between the smallest and
the largest of them), and hence lies in `[1, 0xFFFE]`. -/
theorem extractFrame_output_range (cam : SeekThermalCamera) (data frame_data : List Byte)
    (width height step : Nat)
    (hw : cam.device_.getFrameWidth = .ok width)
    (hh : cam.device_.getFrameHeight = .ok height)
    (hs : cam.device_._getRowStep = .ok step)
    (hdata : 2 * ((height - 1) * (step / 2) + width) ≤ data.length)
    (hout : 2 * (height * width) ≤ frame_data.length) :
    ∃ out, cam.extractFrame data frame_data = .ok out
      ∧ ∀ y x, y < height → x < width →
        ∃ sum count : Nat,
          SeekThermalCamera.extractFrame_accumulate width height (step / 2 : Nat) data y x
            = .ok ((sum : Int), (count : Int))
          ∧ (sum = 0 ↔ count = 0)
          ∧ (count = 0 ↔
              ∀ e ∈ specWeights, ¬ specContributes width height (step / 2) data y x e.1 e.2.1)
          ∧ (readU16LE out (2 * (y * width + x)) = 0 ↔
              ∀ e ∈ specWeights, ¬ specContributes width height (step / 2) data y x e.1 e.2.1)
          ∧ (count ≠ 0 → readU16LE out (2 * (y * width + x)) = sum / count)
          ∧ (count ≠ 0 → ∀ lo hi : Nat,
              (∀ e ∈ specWeights, specContributes width height (step / 2) data y x e.1 e.2.1 →
                lo ≤ specSample (step / 2) data y x e.1 e.2.1
                ∧ specSample (step / 2) data y x e.1 e.2.1 ≤ hi) →
              lo ≤ readU16LE out (2 * (y * width + x))
              ∧ readU16LE out (2 * (y * width + x)) ≤ hi)
          ∧ (count ≠ 0 → 1 ≤ readU16LE out (2 * (y * width + x))
              ∧ readU16LE out (2 * (y * width + x)) ≤ 0xFFFE) := by
  obtain ⟨out, h1, _, h2, _⟩ :=
    extractFrame_stored cam data frame_data width height step hw hh hs hdata hout
  refine ⟨out, h1, fun y x hy hx => ?_⟩
  have hpix := h2 y x hx (pixel_index_lt width height y x hy hx)
  have hacc := extractFrame_accumulate_eq width height (step / 2) data y x
    (fun k m hin => neighbour_index_safe width height (step / 2) data y x k m hdata hin)
  have hb := specSum_bounds width height (step / 2) data y x
  have hzero := specCount_eq_zero_iff width height (step / 2) data y x
  have hex : specCount width height (step / 2) data y x ≠ 0 →
      ∃ e ∈ specWeights, specContributes width height (step / 2) data y x e.1 e.2.1 := by
    intro hne
    by_contra hcon
    exact hne (hzero.mpr fun e he hc => hcon ⟨e, he, hc⟩)
  have hrange : specCount width height (step / 2) data y x ≠ 0 → ∀ lo hi : Nat,
      (∀ e ∈ specWeights, specContributes width height (step / 2) data y x e.1 e.2.1 →
        lo ≤ specSample (step / 2) data y x e.1 e.2.1
        ∧ specSample (step / 2) data y x e.1 e.2.1 ≤ hi) →
      lo ≤ readU16LE out (2 * (y * width + x))
      ∧ readU16LE out (2 * (y * width + x)) ≤ hi := by
    intro hne lo hi hbound
    rw [hpix]
    exact flooredAverage_between width height (step / 2) data y x lo hi (hex hne) hbound
  have hvalid : specCount width height (step / 2) data y x ≠ 0 →
      1 ≤ readU16LE out (2 * (y * width + x))
      ∧ readU16LE out (2 * (y * width + x)) ≤ 0xFFFE := by
    intro hne
    apply hrange hne 1 0xFFFE
    intro e _ hc
    have hlt := readU16LE_lt data (2 * (((y : Int) + e.1) * (step / 2 : Nat) + x + e.2.1).toNat)
    obtain ⟨_, h0, hf⟩ := hc
    unfold specSample at *
    omega
  refine ⟨specSum width height (step / 2) data y x, specCount width height (step / 2) data y x,
    hacc, ⟨fun h => by omega, fun h => by omega⟩, hzero, ?_, fun hne => ?_, hrange, hvalid⟩
  · constructor
    · intro h0
      by_contra hcon
      have hne : specCount width height (step / 2) data y x ≠ 0 := fun hc => hcon (hzero.mp hc)
      have := (hvalid hne).1
      omega
    · intro hnone
      rw [hpix, flooredAverage, if_pos (hzero.mpr hnone)]
  · rw [hpix, flooredAverage, if_neg hne]

set_option maxRecDepth 8000 in
/-- C28 at the Compact, on the raw frame `roundingRaw` and its pixel (0, 0): two valid
neighbours with the values 1 and 3, stored value between 1 and 3. -/
theorem extractFrame_output_range_witness :
    ∃ out, compactCamera.extractFrame roundingRaw blankImage = .ok out
      ∧ 1 ≤ readU16LE out 0 ∧ readU16LE out 0 ≤ 3 := by
  obtain ⟨out, h1, h2⟩ := extractFrame_output_range compactCamera roundingRaw blankImage
    206 156 416 rfl rfl rfl
    (le_of_le_of_eq (by decide) roundingRaw_length.symm)
    (le_of_le_of_eq (by decide) blankImage_length.symm)
  obtain ⟨sum, count, hacc, _, hcz, _, _, hrange, _⟩ := h2 0 0 (by decide) (by decide)
  have hne : count ≠ 0 := by
    intro h0
    exact (hcz.mp h0) (0, 0, 4) centre_mem_specWeights (by decide)
  exact ⟨out, h1, hrange hne 1 3 (by decide)⟩

/-- The raw value of the neighbour `(y + k, x + m)` when that is row `r`, column `c`. -/
theorem neighbour_sample (RS : Nat) (data : List Byte) (y x : Nat) (k m : Int) (r c : Nat)
    (hr : (y : Int) + k = r) (hc : (x : Int) + m = c) :
    specSample RS data y x k m = readU16LE data (2 * (r * RS + c)) := by
  have e : (((y : Int) + k) * RS + x + m) = ((r * RS + c : Nat) : Int) := by
    rw [hr]; push_cast; omega
  unfold specSample
  rw [e, Int.toNat_ofNat]

/-- Every model's frame is at least two pixels wide. -/
theorem frameWidth_ge_two (d : SeekDevice) (width : Nat) (hw : d.getFrameWidth = .ok width) :
    2 ≤ width := by
  unfold SeekDevice.getFrameWidth at hw
  split at hw
  · injection hw with hw; omega
  · split at hw
    · injection hw with hw; omega
    · exact nomatch hw

/-- On a frame whose every image sample is `V` or invalid, the floored weighted
average of a pixel with at least one valid in-bounds neighbour is `V`. -/
theorem flooredAverage_fill (W H RS : Nat) (data : List Byte) (V : Nat)
    (hval : ∀ r c, r < H → c < W → readU16LE data (2 * (r * RS + c)) = V
      ∨ readU16LE data (2 * (r * RS + c)) = 0 ∨ readU16LE data (2 * (r * RS + c)) = 0xFFFF)
    (y x : Nat)
    (hex : ∃ e ∈ specWeights, specContributes W H RS data y x e.1 e.2.1) :
    flooredAverage W H RS data y x = V := by
  have h := flooredAverage_between W H RS data y x V V hex (by
    intro e _ hc
    obtain ⟨r, c, hr, hcw, hs⟩ := specSample_inBounds W H RS data y x e.1 e.2.1 hc.1
    obtain ⟨_, h0, hf⟩ := hc
    rw [hs] at h0 hf ⊢
    rcases hval r c hr hcw with hv | hv | hv
    · omega
    · exact absurd hv h0
    · exact absurd hv hf)
  omega

/-- C23: for every model and every value `V` with `1 ≤ V ≤ 0xFFFE`, if every raw
sample of the image region equals `V` except the one at row `bad_y`, column `bad_x`,
which is 0 or 0xFFFF, then `extractFrame` stores `V` in every output pixel, the pixel
at the position of the bad sample included. -/
theorem extractFrame_dead_pixel_fill (cam : SeekThermalCamera) (data frame_data : List Byte)
    (width height step V bad_y bad_x : Nat)
    (hw : cam.device_.getFrameWidth = .ok width)
    (hh : cam.device_.getFrameHeight = .ok height)
    (hs : cam.device_._getRowStep = .ok step)
    (hdata : 2 * ((height - 1) * (step / 2) + width) ≤ data.length)
    (hout : 2 * (height * width) ≤ frame_data.length)
    (hV1 : 1 ≤ V) (hV2 : V ≤ 0xFFFE)
    (hbad : (data.getD (2 * (bad_y * (step / 2) + bad_x)) 0).val
        + 256 * (data.getD (2 * (bad_y * (step / 2) + bad_x) + 1) 0).val = 0
      ∨ (data.getD (2 * (bad_y * (step / 2) + bad_x)) 0).val
        + 256 * (data.getD (2 * (bad_y * (step / 2) + bad_x) + 1) 0).val = 0xFFFF)
    (hrest : ∀ r c, r < height → c < width → ¬ (r = bad_y ∧ c = bad_x) →
      (data.getD (2 * (r * (step / 2) + c)) 0).val
        + 256 * (data.getD (2 * (r * (step / 2) + c) + 1) 0).val = V) :
    ∃ out, cam.extractFrame data frame_data = .ok out
      ∧ ∀ y x, y < height → x < width →
          (out.getD (2 * (y * width + x)) 0).val
            + 256 * (out.getD (2 * (y * width + x) + 1) 0).val = V := by
  obtain ⟨out, h1, _, h2, _⟩ :=
    extractFrame_stored cam data frame_data width height step hw hh hs hdata hout
  refine ⟨out, h1, fun y x hy hx => ?_⟩
  have hW := frameWidth_ge_two cam.device_ width hw
  have hval : ∀ r c, r < height → c < width →
      readU16LE data (2 * (r * (step / 2) + c)) = V
      ∨ readU16LE data (2 * (r * (step / 2) + c)) = 0
      ∨ readU16LE data (2 * (r * (step / 2) + c)) = 0xFFFF := by
    intro r c hr hc
    by_cases hb : r = bad_y ∧ c = bad_x
    · obtain ⟨rfl, rfl⟩ := hb
      exact Or.inr hbad
    · exact Or.inl (hrest r c hr hc hb)
  -- a valid in-bounds neighbour of the pixel: itself, or the pixel next to it
  have hgood : ∀ (k m : Int) (w : Nat) (r c : Nat), (k, m, w) ∈ specWeights →
      (y : Int) + k = r → (x : Int) + m = c → r < height → c < width →
      ¬ (r = bad_y ∧ c = bad_x) →
      ∃ e ∈ specWeights, specContributes width height (step / 2) data y x e.1 e.2.1 := by
    intro k m w r c hmem hr hc hrH hcW hb
    have hsv : specSample (step / 2) data y x k m = V := by
      rw [neighbour_sample (step / 2) data y x k m r c hr hc]
      exact hrest r c hrH hcW hb
    have hin : specInBounds width height y x k m := by
      unfold specInBounds
      omega
    exact ⟨(k, m, w), hmem, ⟨hin, by rw [hsv]; omega, by rw [hsv]; omega⟩⟩
  have hex : ∃ e ∈ specWeights, specContributes width height (step / 2) data y x e.1 e.2.1 := by
    by_cases hb : y = bad_y ∧ x = bad_x
    · by_cases hx1 : x + 1 < width
      · exact hgood 0 1 2 y (x + 1) (by decide) (by omega) (by push_cast; omega) hy hx1
          (by omega)
      · exact hgood 0 (-1) 2 y (x - 1) (by decide) (by omega) (by omega) hy (by omega)
          (by omega)
    · exact hgood 0 0 4 y x (by decide) (by omega) (by omega) hy hx hb
  have := h2 y x hx (pixel_index_lt width height y x hy hx)
  rw [flooredAverage_fill width height (step / 2) data V hval y x hex] at this
  exact this

theorem deadPixelRaw_length : deadPixelRaw.length = 64896 := by
  unfold deadPixelRaw
  rw [List.length_append, length_flatten_replicate_pair]
  rfl

theorem deadPixelRaw_sample (r c : Nat) (hr : r < 156) (hc : c < 206)
    (hb : ¬ (r = 0 ∧ c = 0)) :
    (deadPixelRaw.getD (2 * (r * (416 / 2) + c)) 0).val
      + 256 * (deadPixelRaw.getD (2 * (r * (416 / 2) + c) + 1) 0).val = 5 := by
  obtain ⟨i, hi⟩ : ∃ i, r * (416 / 2) + c = i + 1 := ⟨r * (416 / 2) + c - 1, by omega⟩
  have hlt : i < 32447 := by omega
  obtain ⟨h1, h2⟩ := getD_flatten_replicate_pair 32447 5 0 i hlt
  have e1 : 2 * (i + 1) = (2 * i + 1) + 1 := by omega
  have e2 : 2 * (i + 1) + 1 = (2 * i + 1 + 1) + 1 := by omega
  rw [hi]
  unfold deadPixelRaw
  rw [e2, e1]
  simp only [List.cons_append, List.nil_append, List.getD_cons_succ]
  rw [h1, h2]
  rfl

/-- C23 at the Compact: a frame of samples 5 whose sample (0, 0) is dead. -/
theorem extractFrame_dead_pixel_fill_witness :
    ∃ out, compactCamera.extractFrame deadPixelRaw blankImage = .ok out
      ∧ ∀ y x, y < 156 → x < 206 →
          (out.getD (2 * (y * 206 + x)) 0).val
            + 256 * (out.getD (2 * (y * 206 + x) + 1) 0).val = 5 :=
  extractFrame_dead_pixel_fill compactCamera deadPixelRaw blankImage 206 156 416 5 0 0
    rfl rfl rfl
    (le_of_le_of_eq (by decide) deadPixelRaw_length.symm)
    (le_of_le_of_eq (by decide) blankImage_length.symm) (by decide) (by decide)
    (Or.inl (by decide))
    (fun r c hr hc hb => deadPixelRaw_sample r c hr hc hb)

/-! ### `getSeekDevice`: classification -/

theorem serialDescriptor_eq (device : UsbDeviceInfo) :
    (if device.iSerialNumber ≠ 0 then (device.strings device.iSerialNumber).getD "" else "")
      = serialDescriptor device := by
  unfold serialDescriptor
  by_cases h : device.iSerialNumber = 0
  · rw [if_neg (by simpa using h), if_pos h]
  · rw [if_pos h, if_neg h]

/-- The empty string contains none of the three product names. -/
theorem containsString_empty :
    containsString "" "PIR206 Thermal Camera" = false
    ∧ containsString "" "PIR324 Thermal Camera" = false
    ∧ containsString "" "Nano300" = false := by decide

/-- The identity `getSeekDevice` returns for a device of vendor 0x289D whose
descriptor can be read, in terms of the product string read. -/
theorem getSeekDevice_of_vendor (usb : Usb) (i : Nat) (device : UsbDeviceInfo)
    (hdesc : 0 ≤ device.descriptor_result) (hvendor : device.idVendor = 0x289d) :
    (getSeekDevice usb i device).1
      = if device.idProduct = 0x0010 then
          if containsString (productString device) "PIR206 Thermal Camera" then
            { type := .SeekThermalCompact, serial := ""
              usb_port := bus_and_port_numbers_to_string device }
          else {}
        else if device.idProduct = 0x0011 then
          if containsString (productString device) "PIR324 Thermal Camera" then
            { type := .SeekThermalCompactPro, serial := serialDescriptor device
              usb_port := bus_and_port_numbers_to_string device }
          else if containsString (productString device) "Nano300" then
            { type := .SeekThermalNano300, serial := serialDescriptor device
              usb_port := bus_and_port_numbers_to_string device }
          else {}
        else {} := by
  obtain ⟨e1, e2, e3⟩ := containsString_empty
  rw [getSeekDevice_fst_eq, if_neg (by omega), if_neg (by simpa using hvendor)]
  unfold productString
  by_cases h3 : device.iProduct = 0
  · rw [if_pos h3, if_pos (Or.inl h3), e1, e2, e3]
    simp only [Bool.false_eq_true, if_false, ite_self]
  · rw [if_neg h3]
    by_cases hopen : device.open_result < 0
    · rw [if_pos hopen, if_pos hopen, if_pos (Or.inr hopen), e1, e2, e3]
      simp only [Bool.false_eq_true, if_false, ite_self]
    · have hno : ¬ (device.iProduct = 0 ∨ device.open_result < 0) := by
        rintro (h | h)
        · exact h3 h
        · exact hopen h
      rw [if_neg hopen, if_neg hopen, if_neg hno, serialDescriptor_eq]
      by_cases hempty : ((device.strings device.iProduct).getD "").isEmpty = true
      · rw [if_pos hempty, if_pos hempty, (string_isEmpty_iff _).mp hempty, e1, e2, e3]
        simp only [Bool.false_eq_true, if_false, ite_self]
      · rw [if_neg hempty, if_neg hempty]

/-- C25: the identity `getSeekDevice` resolves, as a function of the descriptor fields
and the strings read.  A device whose descriptor cannot be read or whose vendor ID is
not 0x289D resolves to `None`.  With vendor 0x289D, product ID 0x0010 resolves to the
Compact (empty serial) if the product string contains "PIR206 Thermal Camera" and to
`None` otherwise; product ID 0x0011 resolves to the CompactPro if the product string
contains "PIR324 Thermal Camera", otherwise to the Nano300 if it contains "Nano300",
both with the serial descriptor, and to `None` otherwise; every other product ID
resolves to `None`; and an empty product string always resolves to `None`.  The
function returns in every case. -/
theorem getSeekDevice_classification (usb : Usb) (i : Nat) (device : UsbDeviceInfo) :
    (device.descriptor_result < 0 ∨ device.idVendor ≠ 0x289d →
      (getSeekDevice usb i device).1 = {})
    ∧ (0 ≤ device.descriptor_result → device.idVendor = 0x289d →
        (device.idProduct = 0x0010 →
          ((getSeekDevice usb i device).1.type = .SeekThermalCompact
            ↔ containsString (productString device) "PIR206 Thermal Camera" = true)
          ∧ (containsString (productString device) "PIR206 Thermal Camera" = true →
              (getSeekDevice usb i device).1
                = { type := .SeekThermalCompact, serial := ""
                    usb_port := bus_and_port_numbers_to_string device })
          ∧ (containsString (productString device) "PIR206 Thermal Camera" = false →
              (getSeekDevice usb i device).1 = {}))
        ∧ (device.idProduct = 0x0011 →
          ((getSeekDevice usb i device).1.type = .SeekThermalCompactPro
            ↔ containsString (productString device) "PIR324 Thermal Camera" = true)
          ∧ (containsString (productString device) "PIR324 Thermal Camera" = true →
              (getSeekDevice usb i device).1
                = { type := .SeekThermalCompactPro, serial := serialDescriptor device
                    usb_port := bus_and_port_numbers_to_string device })
          ∧ (containsString (productString device) "PIR324 Thermal Camera" = false →
              ((getSeekDevice usb i device).1.type = .SeekThermalNano300
                ↔ containsString (productString device) "Nano300" = true)
              ∧ (containsString (productString device) "Nano300" = true →
                  (getSeekDevice usb i device).1
                    = { type := .SeekThermalNano300, serial := serialDescriptor device
                        usb_port := bus_and_port_numbers_to_string device })
              ∧ (containsString (productString device) "Nano300" = false →
                  (getSeekDevice usb i device).1 = {})))
        ∧ (device.idProduct ≠ 0x0010 → device.idProduct ≠ 0x0011 →
            (getSeekDevice usb i device).1 = {}))
    ∧ (productString device = "" → (getSeekDevice usb i device).1 = {}) := by
  obtain ⟨e1, e2, e3⟩ := containsString_empty
  have hN1 : SeekDeviceType.None = SeekDeviceType.SeekThermalCompact ↔ false = true := by
    decide
  have hN2 : SeekDeviceType.None = SeekDeviceType.SeekThermalCompactPro ↔ false = true := by
    decide
  have hN3 : SeekDeviceType.SeekThermalNano300 = SeekDeviceType.SeekThermalCompactPro
      ↔ false = true := by decide
  have hN4 : SeekDeviceType.None = SeekDeviceType.SeekThermalNano300 ↔ false = true := by
    decide
  have hnone : device.descriptor_result < 0 ∨ device.idVendor ≠ 0x289d →
      (getSeekDevice usb i device).1 = {} := by
    intro h
    rw [getSeekDevice_fst_eq]
    by_cases hd : device.descriptor_result < 0
    · rw [if_pos hd]
    · rw [if_neg hd, if_pos (h.resolve_left hd)]
  refine ⟨hnone, fun hdesc hvendor => ?_, fun hempty => ?_⟩
  · have hv := getSeekDevice_of_vendor usb i device hdesc hvendor
    refine ⟨fun hp => ?_, fun hp => ?_, fun hp1 hp2 => ?_⟩
    · rw [if_pos hp] at hv
      refine ⟨?_, fun hc => ?_, fun hc => ?_⟩
      · cases hc : containsString (productString device) "PIR206 Thermal Camera"
        · rw [hc] at hv
          rw [hv]
          exact hN1
        · rw [hc] at hv
          rw [hv]
          exact ⟨fun _ => rfl, fun _ => rfl⟩
      · rw [hv, if_pos hc]
      · rw [hv, hc]
        rfl
    · have hp' : ¬ device.idProduct = 0x0010 := by omega
      rw [if_neg hp', if_pos hp] at hv
      refine ⟨?_, fun hc => ?_, fun hc => ⟨?_, fun hn => ?_, fun hn => ?_⟩⟩
      · cases hc : containsString (productString device) "PIR324 Thermal Camera"
        · cases hn : containsString (productString device) "Nano300"
          · rw [hc, hn] at hv
            rw [hv]
            exact hN2
          · rw [hc, hn] at hv
            rw [hv]
            exact hN3
        · rw [hc] at hv
          rw [hv]
          exact ⟨fun _ => rfl, fun _ => rfl⟩
      · rw [hv, if_pos hc]
      · rw [hc] at hv
        cases hn : containsString (productString device) "Nano300"
        · rw [hn] at hv
          rw [hv]
          exact hN4
        · rw [hn] at hv
          rw [hv]
          exact ⟨fun _ => rfl, fun _ => rfl⟩
      · rw [hv, hc, if_pos hn]
        rfl
      · rw [hv, hc, hn]
        rfl
    · rw [hv, if_neg hp1, if_neg hp2]
  · by_cases hd : device.descriptor_result < 0 ∨ device.idVendor ≠ 0x289d
    · exact hnone hd
    · have hdesc : 0 ≤ device.descriptor_result := by
        by_contra h
        exact hd (Or.inl (by omega))
      have hvendor : device.idVendor = 0x289d := by
        by_contra h
        exact hd (Or.inr h)
      rw [getSeekDevice_of_vendor usb i device hdesc hvendor, hempty, e1, e2, e3]
      simp only [Bool.false_eq_true, if_false, ite_self]

/-- C25 at an attached Nano300 with serial "N300A" on bus 1, ports 3.1. -/
theorem getSeekDevice_classification_witness :
    (getSeekDevice twoCameraUsb 1 nano300OnBus).1
      = { type := .SeekThermalNano300, serial := "N300A", usb_port := "1-3.1" } :=
  (((getSeekDevice_classification twoCameraUsb 1 nano300OnBus).2.1 (by decide) (by decide)).2.1
    (by decide)).2.2 (by decide) |>.2.1 (by decide) |>.trans (by decide)

/-! ### Frame capture: the bulk loop stays inside the buffer -/

theorem received_succ_length (m : Nat) :
    ∀ bulk : Nat → BulkReply,
      (received bulk (m + 1)).length = (received bulk m).length + (bulk m).data.length := by
  induction m with
  | zero => intro bulk; simp [received]
  | succ m ih =>
    intro bulk
    rw [received, List.length_append, ih (fun n => bulk (n + 1)), received, List.length_append]
    omega

/-- C26: `_grabRawFrame` on an open session of a supported model with a buffer of at
least the total transfer size (or none, so that one is allocated), libusb never
delivering more than the requested chunk.  The total transfer size is an exact
multiple of the chunk size.  The call returns, so no bulk transfer stored bytes outside
the buffer and the loop ended; it issued `n` bulk transfers with `n ≤ total / chunk`;
before each of them the bytes already received are a whole number of chunks and leave
room for one more chunk within the total; and the bytes received never exceed the
total, so the remaining-bytes counter `total - received` never becomes negative. -/
theorem grabRawFrame_within_buffer (cam : SeekThermalCamera) (usb : Usb)
    (frame_data : Option (List Byte)) (size total request devreq : Nat)
    (hsupp : cam.device_.type.supported)
    (hopen : cam.usb_device_handle_ ≠ none)
    (htotal : cam.device_._getFrameTransferTotalSize = .ok total)
    (hreq : cam.device_._getFrameTransferRequestSize = .ok request)
    (hdev : cam.device_._getFrameTransferDeviceRequestSize = .ok devreq)
    (hbuf : ∀ b, frame_data = some b → total ≤ size ∧ total ≤ b.length)
    (hlib : ∀ n, (usb.bulk n).data.length ≤ request) :
    0 < request ∧ total % request = 0
    ∧ ∃ r n, cam._grabRawFrame usb frame_data size = .ok r
        ∧ r.usb.calls = usb.calls ++ [startTransferCall devreq]
            ++ List.replicate n (frameBulkCall request)
        ∧ n ≤ total / request
        ∧ (∀ j, j < n → (received usb.bulk j).length = j * request
            ∧ (received usb.bulk j).length + request ≤ total)
        ∧ (∀ j, j ≤ n → (received usb.bulk j).length ≤ total) := by
  obtain ⟨hR, hmul⟩ := transfer_profile cam.device_ total request hsupp htotal hreq
  have hmod : total % request = 0 := by
    rw [hmul]
    exact Nat.mul_mod_left _ _
  refine ⟨hR, hmod, ?_⟩
  generalize hchunks : total / request = chunks at hmul ⊢
  subst hmul
  -- reduce to a caller-supplied buffer
  obtain ⟨b, size', hsize, hlen, hcall⟩ : ∃ b size', chunks * request ≤ size'
      ∧ chunks * request ≤ b.length
      ∧ cam._grabRawFrame usb frame_data size = cam._grabRawFrame usb (some b) size' := by
    cases frame_data with
    | none =>
      exact ⟨List.replicate (chunks * request) 0, chunks * request, le_refl _,
        by rw [List.length_replicate], grabRawFrame_allocate cam usb size _ hopen htotal⟩
    | some b => exact ⟨b, size, (hbuf b rfl).1, (hbuf b rfl).2, rfl⟩
  rw [hcall]
  have hle : ∀ j, j ≤ chunks → j * request ≤ chunks * request := fun j hj =>
    Nat.mul_le_mul_right request hj
  by_cases hst : (usb.control 0).transferred = 4
  · by_cases hall : ∀ n, n < chunks → fullChunk request (usb.bulk n)
    · obtain ⟨usb', h1, h2, _, _⟩ := grabRawFrame_success cam usb b size' chunks request devreq
        hopen htotal hreq hdev hR hsize hlen hst hall
      have hrl : ∀ j, j ≤ chunks → (received usb.bulk j).length = j * request := fun j hj =>
        received_length request j usb.bulk (fun n hn => hall n (by omega))
      refine ⟨_, chunks, h1, h2, le_refl _, fun j hj => ?_, fun j hj => ?_⟩
      · have := hle (j + 1) (by omega)
        rw [Nat.add_mul, Nat.one_mul] at this
        exact ⟨hrl j (by omega), by rw [hrl j (by omega)]; exact this⟩
      · rw [hrl j hj]
        exact hle j hj
    · have hex : ∃ k, k < chunks ∧ ¬ fullChunk request (usb.bulk k) := by
        by_contra hne
        exact hall (fun n hn => by_contra fun hb => hne ⟨n, hn, hb⟩)
      classical
      have hk0 := Nat.find_spec hex
      have hmin : ∀ n, n < Nat.find hex → fullChunk request (usb.bulk n) := fun n hn =>
        by_contra fun hb => Nat.find_min hex hn ⟨by omega, hb⟩
      obtain ⟨usb', b', h1, h2, _⟩ := grabRawFrame_incomplete cam usb b size' chunks request
        devreq (Nat.find hex) hopen htotal hreq hdev hR hsize hlen hst hk0.1 hmin hk0.2
        (hlib _)
      generalize Nat.find hex = k at hk0 hmin h1 h2
      have hrl : ∀ j, j ≤ k → (received usb.bulk j).length = j * request := fun j hj =>
        received_length request j usb.bulk (fun n hn => hmin n (by omega))
      have hk1 := hle (k + 1) (by omega)
      rw [Nat.add_mul, Nat.one_mul] at hk1
      refine ⟨_, k + 1, h1, h2, by omega, fun j hj => ?_, fun j hj => ?_⟩
      · have := hle (j + 1) (by omega)
        rw [Nat.add_mul, Nat.one_mul] at this
        exact ⟨hrl j (by omega), by rw [hrl j (by omega)]; exact this⟩
      · rcases Nat.lt_or_ge j (k + 1) with hlt | hge
        · rw [hrl j (by omega)]
          exact hle j (by omega)
        · have hjk : j = k + 1 := by omega
          subst hjk
          rw [received_succ_length, hrl k (le_refl _)]
          have := hlib k
          omega
  · refine ⟨{ result := .FAILED_TO_START_TRANSFER, frame_data := some b, size := size',
              usb := (usb.control_transfer 0x41 83 (le32Bytes devreq)).2 }, 0, ?_,
      by rw [List.replicate_zero, List.append_nil]; rfl,
      Nat.zero_le _, fun j hj => absurd hj (by omega), fun j hj => ?_⟩
    · rw [grabRawFrame_open cam usb b size' _ request devreq hopen htotal hreq hdev hsize,
        if_neg hst]
    · have hj0 : j = 0 := by omega
      subst hj0
      simp [received]

/-- C26 at an open Compact camera and a device that delivers full chunks: the call
returns after at most four bulk transfers. -/
theorem grabRawFrame_within_buffer_witness :
    ∃ r n, compactCameraOpen._grabRawFrame steadyUsb none 0 = .ok r
      ∧ r.usb.calls = [startTransferCall 32448] ++ List.replicate n (frameBulkCall 16224)
      ∧ n ≤ 64896 / 16224 := by
  obtain ⟨_, _, r, n, h1, h2, h3, _⟩ := grabRawFrame_within_buffer compactCameraOpen steadyUsb
    none 0 64896 16224 32448 (by decide) (by decide) rfl rfl rfl (fun b h => nomatch h)
    (fun n => le_of_eq (List.length_replicate _ _))
  exact ⟨r, n, h1, h2, h3⟩

/-! ### Frame capture: `grabFrame` in general -/

/-- `extractFrame` reads the device profile only. -/
theorem extractFrame_congr (c1 c2 : SeekThermalCamera) (h : c1.device_ = c2.device_)
    (data fd : List Byte) : c1.extractFrame data fd = c2.extractFrame data fd := by
  unfold SeekThermalCamera.extractFrame
  rw [h]

/-- `applyCalibration` reads the calibration reference and the offset only. -/
theorem applyCalibration_congr (c1 c2 : SeekThermalCamera)
    (h : c1.calibration_frame_ = c2.calibration_frame_) (ho : c1.offset_ = c2.offset_)
    (fd : List Byte) : c1.applyCalibration fd = c2.applyCalibration fd := by
  unfold SeekThermalCamera.applyCalibration
  rw [h, ho]

/-- `_grabRawFrame` on an open session of a supported model with a buffer of at least
the total transfer size, libusb never delivering more than the requested chunk: it
returns; the result is `SUCCESS` exactly when the start-transfer write is accepted and
every chunk arrives in full, and then the buffer starts with the bytes received. -/
theorem grabRawFrame_cases (cam : SeekThermalCamera) (usb : Usb) (b : List Byte)
    (size chunks request devreq : Nat)
    (hopen : cam.usb_device_handle_ ≠ none)
    (htotal : cam.device_._getFrameTransferTotalSize = .ok (chunks * request))
    (hreq : cam.device_._getFrameTransferRequestSize = .ok request)
    (hdev : cam.device_._getFrameTransferDeviceRequestSize = .ok devreq)
    (hR : 0 < request) (hsize : chunks * request ≤ size) (hlen : chunks * request ≤ b.length)
    (hlib : ∀ n, (usb.bulk n).data.length ≤ request) :
    ∃ r, cam._grabRawFrame usb (some b) size = .ok r
      ∧ (r.result = .SUCCESS ↔
          (usb.control 0).transferred = 4 ∧ ∀ n, n < chunks → fullChunk request (usb.bulk n))
      ∧ (r.result = .SUCCESS →
          r.frame_data = some (received usb.bulk chunks ++ b.drop (chunks * request)))
      ∧ ∃ b', r.frame_data = some b' ∧ b'.length = b.length := by
  by_cases hst : (usb.control 0).transferred = 4
  · by_cases hall : ∀ n, n < chunks → fullChunk request (usb.bulk n)
    · obtain ⟨usb', h1, _⟩ := grabRawFrame_success cam usb b size chunks request devreq
        hopen htotal hreq hdev hR hsize hlen hst hall
      have hrl := received_length request chunks usb.bulk hall
      refine ⟨_, h1, ⟨fun _ => ⟨hst, hall⟩, fun _ => rfl⟩, fun _ => rfl, _, rfl, ?_⟩
      rw [List.length_append, List.length_drop, hrl]
      omega
    · have hex : ∃ k, k < chunks ∧ ¬ fullChunk request (usb.bulk k) := by
        by_contra hne
        exact hall (fun n hn => by_contra fun hb => hne ⟨n, hn, hb⟩)
      classical
      have hk0 := Nat.find_spec hex
      have hmin : ∀ n, n < Nat.find hex → fullChunk request (usb.bulk n) := fun n hn =>
        by_contra fun hb => Nat.find_min hex hn ⟨by omega, hb⟩
      obtain ⟨usb', b', h1, _, h3⟩ := grabRawFrame_incomplete cam usb b size chunks request
        devreq (Nat.find hex) hopen htotal hreq hdev hR hsize hlen hst hk0.1 hmin hk0.2
        (hlib _)
      have hne : GrabFrameResult.TRANSFER_INCOMPLETE ≠ .SUCCESS := by decide
      exact ⟨_, h1, ⟨fun h => absurd h hne, fun h => absurd h.2 hall⟩, fun h => absurd h hne,
        b', rfl, h3⟩
  · have hne : GrabFrameResult.FAILED_TO_START_TRANSFER ≠ .SUCCESS := by decide
    refine ⟨{ result := .FAILED_TO_START_TRANSFER, frame_data := some b, size := size,
              usb := (usb.control_transfer 0x41 83 (le32Bytes devreq)).2 }, ?_,
      ⟨fun h => absurd h hne, fun h => absurd h.1 hst⟩, fun h => absurd h hne, b, rfl, rfl⟩
    rw [grabRawFrame_open cam usb b size _ request devreq hopen htotal hreq hdev hsize,
      if_neg hst]

/-- The scratch buffer `grabFrame` hands to `_grabRawFrame` holds at least the total
transfer size. -/
theorem scratch_length (buffer_ : List Byte) (total : Nat) :
    total ≤ (if buffer_.length < total then SeekThermalCamera.resizeBytes buffer_ total
      else buffer_).length := by
  split
  · rw [resizeBytes_length]
  · omega

/-- A `grabFrame` call whose transfer does not succeed returns the result of
`_grabRawFrame` and leaves the calibration reference and the header as they were. -/
theorem grabFrame_not_success (cam : SeekThermalCamera) (usb : Usb)
    (image_data : Option (Option (List Byte))) (size : Nat) (header : Option FrameHeader)
    (total width height : Nat) (raw : SeekThermalCamera.GrabRawOutcome)
    (hopen : cam.usb_device_handle_ ≠ none)
    (htotal : cam.device_._getFrameTransferTotalSize = .ok total)
    (hw : cam.device_.getFrameWidth = .ok width)
    (hh : cam.device_.getFrameHeight = .ok height)
    (hfit : ∀ img, image_data = some (some img) → width * height * 2 ≤ size)
    (hraw : cam._grabRawFrame usb
        (some (if cam.buffer_.length < total then SeekThermalCamera.resizeBytes cam.buffer_ total
          else cam.buffer_))
        (if cam.buffer_.length < total then SeekThermalCamera.resizeBytes cam.buffer_ total
          else cam.buffer_).length = .ok raw)
    (hres : raw.result ≠ .SUCCESS) :
    ∃ r, cam.grabFrame usb image_data size header = .ok r
      ∧ r.result = raw.result
      ∧ r.cam.calibration_frame_ = cam.calibration_frame_
      ∧ r.header = header := by
  obtain ⟨hd, hh'⟩ := Option.ne_none_iff_exists'.mp hopen
  unfold SeekThermalCamera.grabFrame
  rw [hh']
  rcases image_data with _ | _ | img
  · simp only [htotal, bind, Except.bind, pure, Except.pure, hraw, Bool.false_eq_true, if_false,
      hres, ne_eq, not_false_eq_true, if_true]
    exact ⟨_, rfl, rfl, rfl, rfl⟩
  · simp only [htotal, bind, Except.bind, pure, Except.pure, hraw, Bool.false_eq_true, if_false,
      hres, ne_eq, not_false_eq_true, if_true, SeekThermalCamera.getFrameSize,
      SeekThermalCamera.getFrameWidth, SeekThermalCamera.getFrameHeight, hw, hh]
    exact ⟨_, rfl, rfl, rfl, rfl⟩
  · have hns : ¬ size < width * height * 2 := by
      have := hfit img rfl
      omega
    simp only [htotal, bind, Except.bind, pure, Except.pure, hraw, Bool.false_eq_true, if_false,
      hres, ne_eq, not_false_eq_true, if_true, SeekThermalCamera.getFrameSize,
      SeekThermalCamera.getFrameWidth, SeekThermalCamera.getFrameHeight, hw, hh, hns,
      decide_False]
    exact ⟨_, rfl, rfl, rfl, rfl⟩

/-- The header data after `grabFrame` has resized it to the minimum size and copied
the start of the captured buffer over it. -/
theorem header_copy (data_ buf : List Byte) (min_size buffer_size : Nat)
    (hmin : min_size ≤ buffer_size) (hbuf : buffer_size = buf.length) :
    ∃ d, storeBytes
          (if data_.length < min_size then SeekThermalCamera.resizeBytes data_ min_size
            else data_)
          0
          (buf.take (min buffer_size
            (if data_.length < min_size then SeekThermalCamera.resizeBytes data_ min_size
              else data_).length)) = .ok d
      ∧ min_size ≤ d.length ∧ d.take min_size = buf.take min_size := by
  generalize hd0 : (if data_.length < min_size then SeekThermalCamera.resizeBytes data_ min_size
    else data_) = d0
  have hl : min_size ≤ d0.length := by
    rw [← hd0]
    split
    · rw [resizeBytes_length]
    · omega
  have hcl : (buf.take (min buffer_size d0.length)).length = min buffer_size d0.length := by
    rw [List.length_take]
    omega
  have hfit : 0 + (buf.take (min buffer_size d0.length)).length ≤ d0.length := by
    rw [hcl]; omega
  refine ⟨_, storeBytes_ok hfit, ?_, ?_⟩
  · rw [length_writeBytes hfit]
    exact hl
  · unfold writeBytes
    rw [List.take_zero, List.nil_append,
      List.take_append_of_le_length (by rw [hcl]; omega), List.take_take]
    congr 1
    omega

/-- A `grabFrame` call whose transfer succeeds, on a camera whose calibration reference
holds `width * height` samples: the scratch buffer is the captured buffer; the
calibration reference is replaced by `extractFrame` of the pixel region exactly when
the 16-bit sample at byte offset 4 is 1, and keeps its length; a requested header
carries the model and the first bytes of the captured buffer. -/
theorem grabFrame_on_success (cam : SeekThermalCamera) (usb : Usb)
    (image_data : Option (Option (List Byte))) (size : Nat) (header : Option FrameHeader)
    (total header_size min_size width height step : Nat)
    (raw : SeekThermalCamera.GrabRawOutcome) (buf : List Byte)
    (hsupp : cam.device_.type.supported)
    (hopen : cam.usb_device_handle_ ≠ none)
    (htotal : cam.device_._getFrameTransferTotalSize = .ok total)
    (hhs : cam.device_._getFrameHeaderSize = .ok header_size)
    (hmin : FrameHeader.GetMinHeaderSize cam.device_.type = .ok min_size)
    (hw : cam.device_.getFrameWidth = .ok width)
    (hh : cam.device_.getFrameHeight = .ok height)
    (hs : cam.device_._getRowStep = .ok step)
    (h6 : 6 ≤ total)
    (hpix : header_size + 2 * ((height - 1) * (step / 2) + width) ≤ total)
    (hminle : min_size ≤ total)
    (hcal : cam.calibration_frame_.length = 2 * (height * width))
    (hfit : ∀ img, image_data = some (some img) →
      width * height * 2 ≤ size ∧ 2 * (height * width) ≤ img.length)
    (hraw : cam._grabRawFrame usb
        (some (if cam.buffer_.length < total then SeekThermalCamera.resizeBytes cam.buffer_ total
          else cam.buffer_))
        (if cam.buffer_.length < total then SeekThermalCamera.resizeBytes cam.buffer_ total
          else cam.buffer_).length = .ok raw)
    (hres : raw.result = .SUCCESS) (hbuf : raw.frame_data = some buf)
    (hlen : buf.length = (if cam.buffer_.length < total
      then SeekThermalCamera.resizeBytes cam.buffer_ total else cam.buffer_).length) :
    ∃ r, cam.grabFrame usb image_data size header = .ok r
      ∧ r.result = .SUCCESS
      ∧ r.cam.buffer_ = buf
      ∧ (readU16LE buf 4 = 1 →
          cam.extractFrame (buf.drop header_size) cam.calibration_frame_
            = .ok r.cam.calibration_frame_)
      ∧ (readU16LE buf 4 ≠ 1 → r.cam.calibration_frame_ = cam.calibration_frame_)
      ∧ r.cam.calibration_frame_.length = cam.calibration_frame_.length
      ∧ (header = none → r.header = none)
      ∧ (∀ h, header = some h →
          ∃ d, r.header = some { type_ := cam.device_.type, data_ := d }
            ∧ min_size ≤ d.length ∧ d.take min_size = buf.take min_size) := by
  obtain ⟨hd, hh'⟩ := Option.ne_none_iff_exists'.mp hopen
  have hb0 := scratch_length cam.buffer_ total
  have hbl : total ≤ buf.length := by omega
  have hiscal := isCalibrationFrame_of_six cam.device_ buf hsupp (by omega)
  -- the calibration reference after the call
  obtain ⟨outC, hoC, hoCl, _⟩ := extractFrame_stored cam (buf.drop header_size)
    cam.calibration_frame_ width height step hw hh hs (by rw [List.length_drop]; omega)
    (by omega)
  obtain ⟨cal, hcaldef, hcall⟩ : ∃ cal, (if readU16LE buf 4 = 1 then outC
      else cam.calibration_frame_) = cal ∧ cal.length = cam.calibration_frame_.length := by
    refine ⟨_, rfl, ?_⟩
    split
    · exact hoCl
    · rfl
  have hexC : ∀ (b c : List Byte) (ctx hdl : Option Nat) (off : Nat) (own : Bool),
      SeekThermalCamera.extractFrame
        { device_ := cam.device_, buffer_ := b, calibration_frame_ := c,
          usb_context_ := ctx, usb_device_handle_ := hdl, offset_ := off,
          own_usb_context_ := own }
        (buf.drop header_size) cam.calibration_frame_ = .ok outC :=
    fun _ _ _ _ _ _ => hoC
  -- the header after the call
  have hheader : ∀ h : FrameHeader, ∃ d, storeBytes
        (if h.data_.length < min_size then SeekThermalCamera.resizeBytes h.data_ min_size
          else h.data_)
        0
        (buf.take (min (if cam.buffer_.length < total
            then SeekThermalCamera.resizeBytes cam.buffer_ total else cam.buffer_).length
          (if h.data_.length < min_size then SeekThermalCamera.resizeBytes h.data_ min_size
            else h.data_).length)) = .ok d
      ∧ min_size ≤ d.length ∧ d.take min_size = buf.take min_size :=
    fun h => header_copy h.data_ buf min_size _ (by omega) hlen.symm
  -- the image after the call, for either reference
  have himage : ∀ (img c : List Byte), 2 * (height * width) ≤ img.length →
      c.length = cam.calibration_frame_.length →
      ∃ outI outA,
        (∀ (b c' : List Byte) (ctx hdl : Option Nat) (off : Nat) (own : Bool),
          SeekThermalCamera.extractFrame
            { device_ := cam.device_, buffer_ := b, calibration_frame_ := c',
              usb_context_ := ctx, usb_device_handle_ := hdl, offset_ := off,
              own_usb_context_ := own }
            (buf.drop header_size) img = .ok outI)
        ∧ (∀ (b : List Byte) (ctx hdl : Option Nat) (own : Bool),
          SeekThermalCamera.applyCalibration
            { device_ := cam.device_, buffer_ := b, calibration_frame_ := c,
              usb_context_ := ctx, usb_device_handle_ := hdl, offset_ := cam.offset_,
              own_usb_context_ := own }
            outI = .ok outA) := by
    intro img c himg hc
    obtain ⟨outI, hoI, hoIl, _⟩ := extractFrame_stored cam (buf.drop header_size) img width
      height step hw hh hs (by rw [List.length_drop]; omega) himg
    obtain ⟨outA, hoA, _⟩ := applyCalibration_calibrated
      { cam with calibration_frame_ := c } outI
      (by show 2 * (c.length / 2) ≤ outI.length; omega)
    exact ⟨outI, outA, fun _ _ _ _ _ _ => hoI, fun _ _ _ _ => hoA⟩
  unfold SeekThermalCamera.grabFrame
  rw [hh']
  cases hb : (readU16LE buf 4 == 1)
  · have hne : readU16LE buf 4 ≠ 1 := by simpa using hb
    rcases header with _ | h
    · rcases image_data with _ | _ | img
      · simp only [htotal, bind, Except.bind, pure, Except.pure, hraw, hbuf, Option.getD_some,
          hhs, hiscal, hmin, hres, ne_eq, not_true_eq_false, if_false, if_true,
          Bool.false_eq_true, hb, SeekThermalCamera.getFrameSize,
          SeekThermalCamera.getFrameWidth, SeekThermalCamera.getFrameHeight, hw, hh]
        exact ⟨_, rfl, rfl, rfl, fun h1 => absurd h1 hne, fun _ => rfl, rfl, fun _ => rfl, fun h hh => nomatch hh⟩
      · obtain ⟨outI, outA, hI, hA⟩ := himage (List.replicate (width * height * 2) 0)
          cam.calibration_frame_
          (by rw [List.length_replicate, Nat.mul_comm height width]; omega) rfl
        simp only [htotal, bind, Except.bind, pure, Except.pure, hraw, hbuf, Option.getD_some,
          hhs, hiscal, hmin, hres, ne_eq, not_true_eq_false, if_false, if_true,
          Bool.false_eq_true, hb, SeekThermalCamera.getFrameSize,
          SeekThermalCamera.getFrameWidth, SeekThermalCamera.getFrameHeight, hw, hh, hI, hA]
        exact ⟨_, rfl, rfl, rfl, fun h1 => absurd h1 hne, fun _ => rfl, rfl, fun _ => rfl, fun h hh => nomatch hh⟩
      · obtain ⟨hsz, himg⟩ := hfit img rfl
        have hns : ¬ size < width * height * 2 := by omega
        obtain ⟨outI, outA, hI, hA⟩ := himage img cam.calibration_frame_ himg rfl
        simp only [htotal, bind, Except.bind, pure, Except.pure, hraw, hbuf, Option.getD_some,
          hhs, hiscal, hmin, hres, ne_eq, not_true_eq_false, if_false, if_true,
          Bool.false_eq_true, hb, SeekThermalCamera.getFrameSize,
          SeekThermalCamera.getFrameWidth, SeekThermalCamera.getFrameHeight, hw, hh, hI, hA, hns, decide_False]
        exact ⟨_, rfl, rfl, rfl, fun h1 => absurd h1 hne, fun _ => rfl, rfl, fun _ => rfl, fun h hh => nomatch hh⟩
    · obtain ⟨d, hd1, hd2, hd3⟩ := hheader h
      rcases image_data with _ | _ | img
      · simp only [htotal, bind, Except.bind, pure, Except.pure, hraw, hbuf, Option.getD_some,
          hhs, hiscal, hmin, hres, ne_eq, not_true_eq_false, if_false, if_true,
          Bool.false_eq_true, hb, SeekThermalCamera.getFrameSize,
          SeekThermalCamera.getFrameWidth, SeekThermalCamera.getFrameHeight, hw, hh, hd1]
        exact ⟨_, rfl, rfl, rfl, fun h1 => absurd h1 hne, fun _ => rfl, rfl, fun hh => (nomatch hh), fun _ _ => ⟨d, rfl, hd2, hd3⟩⟩
      · obtain ⟨outI, outA, hI, hA⟩ := himage (List.replicate (width * height * 2) 0)
          cam.calibration_frame_
          (by rw [List.length_replicate, Nat.mul_comm height width]; omega) rfl
        simp only [htotal, bind, Except.bind, pure, Except.pure, hraw, hbuf, Option.getD_some,
          hhs, hiscal, hmin, hres, ne_eq, not_true_eq_false, if_false, if_true,
          Bool.false_eq_true, hb, SeekThermalCamera.getFrameSize,
          SeekThermalCamera.getFrameWidth, SeekThermalCamera.getFrameHeight, hw, hh, hd1, hI, hA]
        exact ⟨_, rfl, rfl, rfl, fun h1 => absurd h1 hne, fun _ => rfl, rfl, fun hh => (nomatch hh), fun _ _ => ⟨d, rfl, hd2, hd3⟩⟩
      · obtain ⟨hsz, himg⟩ := hfit img rfl
        have hns : ¬ size < width * height * 2 := by omega
        obtain ⟨outI, outA, hI, hA⟩ := himage img cam.calibration_frame_ himg rfl
        simp only [htotal, bind, Except.bind, pure, Except.pure, hraw, hbuf, Option.getD_some,
          hhs, hiscal, hmin, hres, ne_eq, not_true_eq_false, if_false, if_true,
          Bool.false_eq_true, hb, SeekThermalCamera.getFrameSize,
          SeekThermalCamera.getFrameWidth, SeekThermalCamera.getFrameHeight, hw, hh, hd1, hI, hA, hns, decide_False]
        exact ⟨_, rfl, rfl, rfl, fun h1 => absurd h1 hne, fun _ => rfl, rfl, fun hh => (nomatch hh), fun _ _ => ⟨d, rfl, hd2, hd3⟩⟩
  · have he : readU16LE buf 4 = 1 := by simpa using hb
    rcases header with _ | h
    · rcases image_data with _ | _ | img
      · simp only [htotal, bind, Except.bind, pure, Except.pure, hraw, hbuf, Option.getD_some,
          hhs, hiscal, hmin, hres, ne_eq, not_true_eq_false, if_false, if_true,
          Bool.false_eq_true, hb, SeekThermalCamera.getFrameSize,
          SeekThermalCamera.getFrameWidth, SeekThermalCamera.getFrameHeight, hw, hh, hexC]
        exact ⟨_, rfl, rfl, rfl, fun _ => rfl, fun h1 => absurd he h1, hoCl, fun _ => rfl, fun h hh => nomatch hh⟩
      · obtain ⟨outI, outA, hI, hA⟩ := himage (List.replicate (width * height * 2) 0)
          outC
          (by rw [List.length_replicate, Nat.mul_comm height width]; omega) hoCl
        simp only [htotal, bind, Except.bind, pure, Except.pure, hraw, hbuf, Option.getD_some,
          hhs, hiscal, hmin, hres, ne_eq, not_true_eq_false, if_false, if_true,
          Bool.false_eq_true, hb, SeekThermalCamera.getFrameSize,
          SeekThermalCamera.getFrameWidth, SeekThermalCamera.getFrameHeight, hw, hh, hexC, hI, hA]
        exact ⟨_, rfl, rfl, rfl, fun _ => rfl, fun h1 => absurd he h1, hoCl, fun _ => rfl, fun h hh => nomatch hh⟩
      · obtain ⟨hsz, himg⟩ := hfit img rfl
        have hns : ¬ size < width * height * 2 := by omega
        obtain ⟨outI, outA, hI, hA⟩ := himage img outC himg hoCl
        simp only [htotal, bind, Except.bind, pure, Except.pure, hraw, hbuf, Option.getD_some,
          hhs, hiscal, hmin, hres, ne_eq, not_true_eq_false, if_false, if_true,
          Bool.false_eq_true, hb, SeekThermalCamera.getFrameSize,
          SeekThermalCamera.getFrameWidth, SeekThermalCamera.getFrameHeight, hw, hh, hexC, hI, hA, hns, decide_False]
        exact ⟨_, rfl, rfl, rfl, fun _ => rfl, fun h1 => absurd he h1, hoCl, fun _ => rfl, fun h hh => nomatch hh⟩
    · obtain ⟨d, hd1, hd2, hd3⟩ := hheader h
      rcases image_data with _ | _ | img
      · simp only [htotal, bind, Except.bind, pure, Except.pure, hraw, hbuf, Option.getD_some,
          hhs, hiscal, hmin, hres, ne_eq, not_true_eq_false, if_false, if_true,
          Bool.false_eq_true, hb, SeekThermalCamera.getFrameSize,
          SeekThermalCamera.getFrameWidth, SeekThermalCamera.getFrameHeight, hw, hh, hexC, hd1]
        exact ⟨_, rfl, rfl, rfl, fun _ => rfl, fun h1 => absurd he h1, hoCl, fun hh => (nomatch hh), fun _ _ => ⟨d, rfl, hd2, hd3⟩⟩
      · obtain ⟨outI, outA, hI, hA⟩ := himage (List.replicate (width * height * 2) 0)
          outC
          (by rw [List.length_replicate, Nat.mul_comm height width]; omega) hoCl
        simp only [htotal, bind, Except.bind, pure, Except.pure, hraw, hbuf, Option.getD_some,
          hhs, hiscal, hmin, hres, ne_eq, not_true_eq_false, if_false, if_true,
          Bool.false_eq_true, hb, SeekThermalCamera.getFrameSize,
          SeekThermalCamera.getFrameWidth, SeekThermalCamera.getFrameHeight, hw, hh, hexC, hd1, hI, hA]
        exact ⟨_, rfl, rfl, rfl, fun _ => rfl, fun h1 => absurd he h1, hoCl, fun hh => (nomatch hh), fun _ _ => ⟨d, rfl, hd2, hd3⟩⟩
      · obtain ⟨hsz, himg⟩ := hfit img rfl
        have hns : ¬ size < width * height * 2 := by omega
        obtain ⟨outI, outA, hI, hA⟩ := himage img outC himg hoCl
        simp only [htotal, bind, Except.bind, pure, Except.pure, hraw, hbuf, Option.getD_some,
          hhs, hiscal, hmin, hres, ne_eq, not_true_eq_false, if_false, if_true,
          Bool.false_eq_true, hb, SeekThermalCamera.getFrameSize,
          SeekThermalCamera.getFrameWidth, SeekThermalCamera.getFrameHeight, hw, hh, hexC, hd1, hI, hA, hns, decide_False]
        exact ⟨_, rfl, rfl, rfl, fun _ => rfl, fun h1 => absurd he h1, hoCl, fun hh => (nomatch hh), fun _ _ => ⟨d, rfl, hd2, hd3⟩⟩

/-- What every `grabFrame` call does to the calibration reference, for a model given by
its profile figures. -/
theorem grabFrame_reference_core (cam : SeekThermalCamera) (usb : Usb)
    (image_data : Option (Option (List Byte))) (size : Nat) (header : Option FrameHeader)
    (chunks request devreq header_size min_size width height step : Nat)
    (hsupp : cam.device_.type.supported)
    (htotal : cam.device_._getFrameTransferTotalSize = .ok (chunks * request))
    (hreq : cam.device_._getFrameTransferRequestSize = .ok request)
    (hdev : cam.device_._getFrameTransferDeviceRequestSize = .ok devreq)
    (hhs : cam.device_._getFrameHeaderSize = .ok header_size)
    (hmin : FrameHeader.GetMinHeaderSize cam.device_.type = .ok min_size)
    (hw : cam.device_.getFrameWidth = .ok width)
    (hh : cam.device_.getFrameHeight = .ok height)
    (hs : cam.device_._getRowStep = .ok step)
    (hR : 0 < request) (h6 : 6 ≤ chunks * request)
    (hpix : header_size + 2 * ((height - 1) * (step / 2) + width) ≤ chunks * request)
    (hminle : min_size ≤ chunks * request)
    (hcal : cam.calibration_frame_.length = 2 * (width * height))
    (himg : ∀ img, image_data = some (some img) → size ≤ img.length)
    (hlib : ∀ n, (usb.bulk n).data.length ≤ request) :
    ∃ r, cam.grabFrame usb image_data size header = .ok r
      ∧ (r.result ≠ .SUCCESS →
          r.cam.calibration_frame_ = cam.calibration_frame_ ∧ r.header = header)
      ∧ (r.result = .SUCCESS →
          cam.usb_device_handle_ ≠ none
          ∧ (usb.control 0).transferred = 4
          ∧ (∀ n, n < chunks → fullChunk request (usb.bulk n))
          ∧ r.cam.buffer_.take (chunks * request) = received usb.bulk chunks
          ∧ chunks * request ≤ r.cam.buffer_.length
          ∧ (readU16LE r.cam.buffer_ 4 = 1 →
              cam.extractFrame (r.cam.buffer_.drop header_size) cam.calibration_frame_
                = .ok r.cam.calibration_frame_)
          ∧ (readU16LE r.cam.buffer_ 4 ≠ 1 → r.cam.calibration_frame_ = cam.calibration_frame_)
          ∧ (header = none → r.header = none)
          ∧ (∀ h, header = some h →
              ∃ d, r.header = some { type_ := cam.device_.type, data_ := d }
                ∧ min_size ≤ d.length ∧ d.take min_size = r.cam.buffer_.take min_size))
      ∧ r.cam.calibration_frame_.length = cam.calibration_frame_.length
      ∧ (cam.usb_device_handle_ ≠ none →
          (∀ img, image_data = some (some img) → width * height * 2 ≤ size) →
          (usb.control 0).transferred = 4 →
          (∀ n, n < chunks → fullChunk request (usb.bulk n)) → r.result = .SUCCESS) := by
  have hwh : height * width = width * height := Nat.mul_comm _ _
  cases hopen : cam.usb_device_handle_ with
  | none =>
    have hne : GrabFrameResult.DEVICE_NOT_OPEN ≠ .SUCCESS := by decide
    refine ⟨⟨.DEVICE_NOT_OPEN, cam, image_data, size, header, usb⟩, ?_,
      fun _ => ⟨rfl, rfl⟩, fun h => absurd h hne, rfl, fun h => absurd rfl h⟩
    unfold SeekThermalCamera.grabFrame
    rw [hopen]
  | some hd =>
    have hopen' : cam.usb_device_handle_ ≠ none := by rw [hopen]; exact Option.some_ne_none _
    by_cases hsmall : ∃ img, image_data = some (some img) ∧ size < width * height * 2
    · obtain ⟨img, rfl, hlt⟩ := hsmall
      have hne : GrabFrameResult.BUFFER_TOO_SMALL ≠ .SUCCESS := by decide
      refine ⟨⟨.BUFFER_TOO_SMALL, cam, some (some img), size, header, usb⟩, ?_,
        fun _ => ⟨rfl, rfl⟩, fun h => absurd h hne, rfl, fun _ hfit _ _ => ?_⟩
      · unfold SeekThermalCamera.grabFrame
        rw [hopen]
        simp only [SeekThermalCamera.getFrameSize, SeekThermalCamera.getFrameWidth,
          SeekThermalCamera.getFrameHeight, hw, hh, bind, Except.bind, pure, Except.pure, hlt,
          decide_True, if_true]
      · have := hfit img rfl
        omega
    · have hfit : ∀ img, image_data = some (some img) →
          width * height * 2 ≤ size ∧ 2 * (height * width) ≤ img.length := by
        intro img himage
        have h1 : ¬ size < width * height * 2 := fun hlt => hsmall ⟨img, himage, hlt⟩
        have h2 := himg img himage
        constructor <;> omega
      have hb0 := scratch_length cam.buffer_ (chunks * request)
      obtain ⟨raw, hraw, hiff, hsucc, b', hb', hb'l⟩ := grabRawFrame_cases cam usb
        (if cam.buffer_.length < chunks * request
          then SeekThermalCamera.resizeBytes cam.buffer_ (chunks * request) else cam.buffer_)
        (if cam.buffer_.length < chunks * request
          then SeekThermalCamera.resizeBytes cam.buffer_ (chunks * request)
          else cam.buffer_).length
        chunks request devreq hopen' htotal hreq hdev hR hb0 hb0 hlib
      by_cases hres : raw.result = .SUCCESS
      · obtain ⟨hst, hfull⟩ := hiff.mp hres
        have hrl := received_length request chunks usb.bulk hfull
        obtain ⟨r, h1, h2, h3, h4, h5, h6', h7, h8⟩ := grabFrame_on_success cam usb image_data
          size header (chunks * request) header_size min_size width height step raw b' hsupp
          hopen' htotal hhs hmin hw hh hs h6 hpix hminle (by omega) hfit hraw hres hb' hb'l
        have hb'eq : b' = received usb.bulk chunks ++ List.drop (chunks * request)
            (if cam.buffer_.length < chunks * request
              then SeekThermalCamera.resizeBytes cam.buffer_ (chunks * request)
              else cam.buffer_) := by
          have := hsucc hres
          rw [hb'] at this
          injection this
        refine ⟨r, h1, fun hne => absurd h2 hne, fun _ => ?_, h6', fun _ _ _ _ => h2⟩
        rw [h3]
        refine ⟨Option.some_ne_none _, hst, hfull, ?_, by omega, h4, h5, h7, h8⟩
        rw [hb'eq, ← hrl]
        exact List.take_left' rfl
      · obtain ⟨r, h1, h2, h3, h4⟩ := grabFrame_not_success cam usb image_data size header
          (chunks * request) width height raw hopen' htotal hw hh (fun img hi => (hfit img hi).1)
          hraw hres
        refine ⟨r, h1, fun _ => ⟨h3, h4⟩, fun hs' => absurd (h2 ▸ hs') hres, by rw [h3],
          fun _ _ hst hfull => ?_⟩
        exact absurd (hiff.mpr ⟨hst, hfull⟩) hres

/-- C24: every `grabFrame` call on a camera of a supported model whose calibration
reference holds `width * height` samples returns (libusb never delivering more than
the requested chunk, a caller image buffer holding the `size` bytes announced).  If
the result is not `SUCCESS` the calibration reference is unchanged.  If it is
`SUCCESS`, `_isCalibrationFrame` classifies the captured buffer; if it is a
calibration frame, the new reference is `extractFrame` of the pixel region of the
captured buffer, and otherwise the reference is unchanged.  The reference keeps its
length in every case. -/
theorem grabFrame_reference_persistence (cam : SeekThermalCamera) (usb : Usb)
    (image_data : Option (Option (List Byte))) (size : Nat) (header : Option FrameHeader)
    (width height request : Nat)
    (hsupp : cam.device_.type.supported)
    (hw : cam.device_.getFrameWidth = .ok width)
    (hh : cam.device_.getFrameHeight = .ok height)
    (hreq : cam.device_._getFrameTransferRequestSize = .ok request)
    (hcal : cam.calibration_frame_.length = 2 * (width * height))
    (himg : ∀ img, image_data = some (some img) → size ≤ img.length)
    (hlib : ∀ n, (usb.bulk n).data.length ≤ request) :
    ∃ r, cam.grabFrame usb image_data size header = .ok r
      ∧ (r.result ≠ .SUCCESS → r.cam.calibration_frame_ = cam.calibration_frame_)
      ∧ (r.result = .SUCCESS →
          ∃ header_size is_calibration,
            cam.device_._getFrameHeaderSize = .ok header_size
            ∧ cam.device_._isCalibrationFrame r.cam.buffer_ = .ok is_calibration
            ∧ (is_calibration = true →
                cam.extractFrame (r.cam.buffer_.drop header_size) cam.calibration_frame_
                  = .ok r.cam.calibration_frame_)
            ∧ (is_calibration = false →
                r.cam.calibration_frame_ = cam.calibration_frame_))
      ∧ r.cam.calibration_frame_.length = cam.calibration_frame_.length := by
  have key : ∀ chunks devreq header_size min_size step : Nat,
      cam.device_._getFrameTransferTotalSize = .ok (chunks * request) →
      cam.device_._getFrameTransferDeviceRequestSize = .ok devreq →
      cam.device_._getFrameHeaderSize = .ok header_size →
      FrameHeader.GetMinHeaderSize cam.device_.type = .ok min_size →
      cam.device_._getRowStep = .ok step →
      0 < request → 6 ≤ chunks * request →
      header_size + 2 * ((height - 1) * (step / 2) + width) ≤ chunks * request →
      min_size ≤ chunks * request →
      ∃ r, cam.grabFrame usb image_data size header = .ok r
        ∧ (r.result ≠ .SUCCESS → r.cam.calibration_frame_ = cam.calibration_frame_)
        ∧ (r.result = .SUCCESS →
            ∃ header_size is_calibration,
              cam.device_._getFrameHeaderSize = .ok header_size
              ∧ cam.device_._isCalibrationFrame r.cam.buffer_ = .ok is_calibration
              ∧ (is_calibration = true →
                  cam.extractFrame (r.cam.buffer_.drop header_size) cam.calibration_frame_
                    = .ok r.cam.calibration_frame_)
              ∧ (is_calibration = false →
                  r.cam.calibration_frame_ = cam.calibration_frame_))
        ∧ r.cam.calibration_frame_.length = cam.calibration_frame_.length := by
    intro chunks devreq header_size min_size step htotal hdev hhs hmin hs hR h6 hpix hminle
    obtain ⟨r, h1, h2, h3, h4, _⟩ := grabFrame_reference_core cam usb image_data size header
      chunks request devreq header_size min_size width height step hsupp htotal hreq hdev hhs
      hmin hw hh hs hR h6 hpix hminle hcal himg hlib
    refine ⟨r, h1, fun hne => (h2 hne).1, fun hres => ?_, h4⟩
    obtain ⟨_, _, _, _, hlen, hc1, hc2, _⟩ := h3 hres
    refine ⟨header_size, readU16LE r.cam.buffer_ 4 == 1, hhs,
      isCalibrationFrame_of_six cam.device_ r.cam.buffer_ hsupp (by omega),
      fun hb => hc1 (by simpa using hb), fun hb => hc2 (by simpa using hb)⟩
  rcases profile_values cam.device_ hsupp with
    ⟨hw', hh', hs, hhs, htot, hreq', hdev, hmin, _⟩ | ⟨hw', hh', hs, hhs, htot, hreq', hdev, hmin, _⟩
  · have e1 : request = 16224 := by
      rw [hreq'] at hreq; injection hreq with hreq; exact hreq.symm
    have e2 : width = 206 := by
      rw [hw'] at hw; injection hw with hw; exact hw.symm
    have e3 : height = 156 := by
      rw [hh'] at hh; injection hh with hh; exact hh.symm
    subst e1 e2 e3
    exact key 4 32448 0 82 416 htot hdev hhs hmin hs (by decide) (by decide) (by decide)
      (by decide)
  · have e1 : request = 13680 := by
      rw [hreq'] at hreq; injection hreq with hreq; exact hreq.symm
    have e2 : width = 320 := by
      rw [hw'] at hw; injection hw with hw; exact hw.symm
    have e3 : height = 240 := by
      rw [hh'] at hh; injection hh with hh; exact hh.symm
    subst e1 e2 e3
    exact key 13 88920 2736 32 684 htot hdev hhs hmin hs (by decide) (by decide) (by decide)
      (by decide)

theorem mismatchUsb_contract : ∀ n, (mismatchUsb.bulk n).data.length ≤ 16224 := by
  intro n
  by_cases h0 : n = 0
  · subst h0
    exact le_of_eq mismatchChunk_length
  · simp only [mismatchUsb, if_neg h0]
    exact le_of_eq (List.length_replicate _ _)

/-- C24 at an open Compact camera, on a device whose frame carries 1 in the 16-bit
sample at byte offset 4 (a calibration frame for `_isCalibrationFrame`). -/
theorem grabFrame_reference_persistence_witness :
    ∃ r, compactCameraOpen.grabFrame mismatchUsb none 0 none = .ok r
      ∧ (r.result ≠ .SUCCESS →
          r.cam.calibration_frame_ = compactCameraOpen.calibration_frame_)
      ∧ (r.result = .SUCCESS →
          ∃ header_size is_calibration,
            compactCameraOpen.device_._getFrameHeaderSize = .ok header_size
            ∧ compactCameraOpen.device_._isCalibrationFrame r.cam.buffer_ = .ok is_calibration
            ∧ (is_calibration = true →
                compactCameraOpen.extractFrame (r.cam.buffer_.drop header_size)
                    compactCameraOpen.calibration_frame_
                  = .ok r.cam.calibration_frame_)
            ∧ (is_calibration = false →
                r.cam.calibration_frame_ = compactCameraOpen.calibration_frame_))
      ∧ r.cam.calibration_frame_.length = compactCameraOpen.calibration_frame_.length :=
  grabFrame_reference_persistence compactCameraOpen mismatchUsb none 0 none 206 156 16224
    (by decide) rfl rfl rfl compactCamera_calibration_length (fun img h => nomatch h)
    mismatchUsb_contract

/-! ### A header filled by `grabFrame` decodes -/

/-- A header of a supported model whose data reach past both offsets decodes: the
three accessors return, the frame number within 16 bits. -/
theorem header_decodes (t : SeekDeviceType) (d : List Byte) (number_offset type_offset : Nat)
    (ht : t.supported)
    (hno : FrameHeader.GetFrameNumberOffset t = .ok number_offset)
    (hto : FrameHeader.GetFrameTypeOffset t = .ok type_offset)
    (hlen : max number_offset type_offset + 2 ≤ d.length) :
    ∃ (number : Int) (raw_type : Nat) (frame_type : FrameType),
      FrameHeader.getFrameNumber { type_ := t, data_ := d } = .ok number
      ∧ 0 ≤ number ∧ number ≤ 65535
      ∧ FrameHeader._getRawFrameType { type_ := t, data_ := d } = .ok raw_type
      ∧ FrameHeader.getFrameType { type_ := t, data_ := d } = .ok frame_type := by
  have hnone : ¬ t = .None := supported_ne_none ht
  have h1 : ¬ d.length < number_offset + 2 := by omega
  have h2 : ¬ d.length < type_offset + 2 := by omega
  have hnum : FrameHeader.getFrameNumber { type_ := t, data_ := d }
      = .ok (readU16LE d number_offset : Int) := by
    unfold FrameHeader.getFrameNumber
    simp only [if_neg hnone, hno, bind, Except.bind, if_neg h1, loadU16_ok (show
      number_offset + 2 ≤ d.length by omega)]
  have hraw : FrameHeader._getRawFrameType { type_ := t, data_ := d }
      = .ok (readU16LE d type_offset) := by
    unfold FrameHeader._getRawFrameType
    simp only [if_neg hnone, hto, bind, Except.bind, if_neg h2, loadU16_ok (show
      type_offset + 2 ≤ d.length by omega)]
  have hty : ∃ frame_type, FrameHeader.getFrameType { type_ := t, data_ := d }
      = .ok frame_type := by
    unfold FrameHeader.getFrameType
    simp only [if_neg hnone, hraw, bind, Except.bind]
    repeat' split
    all_goals exact ⟨_, rfl⟩
  obtain ⟨ft, hft⟩ := hty
  have hlt := readU16LE_lt d number_offset
  exact ⟨_, _, ft, hnum, Int.ofNat_nonneg _, by omega, hraw, hft⟩

/-- C30: for every supported model `GetMinHeaderSize` is at least the larger of the
frame-number and frame-type offsets plus 2, and at most the total transfer size.
`grabFrame` with a header requested returns (libusb never delivering more than the
requested chunk, a caller image buffer holding the `size` bytes announced); on an open
session with a sufficient image size the result is `SUCCESS` when the start-transfer
write is accepted and every chunk arrives in full; and after `SUCCESS` the header
carries the model, its first `GetMinHeaderSize` bytes are the first bytes received,
and `getFrameNumber`, `_getRawFrameType` and `getFrameType` return, the frame number
in `0 .. 65535`. -/
theorem grabFrame_header_decodes (cam : SeekThermalCamera) (usb : Usb)
    (image_data : Option (Option (List Byte))) (size : Nat) (h : FrameHeader)
    (width height request : Nat)
    (hsupp : cam.device_.type.supported)
    (hw : cam.device_.getFrameWidth = .ok width)
    (hh : cam.device_.getFrameHeight = .ok height)
    (hreq : cam.device_._getFrameTransferRequestSize = .ok request)
    (hcal : cam.calibration_frame_.length = 2 * (width * height))
    (himg : ∀ img, image_data = some (some img) → size ≤ img.length)
    (hlib : ∀ n, (usb.bulk n).data.length ≤ request) :
    ∃ min_size number_offset type_offset total : Nat,
      FrameHeader.GetMinHeaderSize cam.device_.type = .ok min_size
      ∧ FrameHeader.GetFrameNumberOffset cam.device_.type = .ok number_offset
      ∧ FrameHeader.GetFrameTypeOffset cam.device_.type = .ok type_offset
      ∧ cam.device_._getFrameTransferTotalSize = .ok total
      ∧ max number_offset type_offset + 2 ≤ min_size ∧ min_size ≤ total
      ∧ ∃ r, cam.grabFrame usb image_data size (some h) = .ok r
          ∧ (cam.usb_device_handle_ ≠ none →
              (∀ img, image_data = some (some img) → width * height * 2 ≤ size) →
              (usb.control 0).transferred = 4 →
              (∀ n, n < total / request → fullChunk request (usb.bulk n)) →
              r.result = .SUCCESS)
          ∧ (r.result = .SUCCESS →
              ∃ header : FrameHeader, r.header = some header
                ∧ header.type_ = cam.device_.type
                ∧ min_size ≤ header.data_.length
                ∧ header.data_.take min_size
                    = (received usb.bulk (total / request)).take min_size
                ∧ ∃ (number : Int) (raw_type : Nat) (frame_type : FrameType),
                    header.getFrameNumber = .ok number
                    ∧ 0 ≤ number ∧ number ≤ 65535
                    ∧ header._getRawFrameType = .ok raw_type
                    ∧ header.getFrameType = .ok frame_type) := by
  have key : ∀ chunks devreq header_size min_size step number_offset type_offset : Nat,
      cam.device_._getFrameTransferTotalSize = .ok (chunks * request) →
      cam.device_._getFrameTransferDeviceRequestSize = .ok devreq →
      cam.device_._getFrameHeaderSize = .ok header_size →
      FrameHeader.GetMinHeaderSize cam.device_.type = .ok min_size →
      FrameHeader.GetFrameNumberOffset cam.device_.type = .ok number_offset →
      FrameHeader.GetFrameTypeOffset cam.device_.type = .ok type_offset →
      cam.device_._getRowStep = .ok step →
      0 < request → 6 ≤ chunks * request →
      header_size + 2 * ((height - 1) * (step / 2) + width) ≤ chunks * request →
      min_size ≤ chunks * request →
      max number_offset type_offset + 2 ≤ min_size →
      ∃ r, cam.grabFrame usb image_data size (some h) = .ok r
          ∧ (cam.usb_device_handle_ ≠ none →
              (∀ img, image_data = some (some img) → width * height * 2 ≤ size) →
              (usb.control 0).transferred = 4 →
              (∀ n, n < chunks * request / request → fullChunk request (usb.bulk n)) →
              r.result = .SUCCESS)
          ∧ (r.result = .SUCCESS →
              ∃ header : FrameHeader, r.header = some header
                ∧ header.type_ = cam.device_.type
                ∧ min_size ≤ header.data_.length
                ∧ header.data_.take min_size
                    = (received usb.bulk (chunks * request / request)).take min_size
                ∧ ∃ (number : Int) (raw_type : Nat) (frame_type : FrameType),
                    header.getFrameNumber = .ok number
                    ∧ 0 ≤ number ∧ number ≤ 65535
                    ∧ header._getRawFrameType = .ok raw_type
                    ∧ header.getFrameType = .ok frame_type) := by
    intro chunks devreq header_size min_size step number_offset type_offset htotal hdev hhs
      hmin hno hto hs hR h6 hpix hminle hoff
    rw [Nat.mul_div_cancel _ hR]
    obtain ⟨r, h1, _, h3, _, h5⟩ := grabFrame_reference_core cam usb image_data size (some h)
      chunks request devreq header_size min_size width height step hsupp htotal hreq hdev hhs
      hmin hw hh hs hR h6 hpix hminle hcal himg hlib
    refine ⟨r, h1, h5, fun hres => ?_⟩
    obtain ⟨_, _, _, htake, _, _, _, _, hhdr⟩ := h3 hres
    obtain ⟨d, hd1, hd2, hd3⟩ := hhdr h rfl
    refine ⟨_, hd1, rfl, hd2, ?_,
      header_decodes cam.device_.type d number_offset type_offset hsupp hno hto (by omega)⟩
    show d.take min_size = _
    rw [hd3, ← htake, List.take_take]
    congr 1
    omega
  rcases profile_values cam.device_ hsupp with
    ⟨hw', hh', hs, hhs, htot, hreq', hdev, hmin, hno, hto⟩
    | ⟨hw', hh', hs, hhs, htot, hreq', hdev, hmin, hno, hto⟩
  · have e1 : request = 16224 := by
      rw [hreq'] at hreq; injection hreq with hreq; exact hreq.symm
    have e2 : width = 206 := by
      rw [hw'] at hw; injection hw with hw; exact hw.symm
    have e3 : height = 156 := by
      rw [hh'] at hh; injection hh with hh; exact hh.symm
    subst e1 e2 e3
    exact ⟨82, 80, 20, 64896, hmin, hno, hto, htot, by decide, by decide,
      key 4 32448 0 82 416 80 20 htot hdev hhs hmin hno hto hs (by decide) (by decide)
        (by decide) (by decide) (by decide)⟩
  · have e1 : request = 13680 := by
      rw [hreq'] at hreq; injection hreq with hreq; exact hreq.symm
    have e2 : width = 320 := by
      rw [hw'] at hw; injection hw with hw; exact hw.symm
    have e3 : height = 240 := by
      rw [hh'] at hh; injection hh with hh; exact hh.symm
    subst e1 e2 e3
    exact ⟨32, 2, 4, 177840, hmin, hno, hto, htot, by decide, by decide,
      key 13 88920 2736 32 684 2 4 htot hdev hhs hmin hno hto hs (by decide) (by decide)
        (by decide) (by decide) (by decide)⟩

/-- C30 at an open Compact camera and a device that delivers four full chunks: the call
succeeds and the header filled decodes. -/
theorem grabFrame_header_decodes_witness :
    ∃ r header, compactCameraOpen.grabFrame mismatchUsb none 0 (some {}) = .ok r
      ∧ r.result = .SUCCESS ∧ r.header = some header
      ∧ ∃ (number : Int) (raw_type : Nat) (frame_type : FrameType),
          header.getFrameNumber = .ok number
          ∧ 0 ≤ number ∧ number ≤ 65535
          ∧ header._getRawFrameType = .ok raw_type
          ∧ header.getFrameType = .ok frame_type := by
  obtain ⟨min_size, number_offset, type_offset, total, _, _, _, htot, _, _, r, h1, h2, h3⟩ :=
    grabFrame_header_decodes compactCameraOpen mismatchUsb none 0 {} 206 156 16224
      (by decide) rfl rfl rfl compactCamera_calibration_length (fun img h => nomatch h)
      mismatchUsb_contract
  have e : 64896 = total := Except.ok.inj htot
  subst e
  have hres : r.result = .SUCCESS :=
    h2 (by decide) (fun img h => nomatch h) rfl (fun n hn => mismatchUsb_full n hn)
  obtain ⟨header, hh1, _, _, _, hdec⟩ := h3 hres
  exact ⟨r, header, h1, hres, hh1, hdec⟩

/-! ### `setupCamera`: the target-platform retry -/

/-- On a closed session `write` throws `USBError` and issues no call. -/
theorem Session.write_closed (s : Session) (command : SeekDeviceCommand) (data : List Byte)
    (hclosed : s.cam.usb_device_handle_ = none) :
    Session.write command data s = (.error (.USBError 0), s) := by
  unfold Session.write SeekThermalCamera.write
  rw [hclosed]

/-- The Nano300 setup when the first `TARGET_PLATFORM` write is not accepted: `close()`
is called, the device is not reopened, and the second `write` throws `USBError`
("Device not open!") before any transfer is issued. -/
theorem nano300_retry_without_reopen (cam : SeekThermalCamera) (usb : Usb) (handle : Nat)
    (htype : cam.device_.type = .SeekThermalNano300)
    (hopen : cam.usb_device_handle_ = some handle)
    (hrej : (usb.control 0).transferred ≠ 2) :
    Session.setupCamera { cam := cam, usb := usb }
      = (.error (.USBError 0),
         { cam := { cam with usb_device_handle_ := none }
           usb := { usb with
             control := fun n => usb.control (n + 1 + 1 + 1 + 1)
             calls := usb.calls ++ [.control_transfer 0x41 84 [0x00, 0x00]]
               ++ [operationModeOffCall] ++ [operationModeOffCall] ++ [operationModeOffCall]
               ++ [.release_interface handle 0] ++ [.close_device handle] } }) := by
  have hne : cam.usb_device_handle_ ≠ none := by rw [hopen]; exact Option.some_ne_none _
  have hne1 : ¬ (SeekDeviceType.SeekThermalNano300 = SeekDeviceType.SeekThermalCompact) := by
    decide
  have hne2 : ¬ (SeekDeviceType.SeekThermalNano300 = SeekDeviceType.SeekThermalCompactPro) := by
    decide
  have hrej' : ¬ (usb.control 0).transferred = (([0x00, 0x00] : List Byte).length : Int) := hrej
  unfold Session.setupCamera SeekThermalNano300.setupCamera
  simp only [Op.bind_eq, Op.getCam, htype, hne1, hne2, if_false, if_true,
    Session.write_of_open _ _ _ _ hne, hrej', decide_False, Bool.not_false]
  rw [Session.close_open _ handle hopen]
  simp only [Session.writeOrThrow, Op.bind_eq]
  rw [Session.write_closed _ _ _ rfl]
  rfl

/-- The sibling path.  The Compact and CompactPro setup when the first
`TARGET_PLATFORM` write is not accepted: `close()` (leaving the session `closed`), then
`openDevice()`; if that throws, so does the setup; if it reopens the device, the same
write is issued once more on the reopened device, and if that is not accepted either
the setup throws `SeekSetupError` with no further call. -/
theorem compact_retry_reopens (cam : SeekThermalCamera) (usb : Usb) (handle : Nat)
    (closed : Session)
    (htype : cam.device_.type = .SeekThermalCompact
      ∨ cam.device_.type = .SeekThermalCompactPro)
    (hopen : cam.usb_device_handle_ = some handle)
    (hrej : (usb.control 0).transferred ≠ 1)
    (hclosed : closed =
      { cam := { cam with usb_device_handle_ := none }
        usb := { usb with
          control := fun n => usb.control (n + 1 + 1 + 1 + 1)
          calls := usb.calls ++ [.control_transfer 0x41 84 [0x01]]
            ++ [operationModeOffCall] ++ [operationModeOffCall] ++ [operationModeOffCall]
            ++ [.release_interface handle 0] ++ [.close_device handle] } }) :
    (∀ e s2, Session.openDevice closed = (.error e, s2) →
      Session.setupCamera { cam := cam, usb := usb } = (.error e, s2))
    ∧ (∀ cam2 usb2, Session.openDevice closed = (.ok (), { cam := cam2, usb := usb2 }) →
      cam2.usb_device_handle_ ≠ none → (usb2.control 0).transferred ≠ 1 →
      Session.setupCamera { cam := cam, usb := usb }
        = (.error .SeekSetupError,
           { cam := cam2, usb := (usb2.control_transfer 0x41 84 [0x01]).2 })) := by
  have hne : cam.usb_device_handle_ ≠ none := by rw [hopen]; exact Option.some_ne_none _
  have hne1 : ¬ (SeekDeviceType.SeekThermalCompactPro = SeekDeviceType.SeekThermalCompact) := by
    decide
  have hrej' : ¬ (usb.control 0).transferred = (([0x01] : List Byte).length : Int) := hrej
  have hclose : Session.close
      { cam := cam
        usb := (usb.control_transfer 0x41 SeekDeviceCommand.TARGET_PLATFORM.code [0x01]).2 }
      = (.ok (), closed) := by
    rw [hclosed]
    exact Session.close_open _ handle hopen
  constructor
  · intro e s2 hreopen
    rcases htype with htype | htype
    · unfold Session.setupCamera SeekThermalCompact.setupCamera
      simp only [Op.bind_eq, Op.getCam, htype, if_true,
        Session.write_of_open _ _ _ _ hne, hrej', decide_False, Bool.not_false, hclose, hreopen]
    · unfold Session.setupCamera SeekThermalCompactPro.setupCamera
      simp only [Op.bind_eq, Op.getCam, htype, hne1, if_true, if_false,
        Session.write_of_open _ _ _ _ hne, hrej', decide_False, Bool.not_false, hclose, hreopen]
  · intro cam2 usb2 hreopen hopen2 hrej2
    have hrej2' : ¬ (usb2.control 0).transferred = (([0x01] : List Byte).length : Int) := hrej2
    rcases htype with htype | htype
    · unfold Session.setupCamera SeekThermalCompact.setupCamera
      simp only [Op.bind_eq, Op.getCam, htype, if_true,
        Session.write_of_open _ _ _ _ hne, hrej', decide_False, Bool.not_false, hclose, hreopen,
        Session.writeOrThrow, Session.write_of_open _ _ _ _ hopen2, hrej2']
      rfl
    · unfold Session.setupCamera SeekThermalCompactPro.setupCamera
      simp only [Op.bind_eq, Op.getCam, htype, hne1, if_true, if_false,
        Session.write_of_open _ _ _ _ hne, hrej', decide_False, Bool.not_false, hclose, hreopen,
        Session.writeOrThrow, Session.write_of_open _ _ _ _ hopen2, hrej2']
      rfl

/-- C21 (code defect) at the Nano300.  The device rejects the first `TARGET_PLATFORM`
write and would accept every later transfer.  `setupCamera` calls `close()` (three
mode-off writes, release, close) and then writes again without reopening: the second
`write` throws `USBError` ("Device not open!") and no second `TARGET_PLATFORM` transfer
is issued; the session ends with no handle. -/
theorem setupCamera_nano300_retry_not_reopened :
    (Session.setupCamera nano300RetrySession).1 = .error (.USBError 0)
    ∧ (Session.setupCamera nano300RetrySession).2.cam.usb_device_handle_ = none
    ∧ (Session.setupCamera nano300RetrySession).2.usb.calls
        = [.control_transfer 0x41 84 [0x00, 0x00],
           .control_transfer 0x41 60 [0x00, 0x00],
           .control_transfer 0x41 60 [0x00, 0x00],
           .control_transfer 0x41 60 [0x00, 0x00],
           .release_interface 0 0,
           .close_device 0] := by
  have e : nano300RetrySession
      = { cam := nano300CameraOpen, usb := nano300RetrySession.usb } := rfl
  rw [e, nano300_retry_without_reopen nano300CameraOpen nano300RetrySession.usb 0 rfl rfl
    (by decide)]
  exact ⟨rfl, rfl, rfl⟩


/-! ### `setupCamera`: bounded retries of the mode loops -/
theorem Op.bounded_bind {α β : Type} {m : Op α} {f : α → Op β} {j k : Nat}
    (hm : Op.Bounded m j) (hf : ∀ a, Op.Bounded (f a) k) :
    Op.Bounded (m >>= f) (j + k) := by
  intro s
  obtain ⟨h1, e1, hc1, hk1⟩ := hm s
  rw [Op.bind_eq]
  rcases hms : m s with ⟨r, s1⟩
  rw [hms] at h1 hc1
  cases r with
  | error e =>
    dsimp only
    exact ⟨(fun h => h1 (congrArg Except.error (Except.error.inj h))), e1, hc1, by omega⟩
  | ok a =>
    obtain ⟨h2, e2, hc2, hk2⟩ := hf a s1
    dsimp only
    refine ⟨h2, e1 ++ e2, ?_, ?_⟩
    · show (f a s1).2.usb.calls = _
      rw [hc2]
      show s1.usb.calls ++ e2 = _
      rw [show s1.usb.calls = s.usb.calls ++ e1 from hc1, List.append_assoc]
    · unfold setOperationModeWrites at *
      rw [List.countP_append]
      omega

theorem Op.bounded_mono {α : Type} {m : Op α} {k k' : Nat} (h : Op.Bounded m k)
    (hk : k ≤ k') : Op.Bounded m k' := fun s =>
  ⟨(h s).1, (h s).2.imp fun _ he => ⟨he.1, le_trans he.2 hk⟩⟩

theorem Op.bounded_returns {α : Type} {m : Op α} {k : Nat} (h : Op.Bounded m k) :
    Op.Returns m := fun s => (h s).1

theorem Op.bounded_pure {α : Type} (a : α) : Op.Bounded (pure a : Op α) 0 := fun _ =>
  ⟨(fun h => nomatch h), [], (List.append_nil _).symm, Nat.le_refl _⟩

theorem Op.bounded_fail {α : Type} (e : Fault) (he : e ≠ .OutOfFuel) :
    Op.Bounded (Op.fail e : Op α) 0 := fun _ =>
  ⟨fun h => he (Except.error.inj h), [], (List.append_nil _).symm, Nat.le_refl _⟩

theorem Session.write_bounded (command : SeekDeviceCommand) (data : List Byte) :
    Op.Bounded (Session.write command data) 1 := by
  intro s
  rcases s with ⟨cam, usb⟩
  cases hh : cam.usb_device_handle_ with
  | none =>
    rw [Session.write_closed ⟨cam, usb⟩ command data hh]
    exact ⟨(fun h => nomatch h), [], (List.append_nil _).symm, Nat.zero_le _⟩
  | some handle =>
    rw [Session.write_of_open cam usb command data (by rw [hh]; exact Option.some_ne_none _)]
    exact ⟨(fun h => nomatch h), [.control_transfer 0x41 command.code data], rfl,
      List.countP_le_length _⟩

theorem Session.read_bounded (command : SeekDeviceCommand) (data : List Byte) :
    Op.Bounded (Session.read command data) 0 := by
  intro s
  rcases s with ⟨cam, usb⟩
  unfold Session.read
  cases hh : cam.usb_device_handle_ with
  | none =>
    simp only [hh]
    exact ⟨(fun h => nomatch h), [], (List.append_nil _).symm, Nat.zero_le _⟩
  | some handle =>
    simp only [hh]
    split
    · exact ⟨(fun h => nomatch h), [.control_transfer 0xC0 command.code data], rfl,
        Nat.le_refl _⟩
    · split
      · exact ⟨(fun h => nomatch h), [.control_transfer 0xC0 command.code data], rfl,
          Nat.le_refl _⟩
      · exact ⟨(fun h => nomatch h), [.control_transfer 0xC0 command.code data], rfl,
          Nat.le_refl _⟩

theorem Session.writeOrThrow_bounded (command : SeekDeviceCommand) (data : List Byte) :
    Op.Bounded (Session.writeOrThrow command data) 1 := by
  unfold Session.writeOrThrow
  refine Op.bounded_bind (k := 0) (Session.write_bounded _ _) fun ok => ?_
  split
  · exact Op.bounded_fail _ (by decide)
  · exact Op.bounded_pure _

theorem Session.readOrThrow_bounded (command : SeekDeviceCommand) (data : List Byte) :
    Op.Bounded (Session.readOrThrow command data) 0 := by
  unfold Session.readOrThrow
  refine Op.bounded_bind (k := 0) (Session.read_bounded _ _) fun r => ?_
  split
  split
  · exact Op.bounded_fail _ (by decide)
  · exact Op.bounded_pure _

/-- The mode-off loop with `retries` attempts already counted and enough passes left in
the model: it returns or throws, and adds at most `10 - retries` mode writes. -/
theorem modeOff_bounded : ∀ (fuel retries : Nat) (data : List Byte), 10 - retries < fuel →
    Op.Bounded (Session.setupCamera_modeOff fuel retries data) (10 - retries)
  | 0, _, _, h => absurd h (Nat.not_lt_zero _)
  | fuel + 1, retries, data, h => by
    unfold Session.setupCamera_modeOff
    dsimp only
    split
    · exact Op.bounded_mono (Op.bounded_fail _ (by decide)) (Nat.zero_le _)
    · rename_i hr
      refine Op.bounded_mono (k := 1 + (0 + (10 - (retries + 1)))) ?_ (by omega)
      refine Op.bounded_bind (Session.writeOrThrow_bounded _ _) fun _ => ?_
      refine Op.bounded_bind (Session.readOrThrow_bounded _ _) fun d => ?_
      split
      · exact modeOff_bounded fuel (retries + 1) d (by omega)
      · exact Op.bounded_mono (Op.bounded_pure _) (Nat.zero_le _)

/-- The mode-on loop with `retries` attempts already counted and enough passes left in
the model: it returns or throws, and adds at most `10 - retries` mode writes. -/
theorem modeOn_bounded : ∀ (fuel retries : Nat) (data : List Byte), 10 - retries < fuel →
    Op.Bounded (Session.setupCamera_modeOn fuel retries data) (10 - retries)
  | 0, _, _, h => absurd h (Nat.not_lt_zero _)
  | fuel + 1, retries, data, h => by
    unfold Session.setupCamera_modeOn
    dsimp only
    split
    · exact Op.bounded_mono (Op.bounded_fail _ (by decide)) (Nat.zero_le _)
    · rename_i hr
      refine Op.bounded_mono (k := 1 + (0 + (10 - (retries + 1)))) ?_ (by omega)
      refine Op.bounded_bind (Session.write_bounded _ _) fun ok => ?_
      split
      · refine Op.bounded_mono (k := 0 + 0) ?_ (Nat.zero_le _)
        exact Op.bounded_bind (Session.read_bounded _ _) fun _ =>
          Op.bounded_fail _ (by decide)
      · refine Op.bounded_bind (Session.readOrThrow_bounded _ _) fun d => ?_
        split
        · exact modeOn_bounded fuel (retries + 1) d (by omega)
        · exact Op.bounded_mono (Op.bounded_pure _) (Nat.zero_le _)

theorem Op.returns_bind {α β : Type} {m : Op α} {f : α → Op β}
    (hm : Op.Returns m) (hf : ∀ a, Op.Returns (f a)) : Op.Returns (m >>= f) := by
  intro s
  have h1 := hm s
  rw [Op.bind_eq]
  rcases hms : m s with ⟨r, s1⟩
  rw [hms] at h1
  cases r with
  | error e =>
    dsimp only
    exact fun h => h1 (congrArg Except.error (Except.error.inj h))
  | ok a => exact hf a s1

theorem Op.returns_pure {α : Type} (a : α) : Op.Returns (pure a : Op α) :=
  fun _ h => nomatch h

theorem Op.returns_fail {α : Type} (e : Fault) (he : e ≠ .OutOfFuel) :
    Op.Returns (Op.fail e : Op α) := fun _ h => he (Except.error.inj h)

theorem Op.returns_lift {α : Type} (x : Except Fault α) (hx : x ≠ .error .OutOfFuel) :
    Op.Returns (Op.lift x) := fun _ => hx

theorem Op.returns_of_ok {α : Type} {m : Op α} (h : ∀ s, ∃ a, (m s).1 = .ok a) :
    Op.Returns m := fun s hs => by
  obtain ⟨a, ha⟩ := h s
  rw [ha] at hs
  exact nomatch hs

theorem modeOff_returns (data : List Byte) :
    Op.Returns (Session.setupCamera_modeOff 11 0 data) :=
  Op.bounded_returns (modeOff_bounded 11 0 data (by decide))

theorem modeOn_returns (data : List Byte) :
    Op.Returns (Session.setupCamera_modeOn 11 0 data) :=
  Op.bounded_returns (modeOn_bounded 11 0 data (by decide))

theorem Session.write_returns (command : SeekDeviceCommand) (data : List Byte) :
    Op.Returns (Session.write command data) := Op.bounded_returns (Session.write_bounded _ _)

theorem Session.writeOrThrow_returns (command : SeekDeviceCommand) (data : List Byte) :
    Op.Returns (Session.writeOrThrow command data) := Op.bounded_returns (Session.writeOrThrow_bounded _ _)

theorem Session.readOrThrow_returns (command : SeekDeviceCommand) (data : List Byte) :
    Op.Returns (Session.readOrThrow command data) := Op.bounded_returns (Session.readOrThrow_bounded _ _)

theorem Op.returns_getCam : Op.Returns Op.getCam := fun _ h => nomatch h

theorem Op.returns_setCam (cam : SeekThermalCamera) : Op.Returns (Op.setCam cam) :=
  fun _ h => nomatch h

theorem Op.returns_record (call : UsbCall) : Op.Returns (Op.record call) :=
  fun _ h => nomatch h

theorem Op.returns_foldlM {α β : Type} (f : β → α → Op β) (hf : ∀ b a, Op.Returns (f b a)) :
    ∀ (l : List α) (init : β), Op.Returns (l.foldlM f init)
  | [], init => by
    rw [List.foldlM_nil]
    exact Op.returns_pure _
  | a :: l, init => by
    rw [List.foldlM_cons]
    exact Op.returns_bind (hf init a) fun b => Op.returns_foldlM f hf l b

theorem getVendorID_not_fuel (d : SeekDevice) : d._getVendorID ≠ .error .OutOfFuel := by
  unfold SeekDevice._getVendorID
  split
  · exact fun h => nomatch h
  · exact fun h => nomatch h

theorem getProductID_not_fuel (d : SeekDevice) : d._getProductID ≠ .error .OutOfFuel := by
  unfold SeekDevice._getProductID
  split
  · exact fun h => nomatch h
  · split
    · exact fun h => nomatch h
    · exact fun h => nomatch h

theorem Session.close_returns : Op.Returns Session.close := fun s h => by
  rw [(Session.close_result s).1] at h
  exact nomatch h

theorem openDevice_scan_returns : ∀ (devices : List UsbDeviceInfo) (i : Nat),
    Op.Returns (Session.openDevice_scan devices i)
  | [], _ => Op.returns_pure _
  | device :: rest, i => by
    have ih := openDevice_scan_returns rest (i + 1)
    unfold Session.openDevice_scan
    repeat' with_reducible first
      | exact ih
      | exact Op.returns_pure _
      | exact Op.returns_getCam
      | exact Op.returns_record _
      | exact Op.returns_lift _ (getVendorID_not_fuel _)
      | exact Op.returns_lift _ (getProductID_not_fuel _)
      | exact Op.returns_of_ok (fun _ => ⟨_, rfl⟩)
      | refine Op.returns_bind ?_ (fun _ => ?_)
      | (dsimp only)
      | split

theorem openDevice_context_returns : Op.Returns Session.openDevice_context := by
  unfold Session.openDevice_context
  repeat' with_reducible first
    | exact Op.returns_pure _
    | exact Op.returns_getCam
    | exact Op.returns_setCam _
    | exact Op.returns_fail _ (fun h => Fault.noConfusion h)
    | exact Op.returns_of_ok (fun _ => ⟨_, rfl⟩)
    | refine Op.returns_bind ?_ (fun _ => ?_)
    | (dsimp only)
    | split

theorem openDevice_configure_returns (device : UsbDeviceInfo) (handle : Nat) :
    Op.Returns (Session.openDevice_configure device handle) := by
  unfold Session.openDevice_configure
  repeat' with_reducible first
    | exact Op.returns_pure _
    | exact Op.returns_record _
    | exact Op.returns_fail _ (fun h => Fault.noConfusion h)
    | refine Op.returns_bind ?_ (fun _ => ?_)
    | (dsimp only)
    | split

theorem Session.openDevice_returns : Op.Returns Session.openDevice := by
  unfold Session.openDevice
  repeat' with_reducible first
    | exact Op.returns_pure _
    | exact Op.returns_getCam
    | exact Op.returns_setCam _
    | exact openDevice_context_returns
    | exact openDevice_scan_returns _ _
    | exact openDevice_configure_returns _ _
    | exact Op.returns_fail _ (fun h => Fault.noConfusion h)
    | exact Op.returns_of_ok (fun _ => ⟨_, rfl⟩)
    | refine Op.returns_bind ?_ (fun _ => ?_)
    | (dsimp only)
    | split

theorem setupCamera_sweep_returns (data : List Byte) :
    Op.Returns (Session.setupCamera_sweep data) := by
  unfold Session.setupCamera_sweep
  exact Op.returns_foldlM _ (fun _ _ => Op.returns_bind
    (Session.writeOrThrow_returns _ _) fun _ => Session.readOrThrow_returns _ _) _ _

theorem Session.setupCamera_returns : Op.Returns Session.setupCamera := by
  unfold Session.setupCamera SeekThermalCompact.setupCamera SeekThermalCompactPro.setupCamera
    SeekThermalNano300.setupCamera
  repeat' with_reducible first
    | exact Op.returns_pure _
    | exact Op.returns_getCam
    | exact Session.write_returns _ _
    | exact Session.writeOrThrow_returns _ _
    | exact Session.readOrThrow_returns _ _
    | exact modeOff_returns _
    | exact modeOn_returns _
    | exact setupCamera_sweep_returns _
    | exact Session.close_returns
    | exact Session.openDevice_returns
    | exact Op.returns_fail _ (fun h => Fault.noConfusion h)
    | refine Op.returns_bind ?_ (fun _ => ?_)
    | (dsimp only)
    | split

theorem Session.write_accepted (cam : SeekThermalCamera) (usb : Usb)
    (command : SeekDeviceCommand) (data : List Byte) (hopen : cam.usb_device_handle_ ≠ none)
    (ht : (usb.control 0).transferred = (data.length : Int)) :
    Session.write command data { cam := cam, usb := usb }
      = (.ok true, { cam := cam, usb := (usb.control_transfer 0x41 command.code data).2 }) := by
  rw [Session.write_of_open cam usb command data hopen, decide_eq_true ht]

theorem Session.writeOrThrow_accepted (cam : SeekThermalCamera) (usb : Usb)
    (command : SeekDeviceCommand) (data : List Byte) (hopen : cam.usb_device_handle_ ≠ none)
    (ht : (usb.control 0).transferred = (data.length : Int)) :
    Session.writeOrThrow command data { cam := cam, usb := usb }
      = (.ok (), { cam := cam, usb := (usb.control_transfer 0x41 command.code data).2 }) := by
  unfold Session.writeOrThrow
  rw [Op.bind_eq, Session.write_accepted cam usb command data hopen ht]
  rfl

theorem Session.read_full (cam : SeekThermalCamera) (usb : Usb)
    (command : SeekDeviceCommand) (data : List Byte) (hopen : cam.usb_device_handle_ ≠ none)
    (ht : (usb.control 0).transferred = (data.length : Int))
    (hl : (usb.control 0).data.length = data.length) :
    Session.read command data { cam := cam, usb := usb }
      = (.ok (true, (usb.control 0).data),
         { cam := cam, usb := (usb.control_transfer 0xC0 command.code data).2 }) := by
  obtain ⟨handle, hh⟩ := Option.ne_none_iff_exists'.mp hopen
  have e1 : (usb.control 0).data.take data.length = (usb.control 0).data := by
    rw [← hl]; exact List.take_length _
  have e2 : data.drop data.length = [] := List.drop_length data
  have hlt : ¬ ((data.length : Int) < 0) := by omega
  unfold Session.read
  simp only [hh, Usb.control_transfer, e1, e2, List.append_nil, ht, hlt, if_false,
    Int.toNat_ofNat, hl, ne_eq, not_true_eq_false]

theorem Session.readOrThrow_full (cam : SeekThermalCamera) (usb : Usb)
    (command : SeekDeviceCommand) (data : List Byte) (hopen : cam.usb_device_handle_ ≠ none)
    (ht : (usb.control 0).transferred = (data.length : Int))
    (hl : (usb.control 0).data.length = data.length) :
    Session.readOrThrow command data { cam := cam, usb := usb }
      = (.ok (usb.control 0).data,
         { cam := cam, usb := (usb.control_transfer 0xC0 command.code data).2 }) := by
  unfold Session.readOrThrow
  rw [Op.bind_eq, Session.read_full cam usb command data hopen ht hl]
  rfl

theorem modeNeverConfirmed_tail (usb : Usb) (wanted : Byte) (n : Nat) (a b : Nat)
    (p q : List Byte) (h : modeNeverConfirmed usb wanted (n + 1)) :
    modeNeverConfirmed ((usb.control_transfer 0x41 a p).2.control_transfer 0xC0 b q).2
      wanted n := by
  intro i hi
  have := h (i + 1) (by omega)
  have e1 : 2 * (i + 1) = 2 * i + 1 + 1 := by omega
  have e2 : 2 * (i + 1) + 1 = 2 * i + 1 + 1 + 1 := by omega
  rw [e2, e1] at this
  exact this

/-- The mode-off loop against a device that never confirms: after the passes that
remain it throws `SeekSetupError`, one write and one read-back per pass. -/
theorem modeOff_exhausted : ∀ (n fuel retries : Nat) (data : List Byte)
    (cam : SeekThermalCamera) (usb : Usb), cam.usb_device_handle_ ≠ none → data.length = 2 →
    retries + n = 10 → n < fuel → modeNeverConfirmed usb 0x00 n →
    ∃ s' extra, Session.setupCamera_modeOff fuel retries data { cam := cam, usb := usb }
        = (.error .SeekSetupError, s')
      ∧ s'.usb.calls = usb.calls ++ extra ∧ extra.length = 2 * n
      ∧ setOperationModeWrites extra = n
  | _, 0, _, _, _, _, _, _, _, hf, _ => absurd hf (Nat.not_lt_zero _)
  | 0, fuel + 1, retries, data, cam, usb, _, _, hr, _, _ => by
    have hr' : retries + 1 > 10 := by omega
    refine ⟨{ cam := cam, usb := usb }, [], ?_, (List.append_nil _).symm, rfl, rfl⟩
    unfold Session.setupCamera_modeOff
    simp only [hr', if_true]
    rfl
  | n + 1, fuel + 1, retries, data, cam, usb, hopen, hd, hr, hf, h => by
    have hr' : ¬ (retries + 1 > 10) := by omega
    obtain ⟨h1, h2, h3, h4, h5⟩ := h 0 (by omega)
    have hw : (usb.control 0).transferred = (([0x00, 0x00] : List Byte).length : Int) := h1
    have ht : (((usb.control_transfer 0x41 60 [0x00, 0x00]).2).control 0).transferred
        = (data.length : Int) := by rw [hd]; exact h2
    have hl : (((usb.control_transfer 0x41 60 [0x00, 0x00]).2).control 0).data.length
        = data.length := by rw [hd]; exact h3
    have hcont : (((usb.control_transfer 0x41 60 [0x00, 0x00]).2).control 0).data.getD 0 0
          ≠ 0x00
        ∧ (((usb.control_transfer 0x41 60 [0x00, 0x00]).2).control 0).data.getD 1 0
          ≠ 0x00 := ⟨h4, h5⟩
    obtain ⟨s', extra, hrun, hcalls, hlen, hcount⟩ :=
      modeOff_exhausted n fuel (retries + 1)
        (((usb.control_transfer 0x41 60 [0x00, 0x00]).2).control 0).data cam
        (((usb.control_transfer 0x41 60 [0x00, 0x00]).2).control_transfer 0xC0 61 data).2
        hopen (hl.trans hd) (by omega) (by omega) (modeNeverConfirmed_tail usb _ n _ _ _ _ h)
    refine ⟨s', [.control_transfer 0x41 60 [0x00, 0x00], .control_transfer 0xC0 61 data]
      ++ extra, ?_, ?_, ?_, ?_⟩
    · unfold Session.setupCamera_modeOff
      simp only [hr', if_false, Op.bind_eq,
        Session.writeOrThrow_accepted cam usb .SET_OPERATION_MODE [0x00, 0x00] hopen hw,
        SeekDeviceCommand.code]
      rw [Session.readOrThrow_full cam _ .GET_OPERATION_MODE data hopen ht hl]
      dsimp only
      rw [if_pos hcont]
      exact hrun
    · rw [hcalls]
      show (usb.calls ++ [_] ++ [_]) ++ extra = _
      simp only [List.append_assoc, List.singleton_append, List.cons_append, List.nil_append]
    · rw [List.length_append, hlen]
      simp only [List.length_cons, List.length_nil]
      omega
    · unfold setOperationModeWrites at hcount ⊢
      rw [List.countP_append, hcount]
      have : List.countP isSetOperationModeWrite
          [.control_transfer 0x41 60 [0x00, 0x00], .control_transfer 0xC0 61 data] = 1 := rfl
      omega

/-- The mode-on loop against a device that never confirms: after the passes that
remain it throws `SeekSetupError`, one write and one read-back per pass. -/
theorem modeOn_exhausted : ∀ (n fuel retries : Nat) (data : List Byte)
    (cam : SeekThermalCamera) (usb : Usb), cam.usb_device_handle_ ≠ none →
    retries + n = 10 → n < fuel → modeNeverConfirmed usb 0x01 n →
    ∃ s' extra, Session.setupCamera_modeOn fuel retries data { cam := cam, usb := usb }
        = (.error .SeekSetupError, s')
      ∧ s'.usb.calls = usb.calls ++ extra ∧ extra.length = 2 * n
      ∧ setOperationModeWrites extra = n
  | _, 0, _, _, _, _, _, _, hf, _ => absurd hf (Nat.not_lt_zero _)
  | 0, fuel + 1, retries, data, cam, usb, _, hr, _, _ => by
    have hr' : retries + 1 > 10 := by omega
    refine ⟨{ cam := cam, usb := usb }, [], ?_, (List.append_nil _).symm, rfl, rfl⟩
    unfold Session.setupCamera_modeOn
    simp only [hr', if_true]
    rfl
  | n + 1, fuel + 1, retries, data, cam, usb, hopen, hr, hf, h => by
    have hr' : ¬ (retries + 1 > 10) := by omega
    obtain ⟨h1, h2, h3, h4, h5⟩ := h 0 (by omega)
    have hd : (SeekThermalCamera.resizeBytes data 2).length = 2 := resizeBytes_length data 2
    have hw : (usb.control 0).transferred = (([0x01, 0x00] : List Byte).length : Int) := h1
    have ht : (((usb.control_transfer 0x41 60 [0x01, 0x00]).2).control 0).transferred
        = ((SeekThermalCamera.resizeBytes data 2).length : Int) := by rw [hd]; exact h2
    have hl : (((usb.control_transfer 0x41 60 [0x01, 0x00]).2).control 0).data.length
        = (SeekThermalCamera.resizeBytes data 2).length := by rw [hd]; exact h3
    have hcont : (((usb.control_transfer 0x41 60 [0x01, 0x00]).2).control 0).data.getD 0 0
          ≠ 0x01
        ∧ (((usb.control_transfer 0x41 60 [0x01, 0x00]).2).control 0).data.getD 1 0
          ≠ 0x00 := ⟨h4, h5⟩
    obtain ⟨s', extra, hrun, hcalls, hlen, hcount⟩ :=
      modeOn_exhausted n fuel (retries + 1)
        (((usb.control_transfer 0x41 60 [0x01, 0x00]).2).control 0).data cam
        (((usb.control_transfer 0x41 60 [0x01, 0x00]).2).control_transfer 0xC0 61
          (SeekThermalCamera.resizeBytes data 2)).2
        hopen (by omega) (by omega) (modeNeverConfirmed_tail usb _ n _ _ _ _ h)
    refine ⟨s', [.control_transfer 0x41 60 [0x01, 0x00],
      .control_transfer 0xC0 61 (SeekThermalCamera.resizeBytes data 2)] ++ extra, ?_, ?_, ?_, ?_⟩
    · unfold Session.setupCamera_modeOn
      simp only [hr', if_false, Op.bind_eq,
        Session.write_accepted cam usb .SET_OPERATION_MODE [0x01, 0x00] hopen hw,
        SeekDeviceCommand.code, Bool.not_true, Bool.false_eq_true]
      rw [Session.readOrThrow_full cam _ .GET_OPERATION_MODE _ hopen ht hl]
      dsimp only
      rw [if_pos hcont]
      exact hrun
    · rw [hcalls]
      show (usb.calls ++ [_] ++ [_]) ++ extra = _
      simp only [List.append_assoc, List.singleton_append, List.cons_append, List.nil_append]
    · rw [List.length_append, hlen]
      simp only [List.length_cons, List.length_nil]
      omega
    · unfold setOperationModeWrites at hcount ⊢
      rw [List.countP_append, hcount]
      have : List.countP isSetOperationModeWrite
          [.control_transfer 0x41 60 [0x01, 0x00],
           .control_transfer 0xC0 61 (SeekThermalCamera.resizeBytes data 2)] = 1 := rfl
      omega

theorem compact_modeOff_exhausted (cam : SeekThermalCamera) (usb : Usb)
    (htype : cam.device_.type = .SeekThermalCompact)
    (hopen : cam.usb_device_handle_ ≠ none)
    (hw : (usb.control 0).transferred = 1)
    (h : modeNeverConfirmed (usb.control_transfer 0x41 84 [0x01]).2 0x00 10) :
    ∃ s' extra, Session.setupCamera { cam := cam, usb := usb } = (.error .SeekSetupError, s')
      ∧ s'.usb.calls = usb.calls ++ [.control_transfer 0x41 84 [0x01]] ++ extra
      ∧ extra.length = 20 ∧ setOperationModeWrites extra = 10 := by
  obtain ⟨s', extra, hrun, hcalls, hlen, hcount⟩ :=
    modeOff_exhausted 10 11 0 (List.replicate 2 0) cam _ hopen rfl rfl (by decide) h
  refine ⟨s', extra, ?_, hcalls, hlen, hcount⟩
  have hw' : (usb.control 0).transferred = (([0x01] : List Byte).length : Int) := hw
  unfold Session.setupCamera SeekThermalCompact.setupCamera
  simp only [Op.bind_eq, Op.getCam, htype, if_true,
    Session.write_accepted cam usb .TARGET_PLATFORM [0x01] hopen hw', Bool.not_true,
    Bool.false_eq_true, if_false, Op.pure_eq, SeekDeviceCommand.code]
  rw [hrun]

theorem compactPro_modeOff_exhausted (cam : SeekThermalCamera) (usb : Usb)
    (htype : cam.device_.type = .SeekThermalCompactPro)
    (hopen : cam.usb_device_handle_ ≠ none)
    (hw : (usb.control 0).transferred = 1)
    (h : modeNeverConfirmed (usb.control_transfer 0x41 84 [0x01]).2 0x00 10) :
    ∃ s' extra, Session.setupCamera { cam := cam, usb := usb } = (.error .SeekSetupError, s')
      ∧ s'.usb.calls = usb.calls ++ [.control_transfer 0x41 84 [0x01]] ++ extra
      ∧ extra.length = 20 ∧ setOperationModeWrites extra = 10 := by
  obtain ⟨s', extra, hrun, hcalls, hlen, hcount⟩ :=
    modeOff_exhausted 10 11 0 (List.replicate 2 0) cam _ hopen rfl rfl (by decide) h
  refine ⟨s', extra, ?_, hcalls, hlen, hcount⟩
  have hw' : (usb.control 0).transferred = (([0x01] : List Byte).length : Int) := hw
  have hne : ¬ (SeekDeviceType.SeekThermalCompactPro = SeekDeviceType.SeekThermalCompact) := by
    decide
  unfold Session.setupCamera SeekThermalCompactPro.setupCamera
  simp only [Op.bind_eq, Op.getCam, htype, hne, if_true,
    Session.write_accepted cam usb .TARGET_PLATFORM [0x01] hopen hw', Bool.not_true,
    Bool.false_eq_true, if_false, Op.pure_eq, SeekDeviceCommand.code]
  rw [hrun]

theorem nano300_modeOff_exhausted (cam : SeekThermalCamera) (usb : Usb)
    (htype : cam.device_.type = .SeekThermalNano300)
    (hopen : cam.usb_device_handle_ ≠ none)
    (hw : (usb.control 0).transferred = 2)
    (h : modeNeverConfirmed (usb.control_transfer 0x41 84 [0x00, 0x00]).2 0x00 10) :
    ∃ s' extra, Session.setupCamera { cam := cam, usb := usb } = (.error .SeekSetupError, s')
      ∧ s'.usb.calls = usb.calls ++ [.control_transfer 0x41 84 [0x00, 0x00]] ++ extra
      ∧ extra.length = 20 ∧ setOperationModeWrites extra = 10 := by
  obtain ⟨s', extra, hrun, hcalls, hlen, hcount⟩ :=
    modeOff_exhausted 10 11 0 (List.replicate 2 0) cam _ hopen rfl rfl (by decide) h
  refine ⟨s', extra, ?_, hcalls, hlen, hcount⟩
  have hw' : (usb.control 0).transferred = (([0x00, 0x00] : List Byte).length : Int) := hw
  have hne1 : ¬ (SeekDeviceType.SeekThermalNano300 = SeekDeviceType.SeekThermalCompact) := by
    decide
  have hne2 : ¬ (SeekDeviceType.SeekThermalNano300 = SeekDeviceType.SeekThermalCompactPro) := by
    decide
  unfold Session.setupCamera SeekThermalNano300.setupCamera
  simp only [Op.bind_eq, Op.getCam, htype, hne1, hne2, if_true,
    Session.write_accepted cam usb .TARGET_PLATFORM [0x00, 0x00] hopen hw', Bool.not_true,
    Bool.false_eq_true, if_false, Op.pure_eq, SeekDeviceCommand.code]
  rw [hrun]

theorem modeOn_scripted_exhausted (cam : SeekThermalCamera)
    (hopen : cam.usb_device_handle_ ≠ none) (tail : List ControlReply)
    (h : modeNeverConfirmed (scriptedUsb tail) 0x01 10) (data : List Byte)
    (calls : List UsbCall) :
    ∃ s' extra, Session.setupCamera_modeOn 11 0 data (scriptedSession cam tail calls)
        = (.error .SeekSetupError, s')
      ∧ s'.usb.calls = calls ++ extra ∧ extra.length = 20
      ∧ setOperationModeWrites extra = 10 :=
  modeOn_exhausted 10 11 0 data cam _ hopen rfl (by decide) h

/-- A failing last loop of `setupCamera`: the failure of the loop is the failure of the
whole run, whatever would have followed. -/
theorem last_loop_fails {α β : Type} (r : Except Fault α × Session) (f : α → Op β)
    (calls : List UsbCall) (n k : Nat)
    (h : ∃ s' extra, r = (.error .SeekSetupError, s') ∧ s'.usb.calls = calls ++ extra
      ∧ extra.length = 20 ∧ setOperationModeWrites extra = 10)
    (hn : calls.length = n) (hk : setOperationModeWrites calls = k) :
    ∃ s' before extra,
      (match r with
        | (.ok a, s') => f a s'
        | (.error e, s') => (.error e, s')) = (.error .SeekSetupError, s')
      ∧ s'.usb.calls = before ++ extra ∧ before.length = n
      ∧ setOperationModeWrites before = k
      ∧ extra.length = 20 ∧ setOperationModeWrites extra = 10 := by
  obtain ⟨s', extra, hr, hcalls, hlen, hcount⟩ := h
  subst hr
  exact ⟨s', calls, extra, rfl, hcalls, hn, hk, hlen, hcount⟩

theorem compact_modeOn_exhausted (cam : SeekThermalCamera)
    (htype : cam.device_.type = .SeekThermalCompact)
    (hopen : cam.usb_device_handle_ ≠ none) (tail : List ControlReply)
    (h : modeNeverConfirmed (scriptedUsb tail) 0x01 10) :
    ∃ s' before extra,
      Session.setupCamera (scriptedSession cam (compactSetupReplies ++ tail) [])
        = (.error .SeekSetupError, s')
      ∧ s'.usb.calls = before ++ extra ∧ before.length = 11
      ∧ setOperationModeWrites before = 1
      ∧ extra.length = 20 ∧ setOperationModeWrites extra = 10 := by
  have herr : ¬ (([0, 0, 0, 0] : List Byte).getD 0 0 ≠ 0x00
      ∨ ([0, 0, 0, 0] : List Byte).getD 1 0 ≠ 0x00
      ∨ ([0, 0, 0, 0] : List Byte).getD 2 0 ≠ 0x00
      ∨ ([0, 0, 0, 0] : List Byte).getD 3 0 ≠ 0x00) := by decide
  unfold Session.setupCamera SeekThermalCompact.setupCamera compactSetupReplies
  simp only [Op.bind_eq, Op.getCam, scriptedSession_cam, htype, if_true, if_false,
    List.cons_append, List.nil_append,
    write_scripted_ok cam hopen, Bool.not_true, Bool.false_eq_true, Op.pure_eq,
    modeOff_scripted_exit cam hopen 10 0 (List.replicate 2 0) [0x00, 0x00] _ _ (by decide) rfl
      (by decide),
    writeOrThrow_scripted cam hopen, readOrThrow_scripted cam hopen,
    List.length_cons, List.length_nil, Nat.reduceAdd, resizeBytes_length,
    List.length_replicate, herr, List.append_assoc]
  refine last_loop_fails _ _ ?_ 11 1 ?_ ?_ ?_
  rotate_left
  · exact modeOn_scripted_exhausted cam hopen tail h _ _
  · rfl
  · rfl

theorem sweepCalls_writes (addrs : List Nat) :
    ∀ data : List Byte, setOperationModeWrites (sweepCalls data addrs) = 0 := by
  induction addrs with
  | nil => intro _; rfl
  | cons a l ih =>
    intro data
    have h := ih (List.replicate 64 0)
    unfold setOperationModeWrites at h ⊢
    rw [sweepCalls, List.countP_cons_of_neg _ _ (Bool.eq_false_iff.mp rfl),
      List.countP_cons_of_neg _ _ (Bool.eq_false_iff.mp rfl), h]

theorem compactPro_modeOn_exhausted (cam : SeekThermalCamera)
    (htype : cam.device_.type = .SeekThermalCompactPro)
    (hopen : cam.usb_device_handle_ ≠ none) (tail : List ControlReply)
    (h : modeNeverConfirmed (scriptedUsb tail) 0x01 10) :
    ∃ s' before extra,
      Session.setupCamera (scriptedSession cam (compactProSetupReplies ++ tail) [])
        = (.error .SeekSetupError, s')
      ∧ s'.usb.calls = before ++ extra ∧ before.length = 171
      ∧ setOperationModeWrites before = 1
      ∧ extra.length = 20 ∧ setOperationModeWrites extra = 10 := by
  have herr : ¬ (([0, 0, 0, 0] : List Byte).getD 0 0 ≠ 0x00
      ∨ ([0, 0, 0, 0] : List Byte).getD 1 0 ≠ 0x00
      ∨ ([0, 0, 0, 0] : List Byte).getD 2 0 ≠ 0x00
      ∨ ([0, 0, 0, 0] : List Byte).getD 3 0 ≠ 0x00) := by decide
  have hne : ¬ (SeekDeviceType.SeekThermalCompactPro = SeekDeviceType.SeekThermalCompact) := by
    decide
  have h80 : ((List.range 80).map fun i => i * 0x20).length = 80 := by
    rw [List.length_map, List.length_range]
  unfold Session.setupCamera SeekThermalCompactPro.setupCamera compactProSetupReplies
    Session.setupCamera_sweep
  simp only [Op.bind_eq, Op.getCam, scriptedSession_cam, htype, hne, if_true, if_false,
    List.cons_append, List.nil_append,
    write_scripted_ok cam hopen, Bool.not_true, Bool.false_eq_true, Op.pure_eq,
    modeOff_scripted_exit cam hopen 10 0 (List.replicate 2 0) [0x00, 0x00] _ _ (by decide) rfl
      (by decide),
    writeOrThrow_scripted cam hopen, readOrThrow_scripted cam hopen,
    sweep_scripted cam hopen _ _ 80 h80,
    List.length_cons, List.length_nil, Nat.reduceAdd, resizeBytes_length,
    List.length_replicate, herr, List.append_assoc]
  refine last_loop_fails _ _ ?_ 171 1 ?_ ?_ ?_
  rotate_left
  · exact modeOn_scripted_exhausted cam hopen tail h _ _
  · simp only [List.length_append, List.length_cons, List.length_nil, sweepCalls_length, h80]
  · have hs := sweepCalls_writes ((List.range 80).map fun i => i * 0x20) [0, 0]
    unfold setOperationModeWrites at hs ⊢
    simp only [List.countP_cons, List.countP_append, List.countP_nil, hs]
    rfl

theorem nano300_modeOn_exhausted (cam : SeekThermalCamera)
    (htype : cam.device_.type = .SeekThermalNano300)
    (hopen : cam.usb_device_handle_ ≠ none) (tail : List ControlReply)
    (h : modeNeverConfirmed (scriptedUsb tail) 0x01 10) :
    ∃ s' before extra,
      Session.setupCamera (scriptedSession cam (nano300SetupReplies ++ tail) [])
        = (.error .SeekSetupError, s')
      ∧ s'.usb.calls = before ++ extra ∧ before.length = 181
      ∧ setOperationModeWrites before = 1
      ∧ extra.length = 20 ∧ setOperationModeWrites extra = 10 := by
  have herr : ¬ (([0, 0, 0, 0] : List Byte).getD 0 0 ≠ 0x00
      ∧ ([0, 0, 0, 0] : List Byte).getD 1 0 ≠ 0x00
      ∧ ([0, 0, 0, 0] : List Byte).getD 2 0 ≠ 0x00
      ∧ ([0, 0, 0, 0] : List Byte).getD 3 0 ≠ 0x00) := by decide
  have hne1 : ¬ (SeekDeviceType.SeekThermalNano300 = SeekDeviceType.SeekThermalCompact) := by
    decide
  have hne2 : ¬ (SeekDeviceType.SeekThermalNano300 = SeekDeviceType.SeekThermalCompactPro) := by
    decide
  have h80 : ((List.range 80).map fun i => i * 0x20).length = 80 := by
    rw [List.length_map, List.length_range]
  unfold Session.setupCamera SeekThermalNano300.setupCamera nano300SetupReplies
    Session.setupCamera_sweep
  simp only [Op.bind_eq, Op.getCam, scriptedSession_cam, htype, hne1, hne2, if_true, if_false,
    List.cons_append, List.nil_append,
    write_scripted_ok cam hopen, Bool.not_true, Bool.false_eq_true, Op.pure_eq,
    modeOff_scripted_exit cam hopen 10 0 (List.replicate 2 0) [0, 0] _ _ (by decide) rfl
      (by decide),
    writeOrThrow_scripted cam hopen, readOrThrow_scripted cam hopen,
    sweep_scripted cam hopen _ _ 80 h80,
    List.length_cons, List.length_nil, Nat.reduceAdd, resizeBytes_length,
    List.length_replicate, herr, List.append_assoc]
  refine last_loop_fails _ _ ?_ 181 1 ?_ ?_ ?_
  rotate_left
  · exact modeOn_scripted_exhausted cam hopen tail h _ _
  · simp only [List.length_append, List.length_cons, List.length_nil, sweepCalls_length, h80]
  · have hs := sweepCalls_writes ((List.range 80).map fun i => i * 0x20) (List.replicate 4 0)
    unfold setOperationModeWrites at hs ⊢
    simp only [List.countP_cons, List.countP_append, List.countP_nil, hs]
    rfl

/-- C22: bounded retries.  From every state and for every sequence of device replies,
each mode-confirmation loop of `setupCamera` (both are entered with `retries = 0`)
returns or throws and adds at most 10 `SET_OPERATION_MODE` writes to the libusb calls.
On an open session whose device accepts the write and answers the read-back in full
without meeting the exit condition for 10 passes, the loop throws `SeekSetupError`
after exactly 10 writes and 20 transfers, the last being the 10th read-back: no 11th
write is issued.  `setupCamera` as a whole always returns or throws.  For each of the
three models that failure is the failure of `setupCamera`: in the mode-off loop after an
accepted `TARGET_PLATFORM` write, and in the mode-on loop after a setup that went
through up to that loop. -/
theorem setupCamera_bounded_retries (s : Session) (data : List Byte) :
    ((Session.setupCamera_modeOff 11 0 data s).1 ≠ .error .OutOfFuel
      ∧ ∃ extra, (Session.setupCamera_modeOff 11 0 data s).2.usb.calls = s.usb.calls ++ extra
          ∧ setOperationModeWrites extra ≤ 10)
    ∧ ((Session.setupCamera_modeOn 11 0 data s).1 ≠ .error .OutOfFuel
      ∧ ∃ extra, (Session.setupCamera_modeOn 11 0 data s).2.usb.calls = s.usb.calls ++ extra
          ∧ setOperationModeWrites extra ≤ 10)
    ∧ (s.cam.usb_device_handle_ ≠ none → data.length = 2 →
        modeNeverConfirmed s.usb 0x00 10 →
        (Session.setupCamera_modeOff 11 0 data s).1 = .error .SeekSetupError
        ∧ ∃ extra,
            (Session.setupCamera_modeOff 11 0 data s).2.usb.calls = s.usb.calls ++ extra
            ∧ extra.length = 20 ∧ setOperationModeWrites extra = 10)
    ∧ (s.cam.usb_device_handle_ ≠ none → modeNeverConfirmed s.usb 0x01 10 →
        (Session.setupCamera_modeOn 11 0 data s).1 = .error .SeekSetupError
        ∧ ∃ extra,
            (Session.setupCamera_modeOn 11 0 data s).2.usb.calls = s.usb.calls ++ extra
            ∧ extra.length = 20 ∧ setOperationModeWrites extra = 10)
    ∧ (Session.setupCamera s).1 ≠ .error .OutOfFuel
    ∧ (s.cam.usb_device_handle_ ≠ none →
        (s.cam.device_.type = .SeekThermalCompact ∨ s.cam.device_.type = .SeekThermalCompactPro
          ∨ s.cam.device_.type = .SeekThermalNano300) →
        (s.usb.control 0).transferred
          = (if s.cam.device_.type = .SeekThermalNano300 then 2 else 1) →
        modeNeverConfirmed { s.usb with control := fun n => s.usb.control (n + 1) } 0x00 10 →
        (Session.setupCamera s).1 = .error .SeekSetupError
        ∧ ∃ extra,
            (Session.setupCamera s).2.usb.calls
              = s.usb.calls
                ++ [.control_transfer 0x41 84
                      (if s.cam.device_.type = .SeekThermalNano300 then [0x00, 0x00]
                       else [0x01])]
                ++ extra
            ∧ extra.length = 20 ∧ setOperationModeWrites extra = 10)
    ∧ (s.cam.usb_device_handle_ ≠ none →
        ∀ tail : List ControlReply, modeNeverConfirmed (scriptedUsb tail) 0x01 10 →
        ∀ (replies : List ControlReply) (n : Nat),
          (s.cam.device_.type = .SeekThermalCompact ∧ replies = compactSetupReplies ∧ n = 11)
          ∨ (s.cam.device_.type = .SeekThermalCompactPro ∧ replies = compactProSetupReplies
              ∧ n = 171)
          ∨ (s.cam.device_.type = .SeekThermalNano300 ∧ replies = nano300SetupReplies
              ∧ n = 181) →
          (Session.setupCamera (scriptedSession s.cam (replies ++ tail) [])).1
            = .error .SeekSetupError
          ∧ ∃ before extra,
              (Session.setupCamera (scriptedSession s.cam (replies ++ tail) [])).2.usb.calls
                = before ++ extra
              ∧ before.length = n ∧ setOperationModeWrites before = 1
              ∧ extra.length = 20 ∧ setOperationModeWrites extra = 10) := by
  rcases s with ⟨cam, usb⟩
  refine ⟨modeOff_bounded 11 0 data (by decide) _, modeOn_bounded 11 0 data (by decide) _,
    ?_, ?_, Session.setupCamera_returns _, ?_, ?_⟩
  · intro hopen hd h
    obtain ⟨s', extra, hrun, hcalls, hlen, hcount⟩ :=
      modeOff_exhausted 10 11 0 data cam usb hopen hd rfl (by decide) h
    rw [hrun]
    exact ⟨rfl, extra, hcalls, hlen, hcount⟩
  · intro hopen h
    obtain ⟨s', extra, hrun, hcalls, hlen, hcount⟩ :=
      modeOn_exhausted 10 11 0 data cam usb hopen rfl (by decide) h
    rw [hrun]
    exact ⟨rfl, extra, hcalls, hlen, hcount⟩
  · intro hopen htype hw h
    have hC : ¬ (SeekDeviceType.SeekThermalCompact = SeekDeviceType.SeekThermalNano300) := by
      decide
    have hP : ¬ (SeekDeviceType.SeekThermalCompactPro = SeekDeviceType.SeekThermalNano300) := by
      decide
    rcases htype with ht | ht | ht
    · have ht' : cam.device_.type = .SeekThermalCompact := ht
      simp only [ht', hC, if_false] at hw ⊢
      obtain ⟨s', extra, hrun, hcalls, hlen, hcount⟩ :=
        compact_modeOff_exhausted cam usb ht' hopen hw h
      rw [hrun]
      exact ⟨rfl, extra, hcalls, hlen, hcount⟩
    · have ht' : cam.device_.type = .SeekThermalCompactPro := ht
      simp only [ht', hP, if_false] at hw ⊢
      obtain ⟨s', extra, hrun, hcalls, hlen, hcount⟩ :=
        compactPro_modeOff_exhausted cam usb ht' hopen hw h
      rw [hrun]
      exact ⟨rfl, extra, hcalls, hlen, hcount⟩
    · have ht' : cam.device_.type = .SeekThermalNano300 := ht
      simp only [ht', if_true] at hw ⊢
      obtain ⟨s', extra, hrun, hcalls, hlen, hcount⟩ :=
        nano300_modeOff_exhausted cam usb ht' hopen hw h
      rw [hrun]
      exact ⟨rfl, extra, hcalls, hlen, hcount⟩
  · intro hopen tail h replies n hcase
    rcases hcase with ⟨ht, hr, hn⟩ | ⟨ht, hr, hn⟩ | ⟨ht, hr, hn⟩
    · subst hr hn
      obtain ⟨s', before, extra, hrun, hrest⟩ := compact_modeOn_exhausted cam ht hopen tail h
      rw [hrun]
      exact ⟨rfl, before, extra, hrest⟩
    · subst hr hn
      obtain ⟨s', before, extra, hrun, hrest⟩ :=
        compactPro_modeOn_exhausted cam ht hopen tail h
      rw [hrun]
      exact ⟨rfl, before, extra, hrest⟩
    · subst hr hn
      obtain ⟨s', before, extra, hrun, hrest⟩ := nano300_modeOn_exhausted cam ht hopen tail h
      rw [hrun]
      exact ⟨rfl, before, extra, hrest⟩

theorem neverConfirmingSession_replies :
    modeNeverConfirmed neverConfirmingSession.usb 0x00 10
    ∧ modeNeverConfirmed neverConfirmingSession.usb 0x01 10 := by
  constructor <;> intro i hi <;> interval_cases i <;> decide

theorem neverOffSession_replies :
    modeNeverConfirmed
      { neverOffSession.usb with control := fun n => neverOffSession.usb.control (n + 1) }
      0x00 10 := by
  intro i hi
  interval_cases i <;> decide

theorem setupCamera_bounded_retries_witness :
    ((Session.setupCamera_modeOff 11 0 [0, 0] neverConfirmingSession).1
        = .error .SeekSetupError
      ∧ ∃ extra,
          (Session.setupCamera_modeOff 11 0 [0, 0] neverConfirmingSession).2.usb.calls
            = neverConfirmingSession.usb.calls ++ extra
          ∧ extra.length = 20 ∧ setOperationModeWrites extra = 10)
    ∧ ((Session.setupCamera_modeOn 11 0 [0, 0] neverConfirmingSession).1
        = .error .SeekSetupError
      ∧ ∃ extra,
          (Session.setupCamera_modeOn 11 0 [0, 0] neverConfirmingSession).2.usb.calls
            = neverConfirmingSession.usb.calls ++ extra
          ∧ extra.length = 20 ∧ setOperationModeWrites extra = 10)
    ∧ (Session.setupCamera neverConfirmingSession).1 ≠ .error .OutOfFuel
    ∧ (Session.setupCamera neverOffSession).1 = .error .SeekSetupError :=
  ⟨(setupCamera_bounded_retries neverConfirmingSession [0, 0]).2.2.1
      compactCameraOpen_open rfl neverConfirmingSession_replies.1,
   (setupCamera_bounded_retries neverConfirmingSession [0, 0]).2.2.2.1
      compactCameraOpen_open neverConfirmingSession_replies.2,
   (setupCamera_bounded_retries neverConfirmingSession [0, 0]).2.2.2.2.1,
   ((setupCamera_bounded_retries neverOffSession [0, 0]).2.2.2.2.2.1
      compactCameraOpen_open (Or.inl rfl) rfl neverOffSession_replies).1⟩

end openseekthermal
